import Mathlib

/-!
# LadybugVulkan: a shallow embedding of `src/Main.cpp`

The program is one translation unit: a few helpers (`Clamp`,
`VulkanExtractVersion`) and a long `main` that walks through instance
creation, device selection, surface negotiation, swapchain setup and the
frame loop while mutating one `SVulkanState` record.

The embedding keeps that shape.  Everything the program learns from the
outside world (the Vulkan loader and driver, the Win32 window system, the file
system) is gathered in an `Env` record of answers; `main` is a pure function
from an `Env` to a `Run`, which holds the way the process ended, the final
`SVulkanState`, the lines written to standard output and the recorded
sequence of Vulkan calls.

Unsigned 32-bit quantities are natural numbers; none of the modelled
arithmetic can overflow (the code only compares, masks, shifts right and takes
minima and maxima of them).  Enumerations of the Vulkan headers are natural
numbers with the values of the headers.  Every `assert` is taken to be
compiled in: a failed assertion ends the run with `Outcome.assertFailed`.

Loops are recursive functions over the part of the table still to be visited,
with the loop counter and the mutated state as further arguments; a `break`
returns at once, a `continue` recurs on the rest.  The frame loop, which need
not terminate, is run against a finite script of frames: when the script is
used up while `bRunning` still holds, the run ends as `Outcome.running`.
-/

namespace Ladybug

/-! ## Constants of the Vulkan and Win32 headers used by the program -/

/-- Value of `UINT32_MAX`. -/
def UINT32_MAX : Nat := 4294967295

/-- Value of `UINT64_MAX`. -/
def UINT64_MAX : Nat := 18446744073709551615

/-- Null handle, `VK_NULL_HANDLE`. -/
def VK_NULL_HANDLE : Nat := 0

/-- Result code `VK_SUCCESS`. -/
def VK_SUCCESS : Int := 0

/-- Format code `VK_FORMAT_UNDEFINED`. -/
def VK_FORMAT_UNDEFINED : Nat := 0

/-- Format code `VK_FORMAT_R8G8B8A8_UNORM`. -/
def VK_FORMAT_R8G8B8A8_UNORM : Nat := 37

/-- Format code `VK_FORMAT_B8G8R8A8_UNORM`. -/
def VK_FORMAT_B8G8R8A8_UNORM : Nat := 44

/-- Colour space code `VK_COLOR_SPACE_SRGB_NONLINEAR_KHR`. -/
def VK_COLOR_SPACE_SRGB_NONLINEAR_KHR : Nat := 0

/-- Queue capability bit `VK_QUEUE_GRAPHICS_BIT`. -/
def VK_QUEUE_GRAPHICS_BIT : Nat := 1

/-- Queue capability bit `VK_QUEUE_COMPUTE_BIT`. -/
def VK_QUEUE_COMPUTE_BIT : Nat := 2

/-- Queue capability bit `VK_QUEUE_TRANSFER_BIT`. -/
def VK_QUEUE_TRANSFER_BIT : Nat := 4

/-- Present mode `VK_PRESENT_MODE_IMMEDIATE_KHR`. -/
def VK_PRESENT_MODE_IMMEDIATE_KHR : Nat := 0

/-- Present mode `VK_PRESENT_MODE_MAILBOX_KHR`. -/
def VK_PRESENT_MODE_MAILBOX_KHR : Nat := 1

/-- Present mode `VK_PRESENT_MODE_FIFO_KHR`. -/
def VK_PRESENT_MODE_FIFO_KHR : Nat := 2

/-- Present mode `VK_PRESENT_MODE_FIFO_RELAXED_KHR`. -/
def VK_PRESENT_MODE_FIFO_RELAXED_KHR : Nat := 3

/-- Pipeline stage bit `VK_PIPELINE_STAGE_COLOR_ATTACHMENT_OUTPUT_BIT`. -/
def VK_PIPELINE_STAGE_COLOR_ATTACHMENT_OUTPUT_BIT : Nat := 1024

/-- Window message code `WM_QUIT`. -/
def WM_QUIT : Nat := 18

/-- Window message code `WM_CLOSE`. -/
def WM_CLOSE : Nat := 16

/-- Window message code `WM_PAINT`. -/
def WM_PAINT : Nat := 15

/-- Extension name `VK_KHR_SURFACE_EXTENSION_NAME`. -/
def VK_KHR_SURFACE_EXTENSION_NAME : String := "VK_KHR_surface"

/-- Extension name `VK_KHR_WIN32_SURFACE_EXTENSION_NAME`. -/
def VK_KHR_WIN32_SURFACE_EXTENSION_NAME : String := "VK_KHR_win32_surface"

/-- Extension name `VK_EXT_DEBUG_REPORT_EXTENSION_NAME`. -/
def VK_EXT_DEBUG_REPORT_EXTENSION_NAME : String := "VK_EXT_debug_report"

/-- Extension name `VK_EXT_DEBUG_UTILS_EXTENSION_NAME`. -/
def VK_EXT_DEBUG_UTILS_EXTENSION_NAME : String := "VK_EXT_debug_utils"

/-- Modelled from the spec: the macro `VK_VERSION_MAJOR` is defined in the
Vulkan header `vulkan_core.h`, which is not among the sources.  The major
field is the version word shifted right by 22 bits. -/
def VK_VERSION_MAJOR (version : Nat) : Nat := version >>> 22

/-- Modelled from the spec: the macro `VK_VERSION_MINOR` is defined in the
Vulkan header `vulkan_core.h`, which is not among the sources.  The minor
field is the version word shifted right by 12 bits and masked with `0x3FF`. -/
def VK_VERSION_MINOR (version : Nat) : Nat := (version >>> 12) &&& 0x3ff

/-- Modelled from the spec: the macro `VK_VERSION_PATCH` is defined in the
Vulkan header `vulkan_core.h`, which is not among the sources.  The patch
field is the version word masked with `0xFFF`. -/
def VK_VERSION_PATCH (version : Nat) : Nat := version &&& 0xfff

/-! ## Helpers at the top of `Main.cpp` -/

/-- The template `Clamp(Val, Min, Max)`: `std::max(Min, std::min(Val, Max))`. -/
def Clamp (Val Min Max : Nat) : Nat := max Min (min Val Max)

/-- The `SVulkanVersion` record. -/
structure SVulkanVersion where
  ApiVersion : Nat := 0
  MajorVersion : Nat := 0
  MinorVersion : Nat := 0
  PatchVersion : Nat := 0
  deriving DecidableEq, Repr

/-- The function `VulkanExtractVersion(ApiVersion)`. -/
def VulkanExtractVersion (ApiVersion : Nat) : SVulkanVersion :=
  { ApiVersion := ApiVersion
    MajorVersion := VK_VERSION_MAJOR ApiVersion
    MinorVersion := VK_VERSION_MINOR ApiVersion
    PatchVersion := VK_VERSION_PATCH ApiVersion }

/-! ## Vulkan records read by the program -/

/-- The `VkExtent2D` record. -/
structure VkExtent2D where
  width : Nat := 0
  height : Nat := 0
  deriving DecidableEq, Repr

/-- The `VkSurfaceFormatKHR` record. -/
structure VkSurfaceFormatKHR where
  format : Nat
  colorSpace : Nat
  deriving DecidableEq, Repr

/-- The fields of `VkSurfaceCapabilitiesKHR` that the program reads. -/
structure VkSurfaceCapabilitiesKHR where
  minImageCount : Nat := 0
  maxImageCount : Nat := 0
  currentExtent : VkExtent2D := {}
  minImageExtent : VkExtent2D := {}
  maxImageExtent : VkExtent2D := {}
  deriving DecidableEq, Repr

/-- The fields of `VkQueueFamilyProperties` that the program reads. -/
structure VkQueueFamilyProperties where
  queueFlags : Nat
  queueCount : Nat := 1
  deriving DecidableEq, Repr

/-! ## The program state -/

/-- The `SVulkanPhysicalDevice` record: the handle, the extracted version and
the queue-family table.  The property, feature, memory, layer and extension
tables are filled in by the enumeration but never read afterwards; they are
left out. -/
structure SVulkanPhysicalDevice where
  Device : Nat
  Version : SVulkanVersion := {}
  QueueFamilies : List VkQueueFamilyProperties := []
  deriving DecidableEq, Repr

/-- An image view, identified by the `VkImageViewCreateInfo` it was created
from (image and format; the remaining fields are the same constants for every
view: 2D view type, identity swizzle, colour aspect, one level, one layer). -/
structure VkImageView where
  image : Nat
  format : Nat
  deriving DecidableEq, Repr

/-- A framebuffer, identified by the `VkFramebufferCreateInfo` it was created
from.  `attachments` holds the values read from `SwapchainImageViews`; an
entry is `none` when the read is past the end of the table. -/
structure VkFramebuffer where
  attachments : List (Option VkImageView)
  width : Nat
  height : Nat
  layers : Nat := 1
  deriving DecidableEq, Repr

/-- One command recorded into a command buffer.  `vkCmdBeginRenderPass`
carries the value read from `Framebuffers` (`none` when the read is past
the end of the table) and the extent of the render area. -/
inductive Command
  | vkCmdBeginRenderPass (framebuffer : Option VkFramebuffer) (renderArea : VkExtent2D)
  | vkCmdBindPipeline
  | vkCmdDraw (vertexCount instanceCount firstVertex firstInstance : Nat)
  | vkCmdEndRenderPass
  deriving DecidableEq, Repr

/-- A command buffer, identified by its slot in the allocation and by the
commands recorded into it (none right after the allocation). -/
structure VkCommandBuffer where
  slot : Nat
  commands : List Command := []
  deriving DecidableEq, Repr

/-- The two semaphores created before the frame loop. -/
inductive Semaphore
  | ImageAvailableSemaphore
  | RenderFinishedSemaphore
  deriving DecidableEq, Repr

/-- The `SVulkanState` record (the fields that carry handles without any
decision attached, such as `Instance`, `Device`, `Queue`, `Swapchain`,
`Shader`, `RenderPass`, `Pipeline` and `CommandPool`, are left out).  Each
field defaults to its value under `SVulkanState VulkanState = {}`. -/
structure SVulkanState where
  Version : SVulkanVersion := {}
  InstanceLayers : List String := []
  InstanceExtensions : List String := []
  PhysicalDevices : List SVulkanPhysicalDevice := []
  SelectedDevice : Nat := VK_NULL_HANDLE
  SelectedDeviceQueueFamilyIndex : Nat := 0
  SurfaceExtent : VkExtent2D := {}
  SurfaceFormat : Nat := 0
  SurfaceColorSpace : Nat := 0
  SurfacePresentMode : Nat := 0
  SurfaceCapabilities : VkSurfaceCapabilitiesKHR := {}
  SwapchainImages : List Nat := []
  SwapchainImageViews : List VkImageView := []
  Framebuffers : List VkFramebuffer := []
  CommandBuffers : List VkCommandBuffer := []
  deriving DecidableEq, Repr

/-! ## Recorded calls and output -/

/-- The `VkSwapchainCreateInfoKHR` passed to `vkCreateSwapchainKHR` (the
fields that vary or that the specification talks about). -/
structure VkSwapchainCreateInfoKHR where
  minImageCount : Nat
  imageFormat : Nat
  imageColorSpace : Nat
  imageExtent : VkExtent2D
  queueFamilyIndices : List Nat
  presentMode : Nat
  deriving DecidableEq, Repr

/-- The `VkSubmitInfo` passed to `vkQueueSubmit`.  `pCommandBuffers` holds the
`commandBufferCount` values read through the pointer
`&VulkanState.CommandBuffers[ImageIndex]`; an entry is `none` when the read is
past the end of the table. -/
structure VkSubmitInfo where
  pWaitSemaphores : List Semaphore
  pWaitDstStageMask : List Nat
  commandBufferCount : Nat
  pCommandBuffers : List (Option VkCommandBuffer)
  pSignalSemaphores : List Semaphore
  deriving DecidableEq, Repr

/-- The `VkPresentInfoKHR` passed to `vkQueuePresentKHR`. -/
structure VkPresentInfoKHR where
  pWaitSemaphores : List Semaphore
  swapchainCount : Nat
  pImageIndices : List Nat
  deriving DecidableEq, Repr

/-- One recorded Vulkan call.  Recorded are the calls that create objects or
drive the queue and the swapchain, and the enumeration of the physical
devices; the property queries in between are answered from `Env` and leave no
record, and the `vkCmd` calls are kept in the command buffer they record into.
`vkAcquireNextImageKHR` is recorded with what came back: its result code and
the content of `ImageIndex` after the call.  The three destroy calls at the
bottom belong to the vocabulary of the record, so that their absence can be
stated; `Main.cpp` contains no call of them. -/
inductive VkCall
  | vkCreateInstance (extensions layers : List String)
  | vkCreateDebugReportCallback
  | vkEnumeratePhysicalDevices
  | vkCreateWin32SurfaceKHR
  | vkCreateDevice (physicalDevice queueFamilyIndex : Nat)
  | vkGetDeviceQueue (queueFamilyIndex : Nat)
  | vkCreateSwapchainKHR (info : VkSwapchainCreateInfoKHR)
  | vkGetSwapchainImagesKHR
  | vkCreateImageView (info : VkImageView)
  | vkCreateShaderModule
  | vkCreatePipelineLayout
  | vkCreateRenderPass (format : Nat)
  | vkCreateGraphicsPipelines
  | vkCreateFramebuffer (info : VkFramebuffer)
  | vkCreateCommandPool (queueFamilyIndex : Nat)
  | vkAllocateCommandBuffers (commandBufferCount : Nat)
  | vkBeginCommandBuffer (BufferIndex : Nat)
  | vkEndCommandBuffer (BufferIndex : Nat)
  | vkCreateSemaphore (semaphore : Semaphore)
  | vkAcquireNextImageKHR (timeout : Nat) (semaphore : Semaphore) (fence : Nat)
      (result : Int) (ImageIndex : Nat)
  | vkQueueSubmit (info : VkSubmitInfo)
  | vkQueuePresentKHR (info : VkPresentInfoKHR)
  | vkQueueWaitIdle
  | vkDestroyImageView (view : VkImageView)
  | vkDestroySwapchainKHR
  | vkDestroyDevice
  deriving DecidableEq, Repr

/-- One line written by `printf`. -/
inductive Output
  | unavailableExtension
  | unavailableLayer
  | undesiredSurfaceFormat (format : Nat)
  | noSuitableDevice
  | noSuitablePresentMode
  deriving DecidableEq, Repr

/-- One message taken from the thread queue by `PeekMessage`. -/
structure MSG where
  message : Nat
  deriving DecidableEq, Repr

/-- What the running process has accumulated: the state record, the lines
printed, the Vulkan calls made and the window messages dispatched. -/
structure Process where
  VulkanState : SVulkanState := {}
  stdout : List Output := []
  calls : List VkCall := []
  dispatched : List MSG := []
  deriving DecidableEq, Repr

/-- How a run ends: `main` returns a code, an `assert` aborts the process, or
the frame loop is still running when the scripted environment has no further
frame to offer. -/
inductive Outcome
  | returned (code : Int)
  | assertFailed
  | running
  deriving DecidableEq, Repr

/-- A run of the program: how it ended and what it had accumulated by then. -/
structure Run where
  outcome : Outcome
  process : Process
  deriving DecidableEq, Repr

/-! ## The environment -/

/-- What one iteration of the frame loop gets from the outside: the messages
`PeekMessage` yields until it reports an empty queue (the `WM_QUIT` that
follows a dispatched `WM_CLOSE`, for which `win32MainWindowProc` calls
`PostQuitMessage`, is part of this script), the result code of
`vkAcquireNextImageKHR` and the content of `ImageIndex` after that call (what
the driver wrote, or whatever the uninitialised variable held when the driver
wrote nothing), and the result codes of the three queue calls. -/
structure FrameInput where
  messages : List MSG := []
  acquireResult : Int := 0
  ImageIndex : Nat := 0
  submitResult : Int := 0
  presentResult : Int := 0
  waitIdleResult : Int := 0
  deriving DecidableEq, Repr

/-- Everything the program reads from the outside.  Physical devices are
named by their handles; the per-device answers are functions of the handle
(and of the queue-family index for presentation support). -/
structure Env where
  registerClassOk : Bool := true
  createWindowOk : Bool := true
  instanceVersion : Nat
  instanceExtensions : List String
  instanceLayers : List String
  createInstanceResult : Int := 0
  debugReportCallbackFound : Bool := true
  physicalDevices : List Nat
  deviceApiVersion : Nat → Nat
  queueFamilies : Nat → List VkQueueFamilyProperties
  surfaceSupport : Nat → Nat → Bool
  surfaceFormats : Nat → List VkSurfaceFormatKHR
  surfaceCapabilities : Nat → VkSurfaceCapabilitiesKHR
  presentModes : Nat → List Nat
  swapchainImages : List Nat
  shaderFileOpens : Bool := true
  shaderFileSize : Nat := 0
  shaderBytesRead : Nat := 0
  frames : List FrameInput

/-! ## `main`, block by block -/

/-- Constant `Width` of `main`. -/
def Width : Nat := 800

/-- Constant `Height` of `main`. -/
def Height : Nat := 600

/-- The array `Extensions` of required instance extensions. -/
def Extensions : List String :=
  [ VK_KHR_SURFACE_EXTENSION_NAME
  , VK_KHR_WIN32_SURFACE_EXTENSION_NAME
  , VK_EXT_DEBUG_REPORT_EXTENSION_NAME
  , VK_EXT_DEBUG_UTILS_EXTENSION_NAME ]

/-- The array `Layers` of required instance layers. -/
def Layers : List String := ["VK_LAYER_KHRONOS_validation"]

/-- The inner loop of "Find required extensions" and of "Find required
layers": for one enumerated name, every slot `i` whose required name compares
equal under `strcmp` is set to `true`; the other slots keep their value. -/
def markFound (required : List String) (name : String) (found : List Bool) : List Bool :=
  List.zipWith (fun r f => if name = r then true else f) required found

/-- The outer loop of "Find required extensions" and of "Find required
layers", started from the all-`false` array. -/
def findRequired (required available : List String) : List Bool :=
  available.foldl (fun found name => markFound required name found)
    (required.map fun _ => false)

/-- The test `std::find(begin, end, false) != end`. -/
def anyMissing (found : List Bool) : Bool := found.contains false

/-- The array `RequiredFlags` of the device selection. -/
def RequiredFlags : List Nat :=
  [VK_QUEUE_GRAPHICS_BIT, VK_QUEUE_COMPUTE_BIT, VK_QUEUE_TRANSFER_BIT]

/-- The loop over `RequiredFlags`: the value of `FlagIndex` when the loop is
left, either by `break` at the first flag missing from `queueFlags` or when
the array is exhausted. -/
def flagLoop (queueFlags : Nat) : List Nat → Nat → Nat
  | [], FlagIndex => FlagIndex
  | flag :: rest, FlagIndex =>
    if queueFlags &&& flag = 0 then FlagIndex
    else flagLoop queueFlags rest (FlagIndex + 1)

/-- The loop over `SupportedSurfaceFormats`: every visited entry is copied
into `SurfaceFormat` and `SurfaceColorSpace`, and the loop is left at the first
entry whose format is the desired one. -/
def formatLoop (DesiredSurfaceFormat : Nat) :
    List VkSurfaceFormatKHR → SVulkanState → SVulkanState
  | [], s => s
  | CurrentSurfaceFormat :: rest, s =>
    let s1 := { s with SurfaceFormat := CurrentSurfaceFormat.format
                       SurfaceColorSpace := CurrentSurfaceFormat.colorSpace }
    if s1.SurfaceFormat = DesiredSurfaceFormat then s1
    else formatLoop DesiredSurfaceFormat rest s1

/-- The loop over the queue families of one device, from `QueueFamilyIndex`
on (the list is the part of `Device.QueueFamilies` not yet visited).  The
result is the value of `QueueFamilyIndex` when the loop is left, together with
the process as the loop leaves it. -/
def queueFamilyLoop (env : Env) (Device : SVulkanPhysicalDevice) :
    List VkQueueFamilyProperties → Nat → Process → Nat × Process
  | [], QueueFamilyIndex, p => (QueueFamilyIndex, p)
  | QueueFamily :: rest, QueueFamilyIndex, p =>
    if flagLoop QueueFamily.queueFlags RequiredFlags 0 < RequiredFlags.length then
      queueFamilyLoop env Device rest (QueueFamilyIndex + 1) p
    else if !env.surfaceSupport Device.Device QueueFamilyIndex then
      queueFamilyLoop env Device rest (QueueFamilyIndex + 1) p
    else
      let SupportedSurfaceFormats := env.surfaceFormats Device.Device
      let DesiredSurfaceFormat := VK_FORMAT_B8G8R8A8_UNORM
      let s := formatLoop DesiredSurfaceFormat SupportedSurfaceFormats
        { p.VulkanState with SurfaceFormat := VK_FORMAT_UNDEFINED }
      if s.SurfaceFormat = VK_FORMAT_UNDEFINED then
        queueFamilyLoop env Device rest (QueueFamilyIndex + 1) { p with VulkanState := s }
      else if s.SurfaceFormat = DesiredSurfaceFormat then
        (QueueFamilyIndex, { p with VulkanState := s })
      else
        queueFamilyLoop env Device rest (QueueFamilyIndex + 1)
          { p with VulkanState := s
                   stdout := p.stdout ++ [Output.undesiredSurfaceFormat s.SurfaceFormat] }

/-- The loop "Select device" over `VulkanState.PhysicalDevices`. -/
def selectDeviceLoop (env : Env) : List SVulkanPhysicalDevice → Process → Process
  | [], p => p
  | Device :: rest, p =>
    let r := queueFamilyLoop env Device Device.QueueFamilies 0 p
    if r.1 < Device.QueueFamilies.length then
      { r.2 with VulkanState :=
          { r.2.VulkanState with SelectedDevice := Device.Device
                                 SelectedDeviceQueueFamilyIndex := r.1 } }
    else selectDeviceLoop env rest r.2

/-- The block "Extent" of "Get surface properties": the value stored in
`VulkanState.SurfaceExtent`.  `Width` and `Height` are the two constants of
`main` the block refers to. -/
def surfaceExtent (Width Height : Nat) (SurfaceCapabilities : VkSurfaceCapabilitiesKHR) :
    VkExtent2D :=
  if SurfaceCapabilities.currentExtent.width = UINT32_MAX then
    let MaxExtent := SurfaceCapabilities.maxImageExtent
    let MinExtent := SurfaceCapabilities.minImageExtent
    { width := Clamp Width MinExtent.width MaxExtent.width
      height := Clamp Height MinExtent.height MaxExtent.height }
  else SurfaceCapabilities.currentExtent

/-- The loop over `SurfacePresentModes`, from `PresentModeIndex` on: the value
of `PresentModeIndex` when the loop is left and the state at that point. -/
def presentModeLoop : List Nat → Nat → SVulkanState → Nat × SVulkanState
  | [], PresentModeIndex, s => (PresentModeIndex, s)
  | PresentMode :: rest, PresentModeIndex, s =>
    if PresentMode = VK_PRESENT_MODE_FIFO_KHR then
      (PresentModeIndex, { s with SurfacePresentMode := PresentMode })
    else presentModeLoop rest (PresentModeIndex + 1) s

/-- Append recorded calls to the process. -/
def Process.call (p : Process) (cs : List VkCall) : Process :=
  { p with calls := p.calls ++ cs }

/-- Append a printed line to the process. -/
def Process.print (p : Process) (line : Output) : Process :=
  { p with stdout := p.stdout ++ [line] }

/-- The call `win32OpenWindow("vktest", Width, Height)`: its two
environment-dependent assertions. -/
def win32OpenWindow (env : Env) (p : Process) : Except Run Process :=
  if !env.registerClassOk then .error ⟨.assertFailed, p⟩
  else if !env.createWindowOk then .error ⟨.assertFailed, p⟩
  else .ok p

/-- The block "Enumerate version". -/
def enumerateVersion (env : Env) (p : Process) : Except Run Process :=
  let p1 := { p with VulkanState :=
    { p.VulkanState with Version := VulkanExtractVersion env.instanceVersion } }
  if p1.VulkanState.Version.MajorVersion ≥ 1 ∧ p1.VulkanState.Version.MinorVersion ≥ 1 then
    .ok p1
  else .error ⟨.assertFailed, p1⟩

/-- The block "Enumerate instance layers and extensions". -/
def enumerateInstance (env : Env) (p : Process) : Process :=
  { p with VulkanState :=
    { p.VulkanState with InstanceExtensions := env.instanceExtensions
                         InstanceLayers := env.instanceLayers } }

/-- The block "Create instance", with its two availability checks. -/
def createInstance (env : Env) (p : Process) : Except Run Process :=
  if anyMissing (findRequired Extensions p.VulkanState.InstanceExtensions) then
    .error ⟨.returned (-1), p.print .unavailableExtension⟩
  else if anyMissing (findRequired Layers p.VulkanState.InstanceLayers) then
    .error ⟨.returned (-1), p.print .unavailableLayer⟩
  else
    let p1 := p.call [.vkCreateInstance Extensions Layers]
    if env.createInstanceResult = VK_SUCCESS then .ok p1
    else .error ⟨.assertFailed, p1⟩

/-- The block "Initialize debug callback". -/
def setupDebugCallback (env : Env) (p : Process) : Process :=
  if env.debugReportCallbackFound then p.call [.vkCreateDebugReportCallback] else p

/-- The block "Enumerate physical devices". -/
def enumeratePhysicalDevices (env : Env) (p : Process) : Process :=
  let p1 := p.call [.vkEnumeratePhysicalDevices]
  { p1 with VulkanState :=
    { p1.VulkanState with PhysicalDevices := env.physicalDevices.map fun h =>
        { Device := h
          Version := VulkanExtractVersion (env.deviceApiVersion h)
          QueueFamilies := env.queueFamilies h } } }

/-- The block "Create surface". -/
def createSurface (p : Process) : Process := p.call [.vkCreateWin32SurfaceKHR]

/-- The block "Select device" with the check that follows it. -/
def selectDevice (env : Env) (p : Process) : Except Run Process :=
  let p1 := selectDeviceLoop env p.VulkanState.PhysicalDevices p
  if p1.VulkanState.SelectedDevice = VK_NULL_HANDLE then
    .error ⟨.returned (-1), p1.print .noSuitableDevice⟩
  else .ok p1

/-- The block "Get surface properties": extent, then present mode. -/
def getSurfaceProperties (env : Env) (p : Process) : Except Run Process :=
  let s := p.VulkanState
  let s1 := { s with SurfaceCapabilities := env.surfaceCapabilities s.SelectedDevice }
  let s2 := { s1 with SurfaceExtent := surfaceExtent Width Height s1.SurfaceCapabilities }
  let SurfacePresentModes := env.presentModes s2.SelectedDevice
  let r := presentModeLoop SurfacePresentModes 0 s2
  let p1 := { p with VulkanState := r.2 }
  if r.1 ≥ SurfacePresentModes.length then
    .error ⟨.returned (-1), p1.print .noSuitablePresentMode⟩
  else .ok p1

/-- The block "Create logical device". -/
def createLogicalDevice (p : Process) : Process :=
  p.call [ .vkCreateDevice p.VulkanState.SelectedDevice
             p.VulkanState.SelectedDeviceQueueFamilyIndex
         , .vkGetDeviceQueue p.VulkanState.SelectedDeviceQueueFamilyIndex ]

/-- The block "Create swapchain": the swapchain, its images and one view per
image index. -/
def createSwapchain (env : Env) (p : Process) : Process :=
  let s := p.VulkanState
  let SwapchainCreateInfo : VkSwapchainCreateInfoKHR :=
    { minImageCount := s.SurfaceCapabilities.minImageCount
      imageFormat := s.SurfaceFormat
      imageColorSpace := s.SurfaceColorSpace
      imageExtent := s.SurfaceExtent
      queueFamilyIndices := [s.SelectedDeviceQueueFamilyIndex]
      presentMode := s.SurfacePresentMode }
  let SwapchainImageCount := env.swapchainImages.length
  let s1 := { s with SwapchainImages := env.swapchainImages }
  let views := (List.range SwapchainImageCount).map fun ImageIndex =>
    ({ image := s1.SwapchainImages.getD ImageIndex VK_NULL_HANDLE
       format := s1.SurfaceFormat } : VkImageView)
  { p with
    VulkanState := { s1 with SwapchainImageViews := views }
    calls := p.calls ++ [.vkCreateSwapchainKHR SwapchainCreateInfo, .vkGetSwapchainImagesKHR]
      ++ views.map .vkCreateImageView }

/-- The call `win32LoadFile("Shaders/shader.spv")`: its assertions. -/
def win32LoadFile (env : Env) (p : Process) : Except Run Process :=
  if env.shaderFileOpens then
    if env.shaderBytesRead = env.shaderFileSize then .ok p else .error ⟨.assertFailed, p⟩
  else .error ⟨.assertFailed, p⟩

/-- The block "Setup graphics pipeline". -/
def setupGraphicsPipeline (env : Env) (p : Process) : Except Run Process :=
  match win32LoadFile env p with
  | .error r => .error r
  | .ok p1 =>
    .ok (p1.call [ .vkCreateShaderModule, .vkCreatePipelineLayout
                 , .vkCreateRenderPass p1.VulkanState.SurfaceFormat
                 , .vkCreateGraphicsPipelines ])

/-- The block "Create framebuffers". -/
def createFramebuffers (p : Process) : Process :=
  let s := p.VulkanState
  let fbs := (List.range s.SwapchainImages.length).map fun ImageIndex =>
    ({ attachments := [s.SwapchainImageViews[ImageIndex]?]
       width := s.SurfaceExtent.width
       height := s.SurfaceExtent.height } : VkFramebuffer)
  { p with VulkanState := { s with Framebuffers := fbs }
           calls := p.calls ++ fbs.map .vkCreateFramebuffer }

/-- The blocks "Create command pool" and "Allocate command buffers". -/
def allocateCommandBuffers (p : Process) : Process :=
  let s := p.VulkanState
  let bufs := (List.range s.SwapchainImages.length).map fun i => ({ slot := i } : VkCommandBuffer)
  { p with VulkanState := { s with CommandBuffers := bufs }
           calls := p.calls ++ [ .vkCreateCommandPool s.SelectedDeviceQueueFamilyIndex
                               , .vkAllocateCommandBuffers bufs.length ] }

/-- The block "Record command buffers". -/
def recordCommandBuffers (p : Process) : Process :=
  let s := p.VulkanState
  let n := s.CommandBuffers.length
  let bufs := (List.range n).map fun BufferIndex =>
    ({ slot := (s.CommandBuffers.getD BufferIndex { slot := BufferIndex }).slot
       commands :=
        [ .vkCmdBeginRenderPass s.Framebuffers[BufferIndex]? s.SurfaceExtent
        , .vkCmdBindPipeline
        , .vkCmdDraw 3 1 0 0
        , .vkCmdEndRenderPass ] } : VkCommandBuffer)
  { p with VulkanState := { s with CommandBuffers := bufs }
           calls := p.calls ++ ((List.range n).map fun BufferIndex =>
             [VkCall.vkBeginCommandBuffer BufferIndex, VkCall.vkEndCommandBuffer BufferIndex]).flatten }

/-- The block that creates the two semaphores. -/
def createSemaphores (p : Process) : Process :=
  p.call [ .vkCreateSemaphore .ImageAvailableSemaphore
         , .vkCreateSemaphore .RenderFinishedSemaphore ]

/-- The inner `while(PeekMessage(...))` loop over the messages the queue
yields: the value of `bRunning` when the loop is left and the process at that
point.  A `WM_QUIT` clears `bRunning` and leaves the loop; any other message
is translated and dispatched. -/
def pumpLoop : List MSG → Bool → Process → Bool × Process
  | [], bRunning, p => (bRunning, p)
  | Message :: rest, bRunning, p =>
    if Message.message = WM_QUIT then (false, p)
    else pumpLoop rest bRunning { p with dispatched := p.dispatched ++ [Message] }

/-- The block "Render" of one iteration: the four calls it makes, in order,
given the command-buffer table and what the environment answers.  None of the
four result codes is looked at. -/
def renderCalls (CommandBuffers : List VkCommandBuffer) (f : FrameInput) : List VkCall :=
  let ImageIndex := f.ImageIndex
  let WaitSemaphores := [Semaphore.ImageAvailableSemaphore]
  let WaitStages := [VK_PIPELINE_STAGE_COLOR_ATTACHMENT_OUTPUT_BIT]
  let SignalSemaphores := [Semaphore.RenderFinishedSemaphore]
  let SubmitInfo : VkSubmitInfo :=
    { pWaitSemaphores := WaitSemaphores
      pWaitDstStageMask := WaitStages
      commandBufferCount := 1
      pCommandBuffers := [CommandBuffers[ImageIndex]?]
      pSignalSemaphores := SignalSemaphores }
  let PresentInfo : VkPresentInfoKHR :=
    { pWaitSemaphores := SignalSemaphores
      swapchainCount := 1
      pImageIndices := [ImageIndex] }
  [ .vkAcquireNextImageKHR UINT64_MAX .ImageAvailableSemaphore VK_NULL_HANDLE
      f.acquireResult ImageIndex
  , .vkQueueSubmit SubmitInfo
  , .vkQueuePresentKHR PresentInfo
  , .vkQueueWaitIdle ]

/-- The block "Render" of one iteration, as a step of the process. -/
def render (f : FrameInput) (p : Process) : Process :=
  p.call (renderCalls p.VulkanState.CommandBuffers f)

/-- The outer `while(bRunning)` loop, run against the scripted frames: the
value of `bRunning` when the model stops (`false`: the loop was left; `true`:
the script has no further frame and the loop would go on) and the process at
that point. -/
def frameLoop : List FrameInput → Bool → Process → Bool × Process
  | _, false, p => (false, p)
  | [], true, p => (true, p)
  | f :: rest, true, p =>
    let r := pumpLoop f.messages true p
    frameLoop rest r.1 (render f r.2)

/-- The part of `main` in front of the device selection. -/
def prepare (env : Env) : Except Run Process := do
  let p ← win32OpenWindow env {}
  let p ← enumerateVersion env p
  let p ← createInstance env (enumerateInstance env p)
  let p := setupDebugCallback env p
  let p := enumeratePhysicalDevices env p
  pure (createSurface p)

/-- The part of `main` up to and including the device selection. -/
def initialise (env : Env) : Except Run Process :=
  prepare env >>= selectDevice env

/-- The part of `main` from the logical device to the semaphores. -/
def build (env : Env) (p : Process) : Except Run Process := do
  let p := createLogicalDevice p
  let p := createSwapchain env p
  let p ← setupGraphicsPipeline env p
  let p := createFramebuffers p
  let p := allocateCommandBuffers p
  let p := recordCommandBuffers p
  pure (createSemaphores p)

/-- The function `main`. -/
def main (env : Env) : Run :=
  match initialise env >>= getSurfaceProperties env >>= build env with
  | .error r => r
  | .ok p =>
    let r := frameLoop env.frames true p
    if r.1 then ⟨.running, r.2⟩ else ⟨.returned 0, r.2⟩

/-- The part of `main` in front of the frame loop. -/
def setup (env : Env) : Except Run Process :=
  initialise env >>= getSurfaceProperties env >>= build env

/-! ## Vocabulary for statements about the frame loop -/

/-- Whether a pump over these messages meets a `WM_QUIT`. -/
def quitSeen (messages : List MSG) : Bool := messages.any fun m => m.message = WM_QUIT

/-- The messages a pump over these messages dispatches: those in front of the
first `WM_QUIT`. -/
def dispatchedBy (messages : List MSG) : List MSG :=
  messages.takeWhile fun m => m.message ≠ WM_QUIT

/-- A recorded call with the result code of an acquisition blanked out. -/
def VkCall.forgetResult : VkCall → VkCall
  | .vkAcquireNextImageKHR t s f _ i => .vkAcquireNextImageKHR t s f VK_SUCCESS i
  | c => c

/-- The part of a run a recorded call belongs to. -/
inductive Phase
  | setup
  | frame
  | teardown
  deriving DecidableEq, Repr

/-- The part of a run a recorded call belongs to: the four calls of the
block "Render" are frame calls, the three destroy calls are teardown calls,
every other call is a setup call. -/
def VkCall.phase : VkCall → Phase
  | .vkAcquireNextImageKHR _ _ _ _ _ => .frame
  | .vkQueueSubmit _ => .frame
  | .vkQueuePresentKHR _ => .frame
  | .vkQueueWaitIdle => .frame
  | .vkDestroyImageView _ => .teardown
  | .vkDestroySwapchainKHR => .teardown
  | .vkDestroyDevice => .teardown
  | _ => .setup

/-- Every call recorded so far is a setup call. -/
def Process.setupOnly (p : Process) : Prop := ∀ c ∈ p.calls, c.phase = Phase.setup

/-- Every call recorded by a block, whether it went on or stopped the run, is
a setup call. -/
def resultSetupOnly (x : Except Run Process) : Prop :=
  match x with
  | .ok q => q.setupOnly
  | .error r => r.process.setupOnly

/-- Whether a recorded call is an image acquisition. -/
def VkCall.isAcquire : VkCall → Bool
  | .vkAcquireNextImageKHR _ _ _ _ _ => true
  | _ => false

/-- Whether a recorded call is a queue submission. -/
def VkCall.isSubmit : VkCall → Bool
  | .vkQueueSubmit _ => true
  | _ => false

/-- Whether a recorded call is a presentation request. -/
def VkCall.isPresent : VkCall → Bool
  | .vkQueuePresentKHR _ => true
  | _ => false

/-! ## Vocabulary for statements about how a run ends -/

/-- The flags of a queue family include graphics, compute and transfer. -/
def hasRequiredFlags (queueFlags : Nat) : Prop :=
  queueFlags &&& VK_QUEUE_GRAPHICS_BIT ≠ 0 ∧ queueFlags &&& VK_QUEUE_COMPUTE_BIT ≠ 0 ∧
    queueFlags &&& VK_QUEUE_TRANSFER_BIT ≠ 0

/-- A queue family qualifies: its flags include graphics, compute and
transfer, and the driver reports that family `j` of device `h` can present to
the surface. -/
def qualifies (env : Env) (h : Nat) (QueueFamily : VkQueueFamilyProperties) (j : Nat) : Prop :=
  hasRequiredFlags QueueFamily.queueFlags ∧ env.surfaceSupport h j = true

/-- A surface-format list contains the preferred format `B8G8R8A8_UNORM`. -/
def hasPreferredFormat (formats : List VkSurfaceFormatKHR) : Prop :=
  ∃ f ∈ formats, f.format = VK_FORMAT_B8G8R8A8_UNORM

/-- The pair (candidate `Device`, queue family `j`) is eligible: family `j`
exists and qualifies, and the surface-format list of the candidate contains
the preferred format. -/
def eligiblePair (env : Env) (Device : SVulkanPhysicalDevice) (j : Nat) : Prop :=
  (∃ QueueFamily, Device.QueueFamilies[j]? = some QueueFamily ∧
    qualifies env Device.Device QueueFamily j) ∧
  hasPreferredFormat (env.surfaceFormats Device.Device)

/-- The state after a format scan over a list without the preferred format,
started with `SurfaceFormat = UNDEFINED`: the last entry of the list is left in
`SurfaceFormat` and `SurfaceColorSpace`; an empty list leaves `UNDEFINED` and
the colour space as it was. -/
def lastScanned (formats : List VkSurfaceFormatKHR) (s : SVulkanState) : SVulkanState :=
  match formats.getLast? with
  | some f => { s with SurfaceFormat := f.format, SurfaceColorSpace := f.colorSpace }
  | none => { s with SurfaceFormat := VK_FORMAT_UNDEFINED }

/-- Format code `VK_FORMAT_R8G8B8A8_SRGB`. -/
def VK_FORMAT_R8G8B8A8_SRGB : Nat := 43

/-- Colour space code `VK_COLOR_SPACE_DISPLAY_P3_NONLINEAR_EXT`. -/
def VK_COLOR_SPACE_DISPLAY_P3_NONLINEAR_EXT : Nat := 1000104001

/-- Result code `VK_ERROR_DEVICE_LOST`. -/
def VK_ERROR_DEVICE_LOST : Int := -4

/-- Result code `VK_ERROR_OUT_OF_DATE_KHR`. -/
def VK_ERROR_OUT_OF_DATE_KHR : Int := -1000001004

/-- A well-behaved environment: one device (handle `1`) with one queue family
that has the three required flags and can present, the preferred surface
format, a follow-the-window extent, `FIFO` among the present modes, two
swapchain images, and three scripted frames of which the second sees
`WM_QUIT` between two `WM_PAINT` messages. -/
def sampleEnv : Env :=
  { instanceVersion := 4206592
    instanceExtensions := Extensions
    instanceLayers := Layers
    physicalDevices := [1]
    deviceApiVersion := fun _ => 4206592
    queueFamilies := fun _ => [{ queueFlags := 7 }]
    surfaceSupport := fun _ _ => true
    surfaceFormats := fun _ =>
      [{ format := VK_FORMAT_B8G8R8A8_UNORM, colorSpace := VK_COLOR_SPACE_SRGB_NONLINEAR_KHR }]
    surfaceCapabilities := fun _ =>
      { minImageCount := 2
        currentExtent := ⟨UINT32_MAX, UINT32_MAX⟩
        minImageExtent := ⟨1, 1⟩
        maxImageExtent := ⟨4096, 4096⟩ }
    presentModes := fun _ => [VK_PRESENT_MODE_MAILBOX_KHR, VK_PRESENT_MODE_FIFO_KHR]
    swapchainImages := [100, 101]
    frames :=
      [ { ImageIndex := 0 }
      , { ImageIndex := 1, messages := [⟨WM_PAINT⟩, ⟨WM_QUIT⟩, ⟨WM_PAINT⟩] }
      , { ImageIndex := 0 } ] }

/-- The process of `sampleEnv` when the device selection begins. -/
def samplePrepared : Process :=
  match prepare sampleEnv with
  | .ok p => p
  | .error r => r.process

/-- The process of `sampleEnv` when the device selection has succeeded. -/
def sampleSelected : Process :=
  match initialise sampleEnv with
  | .ok p => p
  | .error r => r.process

/-- The process of `sampleEnv` when the frame loop is entered. -/
def sampleReady : Process :=
  match initialise sampleEnv >>= getSurfaceProperties sampleEnv >>= build sampleEnv with
  | .ok p => p
  | .error r => r.process

/-- As `sampleEnv`, but the surface reports only `MAILBOX` and `IMMEDIATE`. -/
def sampleEnvNoFifo : Env :=
  { sampleEnv with
    presentModes := fun _ => [VK_PRESENT_MODE_MAILBOX_KHR, VK_PRESENT_MODE_IMMEDIATE_KHR] }

/-- The process of `sampleEnv` when the surface properties are settled. -/
def sampleNegotiated : Process :=
  match initialise sampleEnv >>= getSurfaceProperties sampleEnv with
  | .ok p => p
  | .error r => r.process

/-- As `sampleEnv`, but with the surface-format list `formats`. -/
def sampleEnvFormats (formats : List VkSurfaceFormatKHR) : Env :=
  { sampleEnv with surfaceFormats := fun _ => formats }

/-- As `sampleEnv`, but with `extensions` as the instance-extension list and
`layers` as the instance-layer list. -/
def sampleEnvInstance (extensions layers : List String) : Env :=
  { sampleEnv with instanceExtensions := extensions, instanceLayers := layers }

/-- The process of an environment when its device selection begins (the
process at the point where the run stopped, if it stopped before). -/
def preparedProcess (env : Env) : Process :=
  match prepare env with
  | .ok p => p
  | .error r => r.process

/-- The device of `sampleEnv` (handle `1`) behind a device with handle `7`
that has the same queue family but an empty surface-format list. -/
def sampleEnvEmptyFirst : Env :=
  { sampleEnv with
    physicalDevices := [7, 1]
    surfaceFormats := fun h => if h = 7 then [] else sampleEnv.surfaceFormats h }

/-- As `sampleEnv`, but the only reported surface format is `X` with colour
space `Y`. -/
def sampleEnvOneFormat (X Y : Nat) : Env :=
  { sampleEnv with surfaceFormats := fun _ => [{ format := X, colorSpace := Y }] }

/-- Two devices: handle `1` reports only `R8G8B8A8_UNORM`, handle `2` reports
the preferred format; both have one queue family with the three required
flags that can present. -/
def sampleEnvTwoDevices : Env :=
  { sampleEnv with
    physicalDevices := [1, 2]
    surfaceFormats := fun h =>
      if h = 1 then
        [{ format := VK_FORMAT_R8G8B8A8_UNORM, colorSpace := VK_COLOR_SPACE_SRGB_NONLINEAR_KHR }]
      else
        [{ format := VK_FORMAT_B8G8R8A8_UNORM, colorSpace := VK_COLOR_SPACE_SRGB_NONLINEAR_KHR }] }

/-- For a non-empty range `Clamp` is the usual three-way clamp. -/
theorem Clamp_of_le (v lo hi : Nat) (h : lo ≤ hi) :
    Clamp v lo hi = if v < lo then lo else if hi < v then hi else v := by
  unfold Clamp
  split_ifs <;> omega

/-- Without `FIFO` in the list the present-mode loop runs to the end and
leaves the state alone. -/
theorem presentModeLoop_absent (modes : List Nat) (i : Nat) (s : SVulkanState)
    (h : VK_PRESENT_MODE_FIFO_KHR ∉ modes) :
    presentModeLoop modes i s = (i + modes.length, s) := by
  induction modes generalizing i with
  | nil => simp [presentModeLoop]
  | cons m rest ih =>
    simp only [List.mem_cons, not_or] at h
    have hm : m ≠ VK_PRESENT_MODE_FIFO_KHR := fun e => h.1 e.symm
    simp [presentModeLoop, hm, ih (i + 1) h.2]
    omega

/-- With `FIFO` in the list the present-mode loop leaves early and stores
`FIFO`. -/
theorem presentModeLoop_present (modes : List Nat) (i : Nat) (s : SVulkanState)
    (h : VK_PRESENT_MODE_FIFO_KHR ∈ modes) :
    (presentModeLoop modes i s).1 < i + modes.length ∧
    (presentModeLoop modes i s).2 = { s with SurfacePresentMode := VK_PRESENT_MODE_FIFO_KHR } := by
  induction modes generalizing i with
  | nil => simp at h
  | cons m rest ih =>
    by_cases hm : m = VK_PRESENT_MODE_FIFO_KHR
    · simp [presentModeLoop, hm]
    · have hr : VK_PRESENT_MODE_FIFO_KHR ∈ rest := by
        rcases List.mem_cons.1 h with e | e
        · exact absurd e.symm hm
        · exact e
      have := ih (i + 1) hr
      simp only [presentModeLoop, hm, if_false, List.length_cons]
      exact ⟨by omega, this.2⟩


/-- The only way `build` stops is a failed assertion of the file loader. -/
theorem build_error_outcome (env : Env) (p : Process) (r : Run)
    (h : build env p = .error r) : r.outcome = .assertFailed := by
  unfold build setupGraphicsPipeline win32LoadFile at h
  simp only [bind, Except.bind, pure, Except.pure] at h
  by_cases h1 : env.shaderFileOpens = true
  · by_cases h2 : env.shaderBytesRead = env.shaderFileSize
    · simp [h1, h2] at h
    · simp [h1, h2] at h
      rw [← h]
  · simp [h1] at h
    rw [← h]

/-- The function `main` once the device selection has succeeded. -/
theorem main_of_initialise (env : Env) (p : Process) (h : initialise env = .ok p) :
    main env =
      match getSurfaceProperties env p >>= build env with
      | .error r => r
      | .ok q =>
        if (frameLoop env.frames true q).1 then ⟨.running, (frameLoop env.frames true q).2⟩
        else ⟨.returned 0, (frameLoop env.frames true q).2⟩ := by
  simp [main, h, bind, Except.bind]

/-- The function `main` once the setup in front of the frame loop has
succeeded: the run is the frame loop over the scripted frames, and `main`
returns `0` when the loop is left. -/
theorem main_of_ready (env : Env) (p : Process)
    (h : initialise env >>= getSurfaceProperties env >>= build env = .ok p) :
    main env =
      if (frameLoop env.frames true p).1 then ⟨.running, (frameLoop env.frames true p).2⟩
      else ⟨.returned 0, (frameLoop env.frames true p).2⟩ := by
  simp [main, h]

/-- Without `FIFO` the block "Get surface properties" returns `-1`. -/
theorem getSurfaceProperties_absent (env : Env) (p : Process)
    (h : VK_PRESENT_MODE_FIFO_KHR ∉ env.presentModes p.VulkanState.SelectedDevice) :
    ∃ q, getSurfaceProperties env p = .error ⟨.returned (-1), q⟩ ∧
      q.stdout = p.stdout ++ [.noSuitablePresentMode] := by
  simp [getSurfaceProperties, presentModeLoop_absent _ _ _ h, Process.print]

/-- With `FIFO` the block "Get surface properties" goes on with `FIFO`
stored. -/
theorem getSurfaceProperties_present (env : Env) (p : Process)
    (h : VK_PRESENT_MODE_FIFO_KHR ∈ env.presentModes p.VulkanState.SelectedDevice) :
    ∃ q, getSurfaceProperties env p = .ok q ∧
      q.VulkanState.SurfacePresentMode = VK_PRESENT_MODE_FIFO_KHR ∧ q.stdout = p.stdout := by
  have := presentModeLoop_present (env.presentModes p.VulkanState.SelectedDevice) 0
    { p.VulkanState with
        SurfaceCapabilities := env.surfaceCapabilities p.VulkanState.SelectedDevice
        SurfaceExtent := surfaceExtent Width Height (env.surfaceCapabilities p.VulkanState.SelectedDevice) } h
  simp only [getSurfaceProperties]
  rw [if_neg (by simpa using this.1)]
  exact ⟨_, rfl, by rw [this.2], rfl⟩



/-! ## Device selection -/

/-- C1 at `sampleEnvTwoDevices`.  The first candidate in enumeration order
(handle `1`) has a queue family `0` whose flags include graphics, compute and
transfer and which can present, and its surface-format list is not empty; so
the pair (handle `1`, family `0`) satisfies the three predicates.  The
program nevertheless prints the undesired-format warning for it, passes it
over and selects handle `2`. -/
theorem selectDevice_passes_over_first_pair :
    sampleEnvTwoDevices.physicalDevices = [1, 2] ∧
    sampleEnvTwoDevices.queueFamilies 1 = [{ queueFlags := 7 }] ∧
    (7 &&& VK_QUEUE_GRAPHICS_BIT ≠ 0 ∧ 7 &&& VK_QUEUE_COMPUTE_BIT ≠ 0 ∧
      7 &&& VK_QUEUE_TRANSFER_BIT ≠ 0) ∧
    sampleEnvTwoDevices.surfaceSupport 1 0 = true ∧
    sampleEnvTwoDevices.surfaceFormats 1 ≠ [] ∧
    (main sampleEnvTwoDevices).process.VulkanState.SelectedDevice = 2 ∧
    (main sampleEnvTwoDevices).process.VulkanState.SelectedDeviceQueueFamilyIndex = 0 ∧
    (main sampleEnvTwoDevices).process.stdout =
      [.undesiredSurfaceFormat VK_FORMAT_R8G8B8A8_UNORM] := by
  decide

/-- C2, on the code: with one device whose single queue family has exactly
the flags graphics, compute and transfer and can present, and exactly one
reported surface format `X` (neither the preferred `B8G8R8A8_UNORM` nor
`UNDEFINED`) with colour space `Y`, the warning is printed and `X`, `Y` are
left in the state, but the selection does not succeed: no device is selected,
"Couldn't find suitable device" is printed and `main` returns `-1`. -/
theorem selectDevice_one_undesired_format_fails (env : Env) (p : Process)
    (h c X Y : Nat) (v : SVulkanVersion)
    (hdev : p.VulkanState.PhysicalDevices =
      [{ Device := h, Version := v, QueueFamilies := [{ queueFlags := 7, queueCount := c }] }])
    (hnull : p.VulkanState.SelectedDevice = VK_NULL_HANDLE)
    (hsup : env.surfaceSupport h 0 = true)
    (hfmt : env.surfaceFormats h = [{ format := X, colorSpace := Y }])
    (hX : X ≠ VK_FORMAT_B8G8R8A8_UNORM) (hU : X ≠ VK_FORMAT_UNDEFINED) :
    selectDevice env p =
      .error ⟨.returned (-1),
        { p with
          VulkanState := { p.VulkanState with SurfaceFormat := X, SurfaceColorSpace := Y }
          stdout := p.stdout ++ [.undesiredSurfaceFormat X, .noSuitableDevice] }⟩ := by
  have hflag : ¬ (flagLoop 7 RequiredFlags 0 < RequiredFlags.length) := by decide
  simp [selectDevice, hdev, selectDeviceLoop, queueFamilyLoop, hflag, hsup, hfmt, formatLoop,
    hX, hU, hnull, Process.print]

/-- C2 at `sampleEnvOneFormat` with `R8G8B8A8_UNORM`: the selection stops
the run with `-1`. -/
theorem selectDevice_one_undesired_format_fails_witness :
    selectDevice (sampleEnvOneFormat VK_FORMAT_R8G8B8A8_UNORM 0) samplePrepared =
      .error ⟨.returned (-1),
        { samplePrepared with
          VulkanState :=
            { samplePrepared.VulkanState with
              SurfaceFormat := VK_FORMAT_R8G8B8A8_UNORM, SurfaceColorSpace := 0 }
          stdout := samplePrepared.stdout ++
            [.undesiredSurfaceFormat VK_FORMAT_R8G8B8A8_UNORM, .noSuitableDevice] }⟩ ∧
    (main (sampleEnvOneFormat VK_FORMAT_R8G8B8A8_UNORM 0)).outcome = .returned (-1) ∧
    (main (sampleEnvOneFormat VK_FORMAT_R8G8B8A8_UNORM 0)).process.stdout =
      [.undesiredSurfaceFormat VK_FORMAT_R8G8B8A8_UNORM, .noSuitableDevice] :=
  ⟨selectDevice_one_undesired_format_fails (sampleEnvOneFormat VK_FORMAT_R8G8B8A8_UNORM 0)
      samplePrepared 1 1 VK_FORMAT_R8G8B8A8_UNORM 0 (VulkanExtractVersion 4206592)
      rfl rfl rfl rfl (by decide) (by decide),
   by decide, by decide⟩

/-! ## Present mode -/

/-- C3: present-mode negotiation.  Whenever `FIFO` occurs in the reported
list (at any position) the block "Get surface properties" goes on with
`SurfacePresentMode = FIFO`; it stops with return code `-1` and the line
"Couldn't find suitable present mode" exactly when `FIFO` does not occur; and
in a run whose device selection succeeded, `main` returns a non-zero code
exactly when `FIFO` does not occur, in particular for the list
`MAILBOX, IMMEDIATE`. -/
theorem presentMode_fifo_selected_iff_listed (env : Env) (p : Process) :
    (VK_PRESENT_MODE_FIFO_KHR ∈ env.presentModes p.VulkanState.SelectedDevice →
      ∃ q, getSurfaceProperties env p = .ok q ∧
        q.VulkanState.SurfacePresentMode = VK_PRESENT_MODE_FIFO_KHR) ∧
    (VK_PRESENT_MODE_FIFO_KHR ∉ env.presentModes p.VulkanState.SelectedDevice ↔
      ∃ q, getSurfaceProperties env p = .error ⟨.returned (-1), q⟩ ∧
        q.stdout = p.stdout ++ [.noSuitablePresentMode]) ∧
    (initialise env = .ok p →
      (VK_PRESENT_MODE_FIFO_KHR ∉ env.presentModes p.VulkanState.SelectedDevice ↔
        ∃ code, code ≠ 0 ∧ (main env).outcome = .returned code) ∧
      (env.presentModes p.VulkanState.SelectedDevice =
          [VK_PRESENT_MODE_MAILBOX_KHR, VK_PRESENT_MODE_IMMEDIATE_KHR] →
        (main env).outcome = .returned (-1) ∧
        (main env).process.stdout = p.stdout ++ [.noSuitablePresentMode])) := by
  have hmain : VK_PRESENT_MODE_FIFO_KHR ∉ env.presentModes p.VulkanState.SelectedDevice →
      initialise env = .ok p →
      (main env).outcome = .returned (-1) ∧
        (main env).process.stdout = p.stdout ++ [.noSuitablePresentMode] := by
    intro habs hinit
    obtain ⟨q, hq, hout⟩ := getSurfaceProperties_absent env p habs
    rw [main_of_initialise env p hinit, hq]
    exact ⟨rfl, hout⟩
  refine ⟨fun h => ?_, ⟨getSurfaceProperties_absent env p, fun h habs => ?_⟩, fun hinit => ⟨⟨fun habs => ?_, fun h habs => ?_⟩, fun hl => ?_⟩⟩
  · obtain ⟨q, hq, hm, _⟩ := getSurfaceProperties_present env p h
    exact ⟨q, hq, hm⟩
  · obtain ⟨q, hq, _⟩ := h
    obtain ⟨q', hq', _⟩ := getSurfaceProperties_present env p habs
    rw [hq'] at hq
    cases hq
  · exact ⟨-1, by decide, (hmain habs hinit).1⟩
  · obtain ⟨code, hne, hcode⟩ := h
    obtain ⟨q, hq, _⟩ := getSurfaceProperties_present env p habs
    rw [main_of_initialise env p hinit, hq] at hcode
    simp only [bind, Except.bind] at hcode
    cases hb : build env q with
    | error r =>
      rw [hb] at hcode
      have := build_error_outcome env q r hb
      simp only [this] at hcode
      cases hcode
    | ok q2 =>
      rw [hb] at hcode
      simp only at hcode
      split at hcode
      · cases hcode
      · simp only [Outcome.returned.injEq] at hcode
        exact hne hcode.symm
  · exact hmain (by rw [hl]; decide) hinit


/-- C3 at `sampleEnvNoFifo`: the run returns `-1` after printing the
present-mode line. -/
theorem presentMode_fifo_selected_iff_listed_witness :
    initialise sampleEnvNoFifo = .ok sampleSelected ∧
    ((main sampleEnvNoFifo).outcome = .returned (-1) ∧
      (main sampleEnvNoFifo).process.stdout = sampleSelected.stdout ++ [.noSuitablePresentMode]) :=
  ⟨rfl, ((presentMode_fifo_selected_iff_listed sampleEnvNoFifo sampleSelected).2.2 rfl).2 rfl⟩

/-! ## Surface extent -/

/-- C4, as stated, fails: a current extent `(5, 5)` reported together with
the bounds `[(10, 10), (20, 20)]` is taken over verbatim and lies below the
minimum; and with the follow-window width and the empty range
`[(900, 900), (100, 100)]` the result `(900, 900)` lies above the maximum. -/
theorem surfaceExtent_outside_bounds :
    surfaceExtent Width Height
        { currentExtent := ⟨5, 5⟩, minImageExtent := ⟨10, 10⟩, maxImageExtent := ⟨20, 20⟩ }
      = ⟨5, 5⟩ ∧
    ¬ (10 ≤ (surfaceExtent Width Height
        { currentExtent := ⟨5, 5⟩, minImageExtent := ⟨10, 10⟩,
          maxImageExtent := ⟨20, 20⟩ }).width) ∧
    surfaceExtent Width Height
        { currentExtent := ⟨UINT32_MAX, UINT32_MAX⟩, minImageExtent := ⟨900, 900⟩,
          maxImageExtent := ⟨100, 100⟩ }
      = ⟨900, 900⟩ ∧
    ¬ ((surfaceExtent Width Height
        { currentExtent := ⟨UINT32_MAX, UINT32_MAX⟩, minImageExtent := ⟨900, 900⟩,
          maxImageExtent := ⟨100, 100⟩ }).width ≤ 100) := by
  decide

/-- C4, amended: when the reported range is not empty (minimum at most
maximum in both components) and the reported current extent, unless its width
is the follow-window value, itself lies within the range, the resolved extent
lies within `[min, max]` inclusive in both width and height, whatever the
requested size. -/
theorem surfaceExtent_within_bounds (W H : Nat) (c : VkSurfaceCapabilitiesKHR)
    (hw : c.minImageExtent.width ≤ c.maxImageExtent.width)
    (hh : c.minImageExtent.height ≤ c.maxImageExtent.height)
    (hcur : c.currentExtent.width ≠ UINT32_MAX →
      (c.minImageExtent.width ≤ c.currentExtent.width ∧
        c.currentExtent.width ≤ c.maxImageExtent.width) ∧
      (c.minImageExtent.height ≤ c.currentExtent.height ∧
        c.currentExtent.height ≤ c.maxImageExtent.height)) :
    (c.minImageExtent.width ≤ (surfaceExtent W H c).width ∧
      (surfaceExtent W H c).width ≤ c.maxImageExtent.width) ∧
    (c.minImageExtent.height ≤ (surfaceExtent W H c).height ∧
      (surfaceExtent W H c).height ≤ c.maxImageExtent.height) := by
  unfold surfaceExtent
  split_ifs with h
  · simp only [Clamp]
    omega
  · exact hcur h

/-- C4 amended, at the capabilities `current = (640, 480)`, `min = (1, 1)`,
`max = (4096, 4096)`. -/
theorem surfaceExtent_within_bounds_witness :
    (1 ≤ (surfaceExtent Width Height
        { currentExtent := ⟨640, 480⟩, minImageExtent := ⟨1, 1⟩,
          maxImageExtent := ⟨4096, 4096⟩ }).width ∧
      (surfaceExtent Width Height
        { currentExtent := ⟨640, 480⟩, minImageExtent := ⟨1, 1⟩,
          maxImageExtent := ⟨4096, 4096⟩ }).width ≤ 4096) ∧
    (1 ≤ (surfaceExtent Width Height
        { currentExtent := ⟨640, 480⟩, minImageExtent := ⟨1, 1⟩,
          maxImageExtent := ⟨4096, 4096⟩ }).height ∧
      (surfaceExtent Width Height
        { currentExtent := ⟨640, 480⟩, minImageExtent := ⟨1, 1⟩,
          maxImageExtent := ⟨4096, 4096⟩ }).height ≤ 4096) :=
  surfaceExtent_within_bounds Width Height
    { currentExtent := ⟨640, 480⟩, minImageExtent := ⟨1, 1⟩, maxImageExtent := ⟨4096, 4096⟩ }
    (by decide) (by decide) (fun _ => by decide)

/-- C5, as stated, fails: the current extent `(0xFFFFFFFF, 5)` is not the
sentinel pair `(0xFFFFFFFF, 0xFFFFFFFF)`, yet the resolved extent is the
clamped requested size `(800, 600)` and not the current extent. -/
theorem surfaceExtent_width_only_sentinel :
    (⟨UINT32_MAX, 5⟩ : VkExtent2D) ≠ ⟨UINT32_MAX, UINT32_MAX⟩ ∧
    surfaceExtent Width Height
        { currentExtent := ⟨UINT32_MAX, 5⟩, minImageExtent := ⟨1, 1⟩,
          maxImageExtent := ⟨4096, 4096⟩ }
      = ⟨800, 600⟩ ∧
    surfaceExtent Width Height
        { currentExtent := ⟨UINT32_MAX, 5⟩, minImageExtent := ⟨1, 1⟩,
          maxImageExtent := ⟨4096, 4096⟩ }
      ≠ ⟨UINT32_MAX, 5⟩ := by
  decide

/-- C5, amended: whenever the width of the target's current extent is not
`0xFFFFFFFF`, the resolved surface extent equals the current extent exactly,
in width and in height, for every requested window size and whatever the
reported bounds are. -/
theorem surfaceExtent_eq_current (W H : Nat) (c : VkSurfaceCapabilitiesKHR)
    (h : c.currentExtent.width ≠ UINT32_MAX) :
    surfaceExtent W H c = c.currentExtent ∧
    (surfaceExtent W H c).width = c.currentExtent.width ∧
    (surfaceExtent W H c).height = c.currentExtent.height := by
  simp [surfaceExtent, h]

/-- C5 amended, at `current = (640, 0xFFFFFFFF)` with bounds that exclude
it. -/
theorem surfaceExtent_eq_current_witness :
    surfaceExtent Width Height
        { currentExtent := ⟨640, UINT32_MAX⟩, minImageExtent := ⟨700, 700⟩,
          maxImageExtent := ⟨4096, 4096⟩ }
      = ⟨640, UINT32_MAX⟩ :=
  (surfaceExtent_eq_current Width Height
    { currentExtent := ⟨640, UINT32_MAX⟩, minImageExtent := ⟨700, 700⟩,
      maxImageExtent := ⟨4096, 4096⟩ } (by decide)).1

/-- C6: with the sentinel current extent `(0xFFFFFFFF, 0xFFFFFFFF)` the
resolved extent is `(Clamp 800 min.width max.width, Clamp 600 min.height
max.height)`, where on a non-empty range `Clamp` returns the value itself
inside the range, the minimum below it and the maximum above it; so for every
`min`, `max` with `min.width ≤ 800 ≤ max.width` and `min.height ≤ 600 ≤
max.height` the resolved extent is exactly `(800, 600)`, in particular for
`min = (1, 1)`, `max = (4096, 4096)`. -/
theorem surfaceExtent_sentinel (c : VkSurfaceCapabilitiesKHR)
    (hs : c.currentExtent = ⟨UINT32_MAX, UINT32_MAX⟩) :
    surfaceExtent Width Height c =
      ⟨Clamp 800 c.minImageExtent.width c.maxImageExtent.width,
       Clamp 600 c.minImageExtent.height c.maxImageExtent.height⟩ ∧
    (∀ v lo hi : Nat, lo ≤ hi →
      Clamp v lo hi = if v < lo then lo else if hi < v then hi else v) ∧
    (c.minImageExtent.width ≤ 800 ∧ 800 ≤ c.maxImageExtent.width →
      c.minImageExtent.height ≤ 600 ∧ 600 ≤ c.maxImageExtent.height →
      surfaceExtent Width Height c = ⟨800, 600⟩) ∧
    (c.minImageExtent = ⟨1, 1⟩ → c.maxImageExtent = ⟨4096, 4096⟩ →
      surfaceExtent Width Height c = ⟨800, 600⟩) := by
  have hw : c.currentExtent.width = UINT32_MAX := by rw [hs]
  refine ⟨by simp [surfaceExtent, hw, Width, Height], Clamp_of_le, ?_, ?_⟩
  · intro h1 h2
    simp only [surfaceExtent, hw, if_true, Clamp, Width, Height, VkExtent2D.mk.injEq]
    omega
  · intro h1 h2
    simp only [surfaceExtent, hw, if_true, Clamp, Width, Height, h1, h2]
    decide

/-- C6 at the capabilities of the end-to-end scenario: `current =
(0xFFFFFFFF, 0xFFFFFFFF)`, `min = (1, 1)`, `max = (4096, 4096)`. -/
theorem surfaceExtent_sentinel_witness :
    surfaceExtent Width Height
        { currentExtent := ⟨UINT32_MAX, UINT32_MAX⟩, minImageExtent := ⟨1, 1⟩,
          maxImageExtent := ⟨4096, 4096⟩ }
      = ⟨800, 600⟩ :=
  (surfaceExtent_sentinel
    { currentExtent := ⟨UINT32_MAX, UINT32_MAX⟩, minImageExtent := ⟨1, 1⟩,
      maxImageExtent := ⟨4096, 4096⟩ } rfl).2.2.2 rfl rfl

/-! ## Lemmas about the frame loop -/

/-- The pump in closed form: `bRunning` is cleared exactly when a `WM_QUIT`
is met, and the messages in front of it are dispatched. -/
theorem pumpLoop_eq (messages : List MSG) (bRunning : Bool) (p : Process) :
    pumpLoop messages bRunning p =
      (if quitSeen messages then false else bRunning,
       { p with dispatched := p.dispatched ++ dispatchedBy messages }) := by
  induction messages generalizing p with
  | nil => simp [pumpLoop, quitSeen, dispatchedBy]
  | cons m rest ih =>
    by_cases hm : m.message = WM_QUIT
    · simp [pumpLoop, quitSeen, dispatchedBy, hm]
    · have := ih { p with dispatched := p.dispatched ++ [m] }
      simp only [quitSeen, dispatchedBy] at this
      simp [pumpLoop, quitSeen, dispatchedBy, hm, this]

/-- One iteration of the frame loop in closed form. -/
theorem frameLoop_cons (f : FrameInput) (rest : List FrameInput) (p : Process) :
    frameLoop (f :: rest) true p =
      frameLoop rest (!quitSeen f.messages)
        { p with calls := p.calls ++ renderCalls p.VulkanState.CommandBuffers f
                 dispatched := p.dispatched ++ dispatchedBy f.messages } := by
  rw [frameLoop, pumpLoop_eq]
  cases quitSeen f.messages <;> simp [render, Process.call]

/-- A loop whose flag is already cleared does nothing. -/
theorem frameLoop_stopped (frames : List FrameInput) (p : Process) :
    frameLoop frames false p = (false, p) := by
  cases frames <;> rfl

/-- The frame loop over frames none of which sees a quit request, followed by
further frames. -/
theorem frameLoop_append (pre rest : List FrameInput) (p : Process)
    (hpre : ∀ g ∈ pre, quitSeen g.messages = false) :
    frameLoop (pre ++ rest) true p =
      frameLoop rest true
        { p with
          calls := p.calls ++ (pre.map (renderCalls p.VulkanState.CommandBuffers)).flatten
          dispatched := p.dispatched ++ (pre.map fun g => dispatchedBy g.messages).flatten } := by
  induction pre generalizing p with
  | nil => simp
  | cons g pre ih =>
    have hg : quitSeen g.messages = false := hpre g (List.mem_cons_self _ _)
    have hrest : ∀ g' ∈ pre, quitSeen g'.messages = false :=
      fun g' hg' => hpre g' (List.mem_cons_of_mem _ hg')
    rw [List.cons_append, frameLoop_cons, hg]
    simp only [Bool.not_false]
    rw [ih _ hrest]
    simp [List.append_assoc]

/-- The frame loop splits the script into the frames it executes and the
frames it never reaches: the executed frames see no quit request except
possibly the last one, and the loop is left exactly when the last executed
frame saw one. -/
theorem frameLoop_split (frames : List FrameInput) (p : Process) :
    ∃ executed unreached : List FrameInput,
      frames = executed ++ unreached ∧
      (frameLoop frames true p).2 =
        { p with
          calls := p.calls ++ (executed.map (renderCalls p.VulkanState.CommandBuffers)).flatten
          dispatched :=
            p.dispatched ++ (executed.map fun g => dispatchedBy g.messages).flatten } ∧
      ((frameLoop frames true p).1 = true → unreached = []) := by
  induction frames generalizing p with
  | nil => exact ⟨[], [], rfl, by simp [frameLoop], fun _ => rfl⟩
  | cons f rest ih =>
    rw [frameLoop_cons]
    cases hq : quitSeen f.messages
    · obtain ⟨ex, un, hsplit, hres, hrun⟩ := ih
        { p with calls := p.calls ++ renderCalls p.VulkanState.CommandBuffers f
                 dispatched := p.dispatched ++ dispatchedBy f.messages }
      refine ⟨f :: ex, un, by simp [hsplit], ?_, ?_⟩
      · simp only [Bool.not_false]
        rw [hres]
        simp [List.append_assoc]
      · simpa using hrun
    · refine ⟨[f], rest, rfl, ?_, ?_⟩
      · simp [frameLoop_stopped]
      · simp [frameLoop_stopped]

/-- In a concatenation of four-call blocks, the call at position `k` is the
call at position `k % 4` of its block. -/
theorem flatten_blocks_position (blocks : List (List VkCall))
    (hshape : ∀ b ∈ blocks, ∃ result ImageIndex submit present,
      b = [ VkCall.vkAcquireNextImageKHR UINT64_MAX .ImageAvailableSemaphore VK_NULL_HANDLE
              result ImageIndex
          , .vkQueueSubmit submit, .vkQueuePresentKHR present, .vkQueueWaitIdle ])
    (k : Nat) (c : VkCall) (hc : blocks.flatten[k]? = some c) :
    (k % 4 = 0 ∧ ∃ result ImageIndex,
      c = .vkAcquireNextImageKHR UINT64_MAX .ImageAvailableSemaphore VK_NULL_HANDLE
            result ImageIndex) ∨
    (k % 4 = 1 ∧ ∃ submit, c = .vkQueueSubmit submit) ∨
    (k % 4 = 2 ∧ ∃ present, c = .vkQueuePresentKHR present) ∨
    (k % 4 = 3 ∧ c = .vkQueueWaitIdle) := by
  induction blocks generalizing k with
  | nil => simp at hc
  | cons b bs ih =>
    obtain ⟨r, i, s, q, hb⟩ := hshape b (List.mem_cons_self _ _)
    have hbs : ∀ b' ∈ bs, ∃ result ImageIndex submit present,
        b' = [ VkCall.vkAcquireNextImageKHR UINT64_MAX .ImageAvailableSemaphore VK_NULL_HANDLE
                result ImageIndex
             , .vkQueueSubmit submit, .vkQueuePresentKHR present, .vkQueueWaitIdle ] :=
      fun b' hb' => hshape b' (List.mem_cons_of_mem _ hb')
    subst hb
    simp only [List.flatten_cons, List.cons_append, List.nil_append] at hc
    match k, hc with
    | 0, hc =>
      simp only [List.getElem?_cons_zero, Option.some.injEq] at hc
      exact Or.inl ⟨rfl, r, i, hc.symm⟩
    | 1, hc =>
      simp only [List.getElem?_cons_succ, List.getElem?_cons_zero, Option.some.injEq] at hc
      exact Or.inr (Or.inl ⟨rfl, s, hc.symm⟩)
    | 2, hc =>
      simp only [List.getElem?_cons_succ, List.getElem?_cons_zero, Option.some.injEq] at hc
      exact Or.inr (Or.inr (Or.inl ⟨rfl, q, hc.symm⟩))
    | 3, hc =>
      simp only [List.getElem?_cons_succ, List.getElem?_cons_zero, Option.some.injEq] at hc
      exact Or.inr (Or.inr (Or.inr ⟨rfl, hc.symm⟩))
    | k + 4, hc =>
      simp only [List.getElem?_cons_succ] at hc
      have := ih hbs k hc
      simpa [Nat.add_mod_right] using this

/-! ## The frame loop -/

/-- C7: the calls the frame loop adds to the record are a repetition of the
block acquire, submit, present, wait-idle, in that order: the added calls are
the concatenation of four-call blocks of exactly that shape, so the call at
position `k` of the added calls is an acquire, a submit, a present or a
wait-idle according to `k % 4`.  The acquire of iteration `n + 1` (position
`4 * (n + 1)`) therefore comes right after the wait-idle of iteration `n`
(position `4 * n + 3`), each submit right after its acquire and each present
right after its submit. -/
theorem frameLoop_calls_repeat_block (frames : List FrameInput) (bRunning : Bool)
    (p : Process) :
    ∃ blocks : List (List VkCall),
      (frameLoop frames bRunning p).2.calls = p.calls ++ blocks.flatten ∧
      blocks.length ≤ frames.length ∧
      (∀ b ∈ blocks, ∃ result ImageIndex submit present,
        b = [ VkCall.vkAcquireNextImageKHR UINT64_MAX .ImageAvailableSemaphore VK_NULL_HANDLE
                result ImageIndex
            , .vkQueueSubmit submit, .vkQueuePresentKHR present, .vkQueueWaitIdle ]) ∧
      (∀ k c, blocks.flatten[k]? = some c →
        (k % 4 = 0 ∧ ∃ result ImageIndex,
          c = .vkAcquireNextImageKHR UINT64_MAX .ImageAvailableSemaphore VK_NULL_HANDLE
                result ImageIndex) ∨
        (k % 4 = 1 ∧ ∃ submit, c = .vkQueueSubmit submit) ∨
        (k % 4 = 2 ∧ ∃ present, c = .vkQueuePresentKHR present) ∨
        (k % 4 = 3 ∧ c = .vkQueueWaitIdle)) := by
  have key : ∃ blocks : List (List VkCall),
      (frameLoop frames bRunning p).2.calls = p.calls ++ blocks.flatten ∧
      blocks.length ≤ frames.length ∧
      (∀ b ∈ blocks, ∃ result ImageIndex submit present,
        b = [ VkCall.vkAcquireNextImageKHR UINT64_MAX .ImageAvailableSemaphore VK_NULL_HANDLE
                result ImageIndex
            , .vkQueueSubmit submit, .vkQueuePresentKHR present, .vkQueueWaitIdle ]) := by
    cases bRunning
    · exact ⟨[], by simp [frameLoop_stopped], by simp, by simp⟩
    · obtain ⟨ex, un, hsplit, hres, _⟩ := frameLoop_split frames p
      refine ⟨ex.map (renderCalls p.VulkanState.CommandBuffers), by rw [hres], ?_, ?_⟩
      · rw [hsplit]
        simp
      · intro b hb
        obtain ⟨f, _, rfl⟩ := List.mem_map.1 hb
        exact ⟨_, _, _, _, rfl⟩
  obtain ⟨blocks, h1, h2, h3⟩ := key
  exact ⟨blocks, h1, h2, h3, flatten_blocks_position blocks h3⟩

/-- C8, as stated, fails: with the command-buffer table of `sampleEnv`, a
first frame whose acquisition reports `VK_ERROR_DEVICE_LOST` is followed by
its submit, present and wait-idle, and the loop goes on to the next
iteration, whose acquisition reports `VK_ERROR_OUT_OF_DATE_KHR` and is again
followed by a submit, a present and a wait-idle; the loop is still running
after it. -/
theorem frameLoop_acquire_error_goes_on :
    frameLoop
        [ { acquireResult := VK_ERROR_DEVICE_LOST, ImageIndex := 0 }
        , { acquireResult := VK_ERROR_OUT_OF_DATE_KHR, ImageIndex := 1 } ]
        true sampleReady =
      (true,
       { sampleReady with
         calls := sampleReady.calls ++
           [ .vkAcquireNextImageKHR UINT64_MAX .ImageAvailableSemaphore VK_NULL_HANDLE
               VK_ERROR_DEVICE_LOST 0
           , .vkQueueSubmit
               { pWaitSemaphores := [.ImageAvailableSemaphore]
                 pWaitDstStageMask := [VK_PIPELINE_STAGE_COLOR_ATTACHMENT_OUTPUT_BIT]
                 commandBufferCount := 1
                 pCommandBuffers := [sampleReady.VulkanState.CommandBuffers[0]?]
                 pSignalSemaphores := [.RenderFinishedSemaphore] }
           , .vkQueuePresentKHR
               { pWaitSemaphores := [.RenderFinishedSemaphore]
                 swapchainCount := 1
                 pImageIndices := [0] }
           , .vkQueueWaitIdle
           , .vkAcquireNextImageKHR UINT64_MAX .ImageAvailableSemaphore VK_NULL_HANDLE
               VK_ERROR_OUT_OF_DATE_KHR 1
           , .vkQueueSubmit
               { pWaitSemaphores := [.ImageAvailableSemaphore]
                 pWaitDstStageMask := [VK_PIPELINE_STAGE_COLOR_ATTACHMENT_OUTPUT_BIT]
                 commandBufferCount := 1
                 pCommandBuffers := [sampleReady.VulkanState.CommandBuffers[1]?]
                 pSignalSemaphores := [.RenderFinishedSemaphore] }
           , .vkQueuePresentKHR
               { pWaitSemaphores := [.RenderFinishedSemaphore]
                 swapchainCount := 1
                 pImageIndices := [1] }
           , .vkQueueWaitIdle ] }) := by
  decide

/-- Blanking the result codes of a script does not change what the frame
loop does, apart from the blanked codes in the record. -/
theorem frameLoop_forgetResult (frames : List FrameInput) (g : FrameInput → Int)
    (bRunning : Bool) (p p' : Process)
    (hV : p'.VulkanState = p.VulkanState) (hs : p'.stdout = p.stdout)
    (hd : p'.dispatched = p.dispatched)
    (hc : p'.calls.map VkCall.forgetResult = p.calls.map VkCall.forgetResult) :
    (frameLoop (frames.map fun f => { f with acquireResult := g f }) bRunning p').1 =
        (frameLoop frames bRunning p).1 ∧
    (frameLoop (frames.map fun f => { f with acquireResult := g f }) bRunning p').2.calls.map
        VkCall.forgetResult =
      (frameLoop frames bRunning p).2.calls.map VkCall.forgetResult ∧
    (frameLoop (frames.map fun f => { f with acquireResult := g f }) bRunning p').2.VulkanState =
      (frameLoop frames bRunning p).2.VulkanState ∧
    (frameLoop (frames.map fun f => { f with acquireResult := g f }) bRunning p').2.stdout =
      (frameLoop frames bRunning p).2.stdout ∧
    (frameLoop (frames.map fun f => { f with acquireResult := g f }) bRunning p').2.dispatched =
      (frameLoop frames bRunning p).2.dispatched := by
  cases bRunning
  · simp [frameLoop_stopped, hV, hs, hd, hc]
  · induction frames generalizing p p' with
    | nil => simp [frameLoop, hV, hs, hd, hc]
    | cons f rest ih =>
      rw [List.map_cons, frameLoop_cons, frameLoop_cons]
      cases hq : quitSeen f.messages
      · simp only [Bool.not_false]
        apply ih
        · simp [hV]
        · simp [hs]
        · simp [hd]
        · simp [hc, hV, renderCalls, VkCall.forgetResult]
      · simp [frameLoop_stopped, hV, hs, hd, hc, renderCalls, VkCall.forgetResult]

/-- C8, amended: the result code of the acquisition is never examined.
Whatever it is (an error included), the iteration issues its submission (for
the table entry at the value the image-index variable holds), its
presentation and its wait-idle, and the loop goes on with the next iteration
unless the pump of this iteration saw a quit request; and replacing the
result codes of a whole script by any others changes nothing in the run
except the codes recorded with the acquisitions. -/
theorem frameLoop_acquire_result_unused (f : FrameInput) (rest : List FrameInput)
    (g : FrameInput → Int) (p : Process) :
    frameLoop (f :: rest) true p =
      frameLoop rest (!quitSeen f.messages)
        { p with
          calls := p.calls ++
            [ .vkAcquireNextImageKHR UINT64_MAX .ImageAvailableSemaphore VK_NULL_HANDLE
                f.acquireResult f.ImageIndex
            , .vkQueueSubmit
                { pWaitSemaphores := [.ImageAvailableSemaphore]
                  pWaitDstStageMask := [VK_PIPELINE_STAGE_COLOR_ATTACHMENT_OUTPUT_BIT]
                  commandBufferCount := 1
                  pCommandBuffers := [p.VulkanState.CommandBuffers[f.ImageIndex]?]
                  pSignalSemaphores := [.RenderFinishedSemaphore] }
            , .vkQueuePresentKHR
                { pWaitSemaphores := [.RenderFinishedSemaphore]
                  swapchainCount := 1
                  pImageIndices := [f.ImageIndex] }
            , .vkQueueWaitIdle ]
          dispatched := p.dispatched ++ dispatchedBy f.messages } ∧
    (frameLoop ((f :: rest).map fun f => { f with acquireResult := g f }) true p).1 =
        (frameLoop (f :: rest) true p).1 ∧
    (frameLoop ((f :: rest).map fun f => { f with acquireResult := g f }) true p).2.calls.map
        VkCall.forgetResult =
      (frameLoop (f :: rest) true p).2.calls.map VkCall.forgetResult ∧
    (frameLoop ((f :: rest).map fun f => { f with acquireResult := g f }) true p).2.dispatched =
      (frameLoop (f :: rest) true p).2.dispatched := by
  have h := frameLoop_forgetResult (f :: rest) g true p p rfl rfl rfl rfl
  exact ⟨frameLoop_cons f rest p, h.1, h.2.1, h.2.2.2.2⟩

/-- The submissions and the presentations among the calls of a sequence of
"Render" blocks: one of each for each block. -/
theorem countP_isSubmit_blocks (CommandBuffers : List VkCommandBuffer)
    (frames : List FrameInput) :
    ((frames.map (renderCalls CommandBuffers)).flatten).countP VkCall.isSubmit =
        frames.length ∧
    ((frames.map (renderCalls CommandBuffers)).flatten).countP VkCall.isPresent =
        frames.length := by
  induction frames with
  | nil => exact ⟨rfl, rfl⟩
  | cons f rest ih =>
    rw [List.map_cons, List.flatten_cons, List.countP_append, List.countP_append, ih.1, ih.2,
      List.length_cons]
    have h1 : (renderCalls CommandBuffers f).countP VkCall.isSubmit = 1 := rfl
    have h2 : (renderCalls CommandBuffers f).countP VkCall.isPresent = 1 := rfl
    rw [h1, h2]
    omega

/-- C9: what every iteration of the frame loop submits and presents.  The
block "Render" of an iteration is the four calls acquire, submit, present,
wait-idle, with exactly one submission and one presentation among them.  The
submission has `commandBufferCount = 1` and carries the entry of the
command-buffer table at the image index that the acquire of the same
iteration came back with; it waits on the image-available semaphore at the
colour-attachment-output stage and signals the render-finished semaphore.
The presentation that follows names the same image index and waits on
render-finished.  The loop records this block for every iteration it runs and
nothing else: when the pump of frame `f` is the first to meet `WM_QUIT`, the
calls it adds are the blocks of the frames up to and including `f`, one
submission each; when no pump meets `WM_QUIT`, they are the blocks of all the
frames of the script.  The table is not touched by the loop, so every
iteration reads the table the loop was entered with, and for an index inside
the table the entry read is the stored command buffer. -/
theorem frameLoop_submit_present_contents (frames : List FrameInput) (p : Process) :
    (∀ (CommandBuffers : List VkCommandBuffer) (f : FrameInput),
      renderCalls CommandBuffers f =
        [ .vkAcquireNextImageKHR UINT64_MAX .ImageAvailableSemaphore VK_NULL_HANDLE
            f.acquireResult f.ImageIndex
        , .vkQueueSubmit
            { pWaitSemaphores := [.ImageAvailableSemaphore]
              pWaitDstStageMask := [VK_PIPELINE_STAGE_COLOR_ATTACHMENT_OUTPUT_BIT]
              commandBufferCount := 1
              pCommandBuffers := [CommandBuffers[f.ImageIndex]?]
              pSignalSemaphores := [.RenderFinishedSemaphore] }
        , .vkQueuePresentKHR
            { pWaitSemaphores := [.RenderFinishedSemaphore]
              swapchainCount := 1
              pImageIndices := [f.ImageIndex] }
        , .vkQueueWaitIdle ] ∧
      (renderCalls CommandBuffers f).countP VkCall.isSubmit = 1 ∧
      (renderCalls CommandBuffers f).countP VkCall.isPresent = 1 ∧
      (∀ h : f.ImageIndex < CommandBuffers.length,
        CommandBuffers[f.ImageIndex]? = some (CommandBuffers.get ⟨f.ImageIndex, h⟩))) ∧
    (∀ pre f post, frames = pre ++ f :: post →
      (∀ g ∈ pre, quitSeen g.messages = false) → quitSeen f.messages = true →
      (frameLoop frames true p).2.calls =
        p.calls ++ ((pre ++ [f]).map (renderCalls p.VulkanState.CommandBuffers)).flatten ∧
      ((frameLoop frames true p).2.calls.drop p.calls.length).countP VkCall.isSubmit =
        pre.length + 1 ∧
      ((frameLoop frames true p).2.calls.drop p.calls.length).countP VkCall.isPresent =
        pre.length + 1) ∧
    ((∀ g ∈ frames, quitSeen g.messages = false) →
      (frameLoop frames true p).2.calls =
        p.calls ++ (frames.map (renderCalls p.VulkanState.CommandBuffers)).flatten ∧
      ((frameLoop frames true p).2.calls.drop p.calls.length).countP VkCall.isSubmit =
        frames.length ∧
      ((frameLoop frames true p).2.calls.drop p.calls.length).countP VkCall.isPresent =
        frames.length) ∧
    (frameLoop frames true p).2.VulkanState.CommandBuffers = p.VulkanState.CommandBuffers := by
  refine ⟨fun CommandBuffers f => ⟨rfl, rfl, rfl, fun h => ?_⟩, ?_, ?_, ?_⟩
  · simp [List.getElem?_eq_getElem h]
  · intro pre f post hsplit hpre hf
    have hcalls : (frameLoop frames true p).2.calls =
        p.calls ++ ((pre ++ [f]).map (renderCalls p.VulkanState.CommandBuffers)).flatten := by
      rw [hsplit, frameLoop_append pre (f :: post) p hpre, frameLoop_cons, hf]
      simp [frameLoop_stopped, List.append_assoc]
    have hcount := countP_isSubmit_blocks p.VulkanState.CommandBuffers (pre ++ [f])
    refine ⟨hcalls, ?_, ?_⟩
    · rw [hcalls, List.drop_left, hcount.1]
      simp
    · rw [hcalls, List.drop_left, hcount.2]
      simp
  · intro hall
    have hrun := frameLoop_append frames [] p hall
    rw [List.append_nil] at hrun
    have hcalls : (frameLoop frames true p).2.calls =
        p.calls ++ (frames.map (renderCalls p.VulkanState.CommandBuffers)).flatten := by
      rw [hrun]
      rfl
    have hcount := countP_isSubmit_blocks p.VulkanState.CommandBuffers frames
    refine ⟨hcalls, ?_, ?_⟩
    · rw [hcalls, List.drop_left, hcount.1]
    · rw [hcalls, List.drop_left, hcount.2]
  · obtain ⟨ex, un, _, hres, _⟩ := frameLoop_split frames p
    rw [hres]

/-- C9 at the frames of `sampleEnv`, entered with `sampleReady`: the second
pump meets `WM_QUIT`, so two iterations run; the record gains two submissions
and two presentations, the first pair for image index `0` and the second for
image index `1`. -/
theorem frameLoop_submit_present_contents_witness :
    (frameLoop sampleEnv.frames true sampleReady).2.calls =
      sampleReady.calls ++
        [ .vkAcquireNextImageKHR UINT64_MAX .ImageAvailableSemaphore VK_NULL_HANDLE 0 0
        , .vkQueueSubmit
            { pWaitSemaphores := [.ImageAvailableSemaphore]
              pWaitDstStageMask := [VK_PIPELINE_STAGE_COLOR_ATTACHMENT_OUTPUT_BIT]
              commandBufferCount := 1
              pCommandBuffers := [sampleReady.VulkanState.CommandBuffers[0]?]
              pSignalSemaphores := [.RenderFinishedSemaphore] }
        , .vkQueuePresentKHR
            { pWaitSemaphores := [.RenderFinishedSemaphore]
              swapchainCount := 1
              pImageIndices := [0] }
        , .vkQueueWaitIdle
        , .vkAcquireNextImageKHR UINT64_MAX .ImageAvailableSemaphore VK_NULL_HANDLE 0 1
        , .vkQueueSubmit
            { pWaitSemaphores := [.ImageAvailableSemaphore]
              pWaitDstStageMask := [VK_PIPELINE_STAGE_COLOR_ATTACHMENT_OUTPUT_BIT]
              commandBufferCount := 1
              pCommandBuffers := [sampleReady.VulkanState.CommandBuffers[1]?]
              pSignalSemaphores := [.RenderFinishedSemaphore] }
        , .vkQueuePresentKHR
            { pWaitSemaphores := [.RenderFinishedSemaphore]
              swapchainCount := 1
              pImageIndices := [1] }
        , .vkQueueWaitIdle ] ∧
    ((frameLoop sampleEnv.frames true sampleReady).2.calls.drop
        sampleReady.calls.length).countP VkCall.isSubmit = 2 :=
  ⟨((frameLoop_submit_present_contents sampleEnv.frames sampleReady).2.1
      [{ ImageIndex := 0 }]
      { ImageIndex := 1, messages := [⟨WM_PAINT⟩, ⟨WM_QUIT⟩, ⟨WM_PAINT⟩] }
      [{ ImageIndex := 0 }] rfl (by decide) (by decide)).1,
   ((frameLoop_submit_present_contents sampleEnv.frames sampleReady).2.1
      [{ ImageIndex := 0 }]
      { ImageIndex := 1, messages := [⟨WM_PAINT⟩, ⟨WM_QUIT⟩, ⟨WM_PAINT⟩] }
      [{ ImageIndex := 0 }] rfl (by decide) (by decide)).2.1⟩

/-- C10: the frame loop is left because of a quit request, only then, and
only after the iteration that saw it is complete.  If the pump of some
iteration meets `WM_QUIT` and no earlier pump did, the loop is left when that
iteration ends: the record holds the complete four-call block of every
iteration up to and including that one, and nothing of the frames behind it.
If no pump meets `WM_QUIT`, the loop is still running when the script ends,
having made the complete block of every frame. -/
theorem frameLoop_exits_on_quit (frames : List FrameInput) (p : Process) :
    (∀ pre f post, frames = pre ++ f :: post →
      (∀ g ∈ pre, quitSeen g.messages = false) → quitSeen f.messages = true →
      frameLoop frames true p =
        (false,
         { p with
           calls := p.calls ++
             ((pre ++ [f]).map (renderCalls p.VulkanState.CommandBuffers)).flatten
           dispatched := p.dispatched ++
             ((pre ++ [f]).map fun g => dispatchedBy g.messages).flatten })) ∧
    ((∀ g ∈ frames, quitSeen g.messages = false) →
      frameLoop frames true p =
        (true,
         { p with
           calls := p.calls ++ (frames.map (renderCalls p.VulkanState.CommandBuffers)).flatten
           dispatched := p.dispatched ++
             (frames.map fun g => dispatchedBy g.messages).flatten })) ∧
    (∀ f ∈ frames, (renderCalls p.VulkanState.CommandBuffers f).length = 4) := by
  refine ⟨?_, ?_, fun f _ => rfl⟩
  · intro pre f post hsplit hpre hf
    rw [hsplit, frameLoop_append pre (f :: post) p hpre, frameLoop_cons, hf]
    simp [frameLoop_stopped, List.append_assoc]
  · intro hall
    have := frameLoop_append frames [] p hall
    rw [List.append_nil] at this
    rw [this]
    rfl

/-- C10 at the frames of `sampleEnv`: the second pump meets `WM_QUIT` and the
loop is left after that iteration, without reaching the third frame. -/
theorem frameLoop_exits_on_quit_witness :
    (frameLoop sampleEnv.frames true sampleReady).1 = false ∧
    (frameLoop sampleEnv.frames true sampleReady).2.calls.length =
      sampleReady.calls.length + 8 ∧
    (frameLoop sampleEnv.frames true sampleReady).2.dispatched = [⟨WM_PAINT⟩] :=
  ⟨congrArg Prod.fst
    ((frameLoop_exits_on_quit sampleEnv.frames sampleReady).1
      [{ ImageIndex := 0 }]
      { ImageIndex := 1, messages := [⟨WM_PAINT⟩, ⟨WM_QUIT⟩, ⟨WM_PAINT⟩] }
      [{ ImageIndex := 0 }] rfl (by decide) (by decide)),
   by decide, by decide⟩

/-! ## Lemmas about the swapchain tables -/

/-- Reading a table at every index of its range gives the table back. -/
theorem range_map_getD {α β : Type} (l : List α) (d : α) (g : α → β) :
    (List.range l.length).map (fun i => g (l.getD i d)) = l.map g := by
  apply List.ext_getElem
  · simp
  · intro i h1 h2
    simp at h1
    simp [List.getD, List.getElem?_eq_getElem h1]

/-- Reading a table at every index of its range, as optional reads. -/
theorem range_map_getElem? {α β : Type} (l : List α) (g : Nat → Option α → β) :
    (List.range l.length).map (fun i => g i l[i]?) =
      (List.range l.length).zipWith (fun i a => g i (some a)) l := by
  apply List.ext_getElem
  · simp
  · intro i h1 h2
    simp at h1
    simp [List.getElem?_eq_getElem h1]

/-- The tables after the block "Create swapchain". -/
theorem createSwapchain_state (env : Env) (p : Process) :
    (createSwapchain env p).VulkanState =
      { p.VulkanState with
        SwapchainImages := env.swapchainImages
        SwapchainImageViews := env.swapchainImages.map fun img =>
          { image := img, format := p.VulkanState.SurfaceFormat } } := by
  simp only [createSwapchain]
  rw [range_map_getD env.swapchainImages VK_NULL_HANDLE
    (fun img => ({ image := img, format := p.VulkanState.SurfaceFormat } : VkImageView))]

/-- The calls of the block "Create swapchain". -/
theorem createSwapchain_calls (env : Env) (p : Process) :
    (createSwapchain env p).calls = p.calls ++
      [ .vkCreateSwapchainKHR
          { minImageCount := p.VulkanState.SurfaceCapabilities.minImageCount
            imageFormat := p.VulkanState.SurfaceFormat
            imageColorSpace := p.VulkanState.SurfaceColorSpace
            imageExtent := p.VulkanState.SurfaceExtent
            queueFamilyIndices := [p.VulkanState.SelectedDeviceQueueFamilyIndex]
            presentMode := p.VulkanState.SurfacePresentMode }
      , .vkGetSwapchainImagesKHR ] ++
      (env.swapchainImages.map fun img =>
        VkCall.vkCreateImageView { image := img, format := p.VulkanState.SurfaceFormat }) := by
  simp only [createSwapchain]
  rw [range_map_getD env.swapchainImages VK_NULL_HANDLE
    (fun img => ({ image := img, format := p.VulkanState.SurfaceFormat } : VkImageView))]
  simp

/-- The block sequence `build` when it succeeds. -/
theorem build_ok (env : Env) (p q : Process) (h : build env p = .ok q) :
    q = createSemaphores (recordCommandBuffers (allocateCommandBuffers (createFramebuffers
      ((createSwapchain env (createLogicalDevice p)).call
        [ .vkCreateShaderModule, .vkCreatePipelineLayout
        , .vkCreateRenderPass (createSwapchain env (createLogicalDevice p)).VulkanState.SurfaceFormat
        , .vkCreateGraphicsPipelines ])))) := by
  unfold build setupGraphicsPipeline win32LoadFile at h
  simp only [bind, Except.bind, pure, Except.pure] at h
  by_cases h1 : env.shaderFileOpens = true
  · by_cases h2 : env.shaderBytesRead = env.shaderFileSize
    · simp [h1, h2] at h
      exact h.symm
    · simp [h1, h2] at h
  · simp [h1] at h

/-- The state after `build`: the four tables in closed form; everything else
is as before. -/
theorem build_state (env : Env) (p q : Process) (h : build env p = .ok q) :
    q.VulkanState =
      { p.VulkanState with
        SwapchainImages := env.swapchainImages
        SwapchainImageViews := env.swapchainImages.map fun img =>
          { image := img, format := p.VulkanState.SurfaceFormat }
        Framebuffers := (List.range env.swapchainImages.length).map fun i =>
          { attachments :=
              [(env.swapchainImages.map fun img =>
                ({ image := img, format := p.VulkanState.SurfaceFormat } : VkImageView))[i]?]
            width := p.VulkanState.SurfaceExtent.width
            height := p.VulkanState.SurfaceExtent.height }
        CommandBuffers := (List.range env.swapchainImages.length).map fun i =>
          { slot := i
            commands :=
              [ .vkCmdBeginRenderPass
                  (((List.range env.swapchainImages.length).map fun i =>
                    ({ attachments :=
                        [(env.swapchainImages.map fun img =>
                          ({ image := img, format := p.VulkanState.SurfaceFormat } :
                            VkImageView))[i]?]
                       width := p.VulkanState.SurfaceExtent.width
                       height := p.VulkanState.SurfaceExtent.height } : VkFramebuffer))[i]?)
                  p.VulkanState.SurfaceExtent
              , .vkCmdBindPipeline
              , .vkCmdDraw 3 1 0 0
              , .vkCmdEndRenderPass ] } } := by
  rw [build_ok env p q h]
  simp only [createSemaphores, recordCommandBuffers, allocateCommandBuffers, createFramebuffers,
    Process.call, createSwapchain_state, createLogicalDevice, List.length_map, List.length_range]
  congr 1
  apply List.map_congr_left
  intro i hi
  simp only [List.mem_range] at hi
  simp [List.getD, hi]

/-! ## Swapchain, image views and the per-image tables -/

/-- C11: for every image list the driver returns for the swapchain, the
block "Create swapchain" stores that list, builds an image-view list of the
same length whose entry `i` is created on image `i` with the surface format
held in the state, which is also the `imageFormat` the swapchain is created
with; the `vkCreateImageView` calls are recorded in the order of the images,
after the creation of the swapchain. -/
theorem createSwapchain_one_view_per_image (env : Env) (p : Process) :
    (createSwapchain env p).VulkanState.SwapchainImages = env.swapchainImages ∧
    (createSwapchain env p).VulkanState.SwapchainImageViews.length =
      (createSwapchain env p).VulkanState.SwapchainImages.length ∧
    (∀ i (h : i < env.swapchainImages.length),
      (createSwapchain env p).VulkanState.SwapchainImageViews[i]? =
        some { image := env.swapchainImages.get ⟨i, h⟩
               format := p.VulkanState.SurfaceFormat }) ∧
    (∀ v ∈ (createSwapchain env p).VulkanState.SwapchainImageViews,
      v.format = p.VulkanState.SurfaceFormat) ∧
    (createSwapchain env p).VulkanState.SurfaceFormat = p.VulkanState.SurfaceFormat ∧
    (createSwapchain env p).calls = p.calls ++
      [ .vkCreateSwapchainKHR
          { minImageCount := p.VulkanState.SurfaceCapabilities.minImageCount
            imageFormat := p.VulkanState.SurfaceFormat
            imageColorSpace := p.VulkanState.SurfaceColorSpace
            imageExtent := p.VulkanState.SurfaceExtent
            queueFamilyIndices := [p.VulkanState.SelectedDeviceQueueFamilyIndex]
            presentMode := p.VulkanState.SurfacePresentMode }
      , .vkGetSwapchainImagesKHR ] ++
      (createSwapchain env p).VulkanState.SwapchainImageViews.map .vkCreateImageView := by
  refine ⟨?_, ?_, ?_, ?_, ?_, ?_⟩
  · rw [createSwapchain_state]
  · rw [createSwapchain_state]
    simp
  · intro i h
    rw [createSwapchain_state]
    simp [List.getElem?_eq_getElem h]
  · intro v hv
    rw [createSwapchain_state] at hv
    simp only [List.mem_map] at hv
    obtain ⟨img, _, rfl⟩ := hv
    rfl
  · rw [createSwapchain_state]
  · rw [createSwapchain_calls, createSwapchain_state]
    simp

/-- C20: after a successful `build` the image-view table, the framebuffer
table and the command-buffer table all have the length of the swapchain image
list; for every index `i` below that length, view `i` is the view of image
`i`, framebuffer `i` has view `i` as its one attachment, and command buffer
`i` begins its render pass on framebuffer `i`.  Hence for every acquired
image index below the image count the read `CommandBuffers[ImageIndex]` of
the block "Render" is inside the table, and the submission carries the
command buffer that renders into the framebuffer on the view of the acquired
image. -/
theorem build_tables_per_image (env : Env) (p q : Process) (h : build env p = .ok q) :
    q.VulkanState.SwapchainImages = env.swapchainImages ∧
    (q.VulkanState.SwapchainImageViews.length = q.VulkanState.SwapchainImages.length ∧
      q.VulkanState.Framebuffers.length = q.VulkanState.SwapchainImages.length ∧
      q.VulkanState.CommandBuffers.length = q.VulkanState.SwapchainImages.length) ∧
    (∀ i (hi : i < env.swapchainImages.length),
      q.VulkanState.SwapchainImageViews[i]? =
        some { image := env.swapchainImages.get ⟨i, hi⟩
               format := p.VulkanState.SurfaceFormat } ∧
      q.VulkanState.Framebuffers[i]? =
        some { attachments := [q.VulkanState.SwapchainImageViews[i]?]
               width := p.VulkanState.SurfaceExtent.width
               height := p.VulkanState.SurfaceExtent.height } ∧
      q.VulkanState.CommandBuffers[i]? =
        some { slot := i
               commands :=
                [ .vkCmdBeginRenderPass q.VulkanState.Framebuffers[i]?
                    p.VulkanState.SurfaceExtent
                , .vkCmdBindPipeline
                , .vkCmdDraw 3 1 0 0
                , .vkCmdEndRenderPass ] }) ∧
    (∀ (f : FrameInput) (hi : f.ImageIndex < env.swapchainImages.length),
      renderCalls q.VulkanState.CommandBuffers f =
        [ .vkAcquireNextImageKHR UINT64_MAX .ImageAvailableSemaphore VK_NULL_HANDLE
            f.acquireResult f.ImageIndex
        , .vkQueueSubmit
            { pWaitSemaphores := [.ImageAvailableSemaphore]
              pWaitDstStageMask := [VK_PIPELINE_STAGE_COLOR_ATTACHMENT_OUTPUT_BIT]
              commandBufferCount := 1
              pCommandBuffers :=
                [some
                  { slot := f.ImageIndex
                    commands :=
                      [ .vkCmdBeginRenderPass
                          (some
                            { attachments :=
                                [some { image := env.swapchainImages.get ⟨f.ImageIndex, hi⟩
                                        format := p.VulkanState.SurfaceFormat }]
                              width := p.VulkanState.SurfaceExtent.width
                              height := p.VulkanState.SurfaceExtent.height })
                          p.VulkanState.SurfaceExtent
                      , .vkCmdBindPipeline
                      , .vkCmdDraw 3 1 0 0
                      , .vkCmdEndRenderPass ] }]
              pSignalSemaphores := [.RenderFinishedSemaphore] }
        , .vkQueuePresentKHR
            { pWaitSemaphores := [.RenderFinishedSemaphore]
              swapchainCount := 1
              pImageIndices := [f.ImageIndex] }
        , .vkQueueWaitIdle ]) := by
  have hs := build_state env p q h
  refine ⟨by rw [hs], by rw [hs]; simp, ?_, ?_⟩
  · intro i hi
    rw [hs]
    simp [List.getElem?_eq_getElem, hi]
  · intro f hi
    rw [hs]
    simp [renderCalls, List.getElem?_eq_getElem, hi]

/-- C20 at `sampleEnv`: `build` succeeds on the negotiated process, and the
three tables have the length of the two-image list. -/
theorem build_tables_per_image_witness :
    build sampleEnv sampleNegotiated = .ok sampleReady ∧
    sampleReady.VulkanState.SwapchainImages = [100, 101] ∧
    (sampleReady.VulkanState.SwapchainImageViews.length =
        sampleReady.VulkanState.SwapchainImages.length ∧
      sampleReady.VulkanState.Framebuffers.length =
        sampleReady.VulkanState.SwapchainImages.length ∧
      sampleReady.VulkanState.CommandBuffers.length =
        sampleReady.VulkanState.SwapchainImages.length) :=
  ⟨rfl, (build_tables_per_image sampleEnv sampleNegotiated sampleReady rfl).1,
    (build_tables_per_image sampleEnv sampleNegotiated sampleReady rfl).2.1⟩

/-! ## Surface extent: the decision -/

/-- C19: the follow-window decision looks at the width of the current extent
only.  With `current.width = 0xFFFFFFFF` both components are the clamped
requested size, whatever the current height is; with any other width the
current extent is used verbatim, also when its height is `0xFFFFFFFF`; and in
the clamped branch a component whose minimum exceeds its maximum resolves to
the minimum. -/
theorem surfaceExtent_decided_by_width (W H : Nat) (c : VkSurfaceCapabilitiesKHR) :
    (c.currentExtent.width = UINT32_MAX →
      surfaceExtent W H c =
        ⟨Clamp W c.minImageExtent.width c.maxImageExtent.width,
         Clamp H c.minImageExtent.height c.maxImageExtent.height⟩) ∧
    (c.currentExtent.width ≠ UINT32_MAX → surfaceExtent W H c = c.currentExtent) ∧
    (c.currentExtent.width = UINT32_MAX →
      (c.maxImageExtent.width < c.minImageExtent.width →
        (surfaceExtent W H c).width = c.minImageExtent.width) ∧
      (c.maxImageExtent.height < c.minImageExtent.height →
        (surfaceExtent W H c).height = c.minImageExtent.height)) ∧
    (∀ v lo hi : Nat, hi < lo → Clamp v lo hi = lo) := by
  refine ⟨fun h => by simp [surfaceExtent, h], fun h => by simp [surfaceExtent, h],
    fun h => ⟨fun hw => ?_, fun hh => ?_⟩, fun v lo hi hlt => ?_⟩
  · simp only [surfaceExtent, h, if_true, Clamp]
    omega
  · simp only [surfaceExtent, h, if_true, Clamp]
    omega
  · simp only [Clamp]
    omega

/-- C19 at three capabilities: current `(0xFFFFFFFF, 5)` resolves to the
clamped `(800, 600)`; current `(640, 0xFFFFFFFF)` is used verbatim; and with
the follow-window width and the bounds `min = (900, 700)`, `max = (100, 650)`
the result is `(900, 700)`. -/
theorem surfaceExtent_decided_by_width_witness :
    surfaceExtent Width Height
        { currentExtent := ⟨UINT32_MAX, 5⟩, minImageExtent := ⟨1, 1⟩,
          maxImageExtent := ⟨4096, 4096⟩ } = ⟨Clamp Width 1 4096, Clamp Height 1 4096⟩ ∧
    surfaceExtent Width Height
        { currentExtent := ⟨640, UINT32_MAX⟩, minImageExtent := ⟨1, 1⟩,
          maxImageExtent := ⟨4096, 4096⟩ } = ⟨640, UINT32_MAX⟩ ∧
    (surfaceExtent Width Height
        { currentExtent := ⟨UINT32_MAX, UINT32_MAX⟩, minImageExtent := ⟨900, 700⟩,
          maxImageExtent := ⟨100, 650⟩ }).width = 900 :=
  ⟨(surfaceExtent_decided_by_width Width Height
      { currentExtent := ⟨UINT32_MAX, 5⟩, minImageExtent := ⟨1, 1⟩,
        maxImageExtent := ⟨4096, 4096⟩ }).1 rfl,
   (surfaceExtent_decided_by_width Width Height
      { currentExtent := ⟨640, UINT32_MAX⟩, minImageExtent := ⟨1, 1⟩,
        maxImageExtent := ⟨4096, 4096⟩ }).2.1 (by decide),
   ((surfaceExtent_decided_by_width Width Height
      { currentExtent := ⟨UINT32_MAX, UINT32_MAX⟩, minImageExtent := ⟨900, 700⟩,
        maxImageExtent := ⟨100, 650⟩ }).2.2.1 rfl).1 (by decide)⟩

/-! ## Lemmas about the availability checks -/

/-- One pass of the inner availability loop over an array given slot by
slot. -/
theorem markFound_map (required : List String) (name : String) (g : String → Bool) :
    markFound required name (required.map g) =
      required.map fun r => if name = r then true else g r := by
  unfold markFound
  induction required with
  | nil => rfl
  | cons r rest ih =>
    simp only [List.map_cons, List.zipWith_cons_cons, ih]

/-- The availability loops in closed form: slot `i` ends up `true` exactly
when the `i`-th required name occurs among the enumerated names. -/
theorem findRequired_eq (required available : List String) :
    findRequired required available = required.map fun r => decide (r ∈ available) := by
  unfold findRequired
  have key : ∀ (g : String → Bool),
      available.foldl (fun found name => markFound required name found) (required.map g) =
        required.map fun r => g r || decide (r ∈ available) := by
    induction available with
    | nil => intro g; simp
    | cons a rest ih =>
      intro g
      rw [List.foldl_cons, markFound_map, ih]
      apply List.map_congr_left
      intro r _
      by_cases har : a = r
      · simp [har]
      · have : ¬ r = a := fun e => har e.symm
        simp [har, this]
  have := key (fun _ => false)
  simpa using this

/-- The availability test fails exactly when some required name does not
occur among the enumerated names. -/
theorem anyMissing_findRequired (required available : List String) :
    anyMissing (findRequired required available) = true ↔
      ∃ r ∈ required, r ∉ available := by
  rw [findRequired_eq]
  simp [anyMissing, List.contains_iff_exists_mem_beq]

/-! ## Lemmas about the device selection -/

/-- The loop over `RequiredFlags` stops early exactly when one of the three
flags is missing. -/
theorem flagLoop_lt_iff (queueFlags : Nat) :
    flagLoop queueFlags RequiredFlags 0 < RequiredFlags.length ↔
      ¬ hasRequiredFlags queueFlags := by
  unfold hasRequiredFlags
  simp only [RequiredFlags, flagLoop, List.length_cons, List.length_nil]
  by_cases h1 : queueFlags &&& VK_QUEUE_GRAPHICS_BIT = 0
  · simp [h1]
  · by_cases h2 : queueFlags &&& VK_QUEUE_COMPUTE_BIT = 0
    · simp [h1, h2]
    · by_cases h3 : queueFlags &&& VK_QUEUE_TRANSFER_BIT = 0
      · simp [h1, h2, h3]
      · simp [h1, h2, h3]

/-- The format scan over a list without the desired format ends on the last
entry of the list. -/
theorem formatLoop_absent (Desired : Nat) (formats : List VkSurfaceFormatKHR)
    (s : SVulkanState) (h : ∀ f ∈ formats, f.format ≠ Desired) :
    formatLoop Desired formats s =
      match formats.getLast? with
      | some f => { s with SurfaceFormat := f.format, SurfaceColorSpace := f.colorSpace }
      | none => s := by
  induction formats generalizing s with
  | nil => rfl
  | cons f rest ih =>
    have hf : f.format ≠ Desired := h f (List.mem_cons_self _ _)
    have hrest : ∀ g ∈ rest, g.format ≠ Desired := fun g hg => h g (List.mem_cons_of_mem _ hg)
    simp only [formatLoop, hf, if_false]
    rw [ih _ hrest]
    cases rest with
    | nil => rfl
    | cons g rest' =>
      rw [List.getLast?_cons_cons]
      cases hl : (g :: rest').getLast? with
      | none => simp at hl
      | some l => rfl

/-- The format scan over a list with the desired format ends on the first
entry that has it. -/
theorem formatLoop_present (Desired : Nat) (formats : List VkSurfaceFormatKHR)
    (s : SVulkanState) (h : ∃ f ∈ formats, f.format = Desired) :
    ∃ f, formats.find? (fun f => f.format = Desired) = some f ∧ f.format = Desired ∧
      formatLoop Desired formats s =
        { s with SurfaceFormat := Desired, SurfaceColorSpace := f.colorSpace } := by
  induction formats generalizing s with
  | nil => simp at h
  | cons f rest ih =>
    by_cases hf : f.format = Desired
    · exact ⟨f, by simp [hf], hf, by simp [formatLoop, hf]⟩
    · have hrest : ∃ g ∈ rest, g.format = Desired := by
        obtain ⟨g, hg, hgd⟩ := h
        rcases List.mem_cons.1 hg with e | e
        · exact absurd (e ▸ hgd) hf
        · exact ⟨g, e, hgd⟩
      obtain ⟨g, hfind, hgd, hloop⟩ := ih
        { s with SurfaceFormat := f.format, SurfaceColorSpace := f.colorSpace } hrest
      refine ⟨g, by simp [List.find?, hf, hfind], hgd, ?_⟩
      simp only [formatLoop, hf, if_false]
      rw [hloop]

/-- The format scan of the device selection, started from `UNDEFINED`, over a
list without the preferred format. -/
theorem formatLoop_lastScanned (formats : List VkSurfaceFormatKHR) (s : SVulkanState)
    (h : ¬ hasPreferredFormat formats) :
    formatLoop VK_FORMAT_B8G8R8A8_UNORM formats { s with SurfaceFormat := VK_FORMAT_UNDEFINED } =
      lastScanned formats s ∧
    (lastScanned formats s).SurfaceFormat ≠ VK_FORMAT_B8G8R8A8_UNORM := by
  have habs : ∀ f ∈ formats, f.format ≠ VK_FORMAT_B8G8R8A8_UNORM :=
    fun f hf e => h ⟨f, hf, e⟩
  rw [formatLoop_absent _ _ _ habs]
  unfold lastScanned
  cases hl : formats.getLast? with
  | none => exact ⟨rfl, by simp [VK_FORMAT_UNDEFINED, VK_FORMAT_B8G8R8A8_UNORM]⟩
  | some l => exact ⟨rfl, habs l (List.mem_of_getLast?_eq_some hl)⟩

/-- A queue family that does not qualify is passed over without a trace. -/
theorem queueFamilyLoop_skip (env : Env) (D : SVulkanPhysicalDevice)
    (qf : VkQueueFamilyProperties) (rest : List VkQueueFamilyProperties) (j : Nat) (p : Process)
    (h : ¬ qualifies env D.Device qf j) :
    queueFamilyLoop env D (qf :: rest) j p = queueFamilyLoop env D rest (j + 1) p := by
  unfold qualifies at h
  by_cases hflags : hasRequiredFlags qf.queueFlags
  · have hsup : env.surfaceSupport D.Device j = false := by
      cases hs : env.surfaceSupport D.Device j
      · rfl
      · exact absurd ⟨hflags, hs⟩ h
    have hnot : ¬ (flagLoop qf.queueFlags RequiredFlags 0 < RequiredFlags.length) := by
      rw [flagLoop_lt_iff]
      exact not_not.2 hflags
    rw [queueFamilyLoop]
    simp [hnot, hsup]
  · have hlt : flagLoop qf.queueFlags RequiredFlags 0 < RequiredFlags.length :=
      (flagLoop_lt_iff _).2 hflags
    rw [queueFamilyLoop]
    simp [hlt]

/-- A qualifying queue family of a device that reports the preferred format
is accepted: the loop is left at its index with the preferred format and the
colour space of the first entry that has it. -/
theorem queueFamilyLoop_accept (env : Env) (D : SVulkanPhysicalDevice)
    (qf : VkQueueFamilyProperties) (rest : List VkQueueFamilyProperties) (j : Nat) (p : Process)
    (hq : qualifies env D.Device qf j)
    (hp : hasPreferredFormat (env.surfaceFormats D.Device)) :
    ∃ f, (env.surfaceFormats D.Device).find?
          (fun f => f.format = VK_FORMAT_B8G8R8A8_UNORM) = some f ∧
      queueFamilyLoop env D (qf :: rest) j p =
        (j, { p with VulkanState :=
                { p.VulkanState with SurfaceFormat := VK_FORMAT_B8G8R8A8_UNORM
                                     SurfaceColorSpace := f.colorSpace } }) := by
  have hnot : ¬ (flagLoop qf.queueFlags RequiredFlags 0 < RequiredFlags.length) := by
    rw [flagLoop_lt_iff]
    exact not_not.2 hq.1
  obtain ⟨f, hfind, _, hloop⟩ := formatLoop_present VK_FORMAT_B8G8R8A8_UNORM
    (env.surfaceFormats D.Device) { p.VulkanState with SurfaceFormat := VK_FORMAT_UNDEFINED } hp
  refine ⟨f, hfind, ?_⟩
  rw [queueFamilyLoop]
  simp only [hnot, if_false, hq.2, Bool.not_true, Bool.false_eq_true, hloop]
  simp [VK_FORMAT_B8G8R8A8_UNORM, VK_FORMAT_UNDEFINED]

/-- A qualifying queue family of a device that does not report the preferred
format is passed over; the scan leaves the last reported format in the state,
and the warning is printed unless that format is `UNDEFINED`. -/
theorem queueFamilyLoop_warn (env : Env) (D : SVulkanPhysicalDevice)
    (qf : VkQueueFamilyProperties) (rest : List VkQueueFamilyProperties) (j : Nat) (p : Process)
    (hq : qualifies env D.Device qf j)
    (hp : ¬ hasPreferredFormat (env.surfaceFormats D.Device)) :
    queueFamilyLoop env D (qf :: rest) j p =
      queueFamilyLoop env D rest (j + 1)
        { p with
          VulkanState := lastScanned (env.surfaceFormats D.Device) p.VulkanState
          stdout := p.stdout ++
            if (lastScanned (env.surfaceFormats D.Device) p.VulkanState).SurfaceFormat =
                VK_FORMAT_UNDEFINED then []
            else [.undesiredSurfaceFormat
              (lastScanned (env.surfaceFormats D.Device) p.VulkanState).SurfaceFormat] } := by
  have hnot : ¬ (flagLoop qf.queueFlags RequiredFlags 0 < RequiredFlags.length) := by
    rw [flagLoop_lt_iff]
    exact not_not.2 hq.1
  obtain ⟨hloop, hne⟩ := formatLoop_lastScanned (env.surfaceFormats D.Device) p.VulkanState hp
  rw [queueFamilyLoop]
  simp only [hnot, if_false, hq.2, Bool.not_true, Bool.false_eq_true, hloop]
  by_cases hu : (lastScanned (env.surfaceFormats D.Device) p.VulkanState).SurfaceFormat =
      VK_FORMAT_UNDEFINED
  · simp [hu]
  · simp [hu, hne]

/-- What the loop over the queue families can change: the surface format and
colour space in the state, and the output, to which it only adds warnings. -/
theorem queueFamilyLoop_frame (env : Env) (D : SVulkanPhysicalDevice)
    (fams : List VkQueueFamilyProperties) (j : Nat) (p : Process) :
    ∃ fmt cs out,
      (queueFamilyLoop env D fams j p).2 =
        { p with
          VulkanState := { p.VulkanState with SurfaceFormat := fmt, SurfaceColorSpace := cs }
          stdout := p.stdout ++ out } ∧
      ∀ o ∈ out, ∃ x, o = Output.undesiredSurfaceFormat x := by
  induction fams generalizing j p with
  | nil => exact ⟨p.VulkanState.SurfaceFormat, p.VulkanState.SurfaceColorSpace, [], by
      simp [queueFamilyLoop], by simp⟩
  | cons qf rest ih =>
    by_cases hq : qualifies env D.Device qf j
    · by_cases hp : hasPreferredFormat (env.surfaceFormats D.Device)
      · obtain ⟨f, _, hacc⟩ := queueFamilyLoop_accept env D qf rest j p hq hp
        exact ⟨VK_FORMAT_B8G8R8A8_UNORM, f.colorSpace, [], by rw [hacc]; simp, by simp⟩
      · rw [queueFamilyLoop_warn env D qf rest j p hq hp]
        obtain ⟨fmt, cs, out, hres, hout⟩ := ih (j + 1)
          { p with
            VulkanState := lastScanned (env.surfaceFormats D.Device) p.VulkanState
            stdout := p.stdout ++
              if (lastScanned (env.surfaceFormats D.Device) p.VulkanState).SurfaceFormat =
                  VK_FORMAT_UNDEFINED then []
              else [.undesiredSurfaceFormat
                (lastScanned (env.surfaceFormats D.Device) p.VulkanState).SurfaceFormat] }
        refine ⟨fmt, cs,
          (if (lastScanned (env.surfaceFormats D.Device) p.VulkanState).SurfaceFormat =
              VK_FORMAT_UNDEFINED then []
            else [.undesiredSurfaceFormat
              (lastScanned (env.surfaceFormats D.Device) p.VulkanState).SurfaceFormat]) ++ out,
          ?_, ?_⟩
        · rw [hres]
          unfold lastScanned
          cases (env.surfaceFormats D.Device).getLast? <;> simp [List.append_assoc]
        · intro o ho
          rcases List.mem_append.1 ho with h1 | h1
          · split at h1
            · simp at h1
            · simp only [List.mem_singleton] at h1
              exact ⟨_, h1⟩
          · exact hout o h1
    · rw [queueFamilyLoop_skip env D qf rest j p hq]
      exact ih (j + 1) p

/-- The loop over the queue families runs to the end of the table when no
family of the device is eligible. -/
theorem queueFamilyLoop_none (env : Env) (D : SVulkanPhysicalDevice)
    (fams : List VkQueueFamilyProperties) (j : Nat) (p : Process)
    (h : ∀ k qf, fams[k]? = some qf →
      ¬ (qualifies env D.Device qf (j + k) ∧ hasPreferredFormat (env.surfaceFormats D.Device))) :
    (queueFamilyLoop env D fams j p).1 = j + fams.length := by
  induction fams generalizing j p with
  | nil => simp [queueFamilyLoop]
  | cons qf rest ih =>
    have hrest : ∀ k qf', rest[k]? = some qf' →
        ¬ (qualifies env D.Device qf' (j + 1 + k) ∧
          hasPreferredFormat (env.surfaceFormats D.Device)) := by
      intro k qf' hk
      have := h (k + 1) qf' (by simpa using hk)
      rwa [show j + (k + 1) = j + 1 + k by omega] at this
    have h0 := h 0 qf (by simp)
    rw [Nat.add_zero] at h0
    by_cases hq : qualifies env D.Device qf j
    · have hp : ¬ hasPreferredFormat (env.surfaceFormats D.Device) := fun hp => h0 ⟨hq, hp⟩
      rw [queueFamilyLoop_warn env D qf rest j p hq hp, ih _ _ hrest]
      simp only [List.length_cons]
      omega
    · rw [queueFamilyLoop_skip env D qf rest j p hq, ih _ _ hrest]
      simp only [List.length_cons]
      omega

/-- The loop over the queue families stops at the first qualifying family of
a device that reports the preferred format, having changed nothing but the
surface format and colour space. -/
theorem queueFamilyLoop_first (env : Env) (D : SVulkanPhysicalDevice)
    (fams : List VkQueueFamilyProperties) (j k : Nat) (qf : VkQueueFamilyProperties)
    (p : Process)
    (hk : fams[k]? = some qf) (hq : qualifies env D.Device qf (j + k))
    (hp : hasPreferredFormat (env.surfaceFormats D.Device))
    (hmin : ∀ k' qf', k' < k → fams[k']? = some qf' → ¬ qualifies env D.Device qf' (j + k')) :
    ∃ f, (env.surfaceFormats D.Device).find?
          (fun f => f.format = VK_FORMAT_B8G8R8A8_UNORM) = some f ∧
      queueFamilyLoop env D fams j p =
        (j + k, { p with VulkanState :=
                    { p.VulkanState with SurfaceFormat := VK_FORMAT_B8G8R8A8_UNORM
                                         SurfaceColorSpace := f.colorSpace } }) := by
  induction fams generalizing j k p with
  | nil => simp at hk
  | cons qf0 rest ih =>
    cases k with
    | zero =>
      simp only [List.getElem?_cons_zero, Option.some.injEq] at hk
      subst hk
      exact queueFamilyLoop_accept env D qf0 rest j p hq hp
    | succ k =>
      have h0 : ¬ qualifies env D.Device qf0 j := by
        have := hmin 0 qf0 (Nat.succ_pos k) (by simp)
        rwa [Nat.add_zero] at this
      rw [queueFamilyLoop_skip env D qf0 rest j p h0]
      have hk' : rest[k]? = some qf := by simpa using hk
      have hq' : qualifies env D.Device qf (j + 1 + k) := by
        rwa [show j + 1 + k = j + (k + 1) by omega]
      have hmin' : ∀ k' qf', k' < k → rest[k']? = some qf' →
          ¬ qualifies env D.Device qf' (j + 1 + k') := by
        intro k' qf' hlt hget
        have := hmin (k' + 1) qf' (by omega) (by simpa using hget)
        rwa [show j + (k' + 1) = j + 1 + k' by omega] at this
      obtain ⟨f, hfind, hres⟩ := ih (j + 1) k p hk' hq' hmin'
      exact ⟨f, hfind, by rw [hres, show j + 1 + k = j + (k + 1) by omega]⟩

/-- A device without an eligible pair is not accepted by its queue-family
loop. -/
theorem queueFamilyLoop_device_none (env : Env) (D : SVulkanPhysicalDevice) (p : Process)
    (h : ∀ j, ¬ eligiblePair env D j) :
    (queueFamilyLoop env D D.QueueFamilies 0 p).1 = D.QueueFamilies.length := by
  rw [queueFamilyLoop_none env D D.QueueFamilies 0 p, Nat.zero_add]
  intro k qf hk hcon
  rw [Nat.zero_add] at hcon
  exact h k ⟨⟨qf, hk, hcon.1⟩, hcon.2⟩

/-- A device with an eligible pair is accepted at its lowest eligible queue
family. -/
theorem queueFamilyLoop_device_first (env : Env) (D : SVulkanPhysicalDevice) (p : Process)
    (j : Nat) (hj : eligiblePair env D j) (hmin : ∀ j', j' < j → ¬ eligiblePair env D j') :
    j < D.QueueFamilies.length ∧
    ∃ f, (env.surfaceFormats D.Device).find?
          (fun f => f.format = VK_FORMAT_B8G8R8A8_UNORM) = some f ∧
      queueFamilyLoop env D D.QueueFamilies 0 p =
        (j, { p with VulkanState :=
                { p.VulkanState with SurfaceFormat := VK_FORMAT_B8G8R8A8_UNORM
                                     SurfaceColorSpace := f.colorSpace } }) := by
  obtain ⟨⟨qf, hget, hq⟩, hp⟩ := hj
  have hlt : j < D.QueueFamilies.length := by
    by_contra hge
    rw [List.getElem?_eq_none (by omega)] at hget
    cases hget
  refine ⟨hlt, ?_⟩
  have := queueFamilyLoop_first env D D.QueueFamilies 0 j qf p hget
    (by rwa [Nat.zero_add]) hp
    (by
      intro k' qf' hk' hget' hq'
      rw [Nat.zero_add] at hq'
      exact hmin k' hk' ⟨⟨qf', hget', hq'⟩, hp⟩)
  simpa using this

/-- Without an eligible pair in the list, the selection loop leaves the
selected device and queue-family index as they were, touches neither the
calls nor the dispatched messages, and adds only warnings to the output. -/
theorem selectDeviceLoop_none (env : Env) (devices : List SVulkanPhysicalDevice) (p : Process)
    (h : ∀ D ∈ devices, ∀ j, ¬ eligiblePair env D j) :
    ∃ fmt cs out,
      selectDeviceLoop env devices p =
        { p with
          VulkanState := { p.VulkanState with SurfaceFormat := fmt, SurfaceColorSpace := cs }
          stdout := p.stdout ++ out } ∧
      ∀ o ∈ out, ∃ x, o = Output.undesiredSurfaceFormat x := by
  induction devices generalizing p with
  | nil =>
    exact ⟨p.VulkanState.SurfaceFormat, p.VulkanState.SurfaceColorSpace, [], by
      simp [selectDeviceLoop], by simp⟩
  | cons D rest ih =>
    have hD := queueFamilyLoop_device_none env D p (h D (List.mem_cons_self _ _))
    obtain ⟨fmt, cs, out, hres, hout⟩ := queueFamilyLoop_frame env D D.QueueFamilies 0 p
    obtain ⟨fmt2, cs2, out2, hres2, hout2⟩ := ih (queueFamilyLoop env D D.QueueFamilies 0 p).2
      (fun D' hD' => h D' (List.mem_cons_of_mem _ hD'))
    refine ⟨fmt2, cs2, out ++ out2, ?_, ?_⟩
    · rw [selectDeviceLoop]
      simp only [hD, Nat.lt_irrefl, if_false]
      rw [hres2, hres]
      simp [List.append_assoc]
    · intro o ho
      rcases List.mem_append.1 ho with h1 | h1
      · exact hout o h1
      · exact hout2 o h1

/-- The selection loop accepts the first device that has an eligible pair, at
its lowest eligible queue family, with the preferred format and the colour
space of the first entry of that device that has it. -/
theorem selectDeviceLoop_first (env : Env) (pre post : List SVulkanPhysicalDevice)
    (D : SVulkanPhysicalDevice) (j : Nat) (p : Process)
    (hpre : ∀ D' ∈ pre, ∀ j', ¬ eligiblePair env D' j')
    (hj : eligiblePair env D j) (hmin : ∀ j', j' < j → ¬ eligiblePair env D j') :
    ∃ f out, (env.surfaceFormats D.Device).find?
          (fun f => f.format = VK_FORMAT_B8G8R8A8_UNORM) = some f ∧
      selectDeviceLoop env (pre ++ D :: post) p =
        { p with
          VulkanState :=
            { p.VulkanState with
              SelectedDevice := D.Device
              SelectedDeviceQueueFamilyIndex := j
              SurfaceFormat := VK_FORMAT_B8G8R8A8_UNORM
              SurfaceColorSpace := f.colorSpace }
          stdout := p.stdout ++ out } ∧
      ∀ o ∈ out, ∃ x, o = Output.undesiredSurfaceFormat x := by
  induction pre generalizing p with
  | nil =>
    obtain ⟨hlt, f, hfind, hres⟩ := queueFamilyLoop_device_first env D p j hj hmin
    refine ⟨f, [], hfind, ?_, by simp⟩
    rw [List.nil_append, selectDeviceLoop]
    simp [hres, hlt]
  | cons D' pre ih =>
    have hD := queueFamilyLoop_device_none env D' p (hpre D' (List.mem_cons_self _ _))
    obtain ⟨fmt, cs, out, hres, hout⟩ := queueFamilyLoop_frame env D' D'.QueueFamilies 0 p
    obtain ⟨f, out2, hfind, hres2, hout2⟩ := ih (queueFamilyLoop env D' D'.QueueFamilies 0 p).2
      (fun D'' hD'' => hpre D'' (List.mem_cons_of_mem _ hD''))
    refine ⟨f, out ++ out2, hfind, ?_, ?_⟩
    · rw [List.cons_append, selectDeviceLoop]
      simp only [hD, Nat.lt_irrefl, if_false]
      rw [hres2, hres]
      simp [List.append_assoc]
    · intro o ho
      rcases List.mem_append.1 ho with h1 | h1
      · exact hout o h1
      · exact hout2 o h1

/-- A list with an eligible pair has a first one: a first device that has
eligible pairs, and the lowest eligible queue family of that device. -/
theorem exists_first_eligible (env : Env) (devices : List SVulkanPhysicalDevice)
    (h : ∃ D ∈ devices, ∃ j, eligiblePair env D j) :
    ∃ pre D post j, devices = pre ++ D :: post ∧
      (∀ D' ∈ pre, ∀ j', ¬ eligiblePair env D' j') ∧
      eligiblePair env D j ∧ ∀ j', j' < j → ¬ eligiblePair env D j' := by
  classical
  induction devices with
  | nil => simp at h
  | cons D rest ih =>
    by_cases hD : ∃ j, eligiblePair env D j
    · exact ⟨[], D, rest, Nat.find hD, rfl, by simp, Nat.find_spec hD,
        fun j' hj' => Nat.find_min hD hj'⟩
    · have hrest : ∃ D' ∈ rest, ∃ j, eligiblePair env D' j := by
        obtain ⟨D', hmem, j, hj⟩ := h
        rcases List.mem_cons.1 hmem with e | e
        · exact absurd ⟨j, e ▸ hj⟩ hD
        · exact ⟨D', e, j, hj⟩
      obtain ⟨pre, D1, post, j, hsplit, hpre, hj, hmin⟩ := ih hrest
      refine ⟨D :: pre, D1, post, j, by rw [hsplit]; rfl, ?_, hj, hmin⟩
      intro D' hD' j' hj'
      rcases List.mem_cons.1 hD' with e | e
      · exact hD ⟨j', e ▸ hj'⟩
      · exact hpre D' e j' hj'

/-- The queue-family loop of a device whose surface-format list is empty runs
to the end of the table and prints nothing. -/
theorem queueFamilyLoop_empty_formats (env : Env) (D : SVulkanPhysicalDevice)
    (fams : List VkQueueFamilyProperties) (j : Nat) (p : Process)
    (h : env.surfaceFormats D.Device = []) :
    (queueFamilyLoop env D fams j p).1 = j + fams.length ∧
    (queueFamilyLoop env D fams j p).2.stdout = p.stdout := by
  have hp : ¬ hasPreferredFormat (env.surfaceFormats D.Device) := by
    rw [h]
    simp [hasPreferredFormat]
  induction fams generalizing j p with
  | nil => simp [queueFamilyLoop]
  | cons qf rest ih =>
    by_cases hq : qualifies env D.Device qf j
    · rw [queueFamilyLoop_warn env D qf rest j p hq hp]
      obtain ⟨h1, h2⟩ := ih (j + 1)
        { p with
          VulkanState := lastScanned (env.surfaceFormats D.Device) p.VulkanState
          stdout := p.stdout ++
            if (lastScanned (env.surfaceFormats D.Device) p.VulkanState).SurfaceFormat =
                VK_FORMAT_UNDEFINED then []
            else [.undesiredSurfaceFormat
              (lastScanned (env.surfaceFormats D.Device) p.VulkanState).SurfaceFormat] }
      refine ⟨by rw [h1]; simp only [List.length_cons]; omega, ?_⟩
      rw [h2, h]
      simp [lastScanned]
    · rw [queueFamilyLoop_skip env D qf rest j p hq]
      obtain ⟨h1, h2⟩ := ih (j + 1) p
      exact ⟨by rw [h1]; simp only [List.length_cons]; omega, h2⟩

/-- The selection loop never selects a handle whose surface-format list is
empty. -/
theorem selectDeviceLoop_ne_of_empty_formats (env : Env)
    (devices : List SVulkanPhysicalDevice) (p : Process) (h : Nat)
    (hempty : env.surfaceFormats h = []) (hne : p.VulkanState.SelectedDevice ≠ h) :
    (selectDeviceLoop env devices p).VulkanState.SelectedDevice ≠ h := by
  induction devices generalizing p with
  | nil => simpa [selectDeviceLoop] using hne
  | cons D rest ih =>
    rw [selectDeviceLoop]
    by_cases hlt : (queueFamilyLoop env D D.QueueFamilies 0 p).1 < D.QueueFamilies.length
    · simp only [hlt, if_true]
      intro hD
      have hD' : D.Device = h := hD
      have := (queueFamilyLoop_empty_formats env D D.QueueFamilies 0 p (by rw [hD', hempty])).1
      rw [this, Nat.zero_add] at hlt
      exact Nat.lt_irrefl _ hlt
    · simp only [hlt, if_false]
      apply ih
      obtain ⟨fmt, cs, out, hres, _⟩ := queueFamilyLoop_frame env D D.QueueFamilies 0 p
      rw [hres]
      exact hne

/-! ## Device selection: what the loops do -/

/-- C14, as stated, fails: over the list `R8G8B8A8_UNORM / SRGB_NONLINEAR`,
`R8G8B8A8_SRGB / DISPLAY_P3_NONLINEAR`, which is not empty and lacks the
preferred format, the scan ends on the second (last) entry, not on the first
reported one; the warning of the run names `R8G8B8A8_SRGB`. -/
theorem formatLoop_keeps_last_not_first :
    (formatLoop VK_FORMAT_B8G8R8A8_UNORM
        [ ⟨VK_FORMAT_R8G8B8A8_UNORM, VK_COLOR_SPACE_SRGB_NONLINEAR_KHR⟩
        , ⟨VK_FORMAT_R8G8B8A8_SRGB, VK_COLOR_SPACE_DISPLAY_P3_NONLINEAR_EXT⟩ ]
        { SurfaceFormat := VK_FORMAT_UNDEFINED }).SurfaceFormat = VK_FORMAT_R8G8B8A8_SRGB ∧
    (formatLoop VK_FORMAT_B8G8R8A8_UNORM
        [ ⟨VK_FORMAT_R8G8B8A8_UNORM, VK_COLOR_SPACE_SRGB_NONLINEAR_KHR⟩
        , ⟨VK_FORMAT_R8G8B8A8_SRGB, VK_COLOR_SPACE_DISPLAY_P3_NONLINEAR_EXT⟩ ]
        { SurfaceFormat := VK_FORMAT_UNDEFINED }).SurfaceColorSpace =
      VK_COLOR_SPACE_DISPLAY_P3_NONLINEAR_EXT ∧
    (formatLoop VK_FORMAT_B8G8R8A8_UNORM
        [ ⟨VK_FORMAT_R8G8B8A8_UNORM, VK_COLOR_SPACE_SRGB_NONLINEAR_KHR⟩
        , ⟨VK_FORMAT_R8G8B8A8_SRGB, VK_COLOR_SPACE_DISPLAY_P3_NONLINEAR_EXT⟩ ]
        { SurfaceFormat := VK_FORMAT_UNDEFINED }).SurfaceFormat ≠ VK_FORMAT_R8G8B8A8_UNORM ∧
    (main (sampleEnvFormats
        [ ⟨VK_FORMAT_R8G8B8A8_UNORM, VK_COLOR_SPACE_SRGB_NONLINEAR_KHR⟩
        , ⟨VK_FORMAT_R8G8B8A8_SRGB, VK_COLOR_SPACE_DISPLAY_P3_NONLINEAR_EXT⟩ ])).process.stdout =
      [.undesiredSurfaceFormat VK_FORMAT_R8G8B8A8_SRGB, .noSuitableDevice] := by
  decide

/-- C14, amended: over a non-empty list without the preferred format the
scan, started from `UNDEFINED`, ends on the last reported entry of the list,
format and colour space; a qualifying queue family of such a device prints the
warning with that last format, unless that format is `UNDEFINED`; and over a
list that contains the preferred format the scan yields the preferred format,
with the colour space of the first entry that has it. -/
theorem formatLoop_result (formats : List VkSurfaceFormatKHR) (s : SVulkanState) :
    (formats ≠ [] → ¬ hasPreferredFormat formats →
      ∃ l, formats.getLast? = some l ∧
        formatLoop VK_FORMAT_B8G8R8A8_UNORM formats
            { s with SurfaceFormat := VK_FORMAT_UNDEFINED } =
          { s with SurfaceFormat := l.format, SurfaceColorSpace := l.colorSpace } ∧
        ∀ (env : Env) (D : SVulkanPhysicalDevice) (qf : VkQueueFamilyProperties)
          (rest : List VkQueueFamilyProperties) (j : Nat) (p : Process),
          env.surfaceFormats D.Device = formats → qualifies env D.Device qf j →
          l.format ≠ VK_FORMAT_UNDEFINED →
          ∃ out, (queueFamilyLoop env D (qf :: rest) j p).2.stdout =
            p.stdout ++ [.undesiredSurfaceFormat l.format] ++ out) ∧
    (hasPreferredFormat formats →
      ∃ f, formats.find? (fun f => f.format = VK_FORMAT_B8G8R8A8_UNORM) = some f ∧
        formatLoop VK_FORMAT_B8G8R8A8_UNORM formats
            { s with SurfaceFormat := VK_FORMAT_UNDEFINED } =
          { s with SurfaceFormat := VK_FORMAT_B8G8R8A8_UNORM
                   SurfaceColorSpace := f.colorSpace }) := by
  constructor
  · intro hne hp
    cases hl : formats.getLast? with
    | none => exact absurd (List.getLast?_eq_none_iff.1 hl) hne
    | some l =>
      refine ⟨l, rfl, ?_, ?_⟩
      · rw [(formatLoop_lastScanned formats s hp).1]
        simp [lastScanned, hl]
      · intro env D qf rest j p hfm hq hund
        rw [queueFamilyLoop_warn env D qf rest j p hq (by rw [hfm]; exact hp)]
        obtain ⟨fmt, cs, out, hres, _⟩ := queueFamilyLoop_frame env D rest (j + 1)
          { p with
            VulkanState := lastScanned (env.surfaceFormats D.Device) p.VulkanState
            stdout := p.stdout ++
              if (lastScanned (env.surfaceFormats D.Device) p.VulkanState).SurfaceFormat =
                  VK_FORMAT_UNDEFINED then []
              else [.undesiredSurfaceFormat
                (lastScanned (env.surfaceFormats D.Device) p.VulkanState).SurfaceFormat] }
        refine ⟨out, ?_⟩
        rw [hres, hfm]
        simp [lastScanned, hl, hund]
  · intro hp
    obtain ⟨f, hfind, _, hloop⟩ := formatLoop_present VK_FORMAT_B8G8R8A8_UNORM formats
      { s with SurfaceFormat := VK_FORMAT_UNDEFINED } hp
    exact ⟨f, hfind, by rw [hloop]⟩

/-- C14 amended, at two lists: the two-entry list without the preferred
format ends on its last entry; the list `R8G8B8A8_UNORM`, `B8G8R8A8_UNORM`
yields the preferred format. -/
theorem formatLoop_result_witness :
    (∃ l, [ (⟨VK_FORMAT_R8G8B8A8_UNORM, VK_COLOR_SPACE_SRGB_NONLINEAR_KHR⟩ : VkSurfaceFormatKHR)
          , ⟨VK_FORMAT_R8G8B8A8_SRGB, VK_COLOR_SPACE_DISPLAY_P3_NONLINEAR_EXT⟩ ].getLast? =
          some l ∧
        formatLoop VK_FORMAT_B8G8R8A8_UNORM
            [ ⟨VK_FORMAT_R8G8B8A8_UNORM, VK_COLOR_SPACE_SRGB_NONLINEAR_KHR⟩
            , ⟨VK_FORMAT_R8G8B8A8_SRGB, VK_COLOR_SPACE_DISPLAY_P3_NONLINEAR_EXT⟩ ]
            { ({} : SVulkanState) with SurfaceFormat := VK_FORMAT_UNDEFINED } =
          { ({} : SVulkanState) with
            SurfaceFormat := l.format, SurfaceColorSpace := l.colorSpace }) ∧
    (∃ f, [ (⟨VK_FORMAT_R8G8B8A8_UNORM, VK_COLOR_SPACE_SRGB_NONLINEAR_KHR⟩ : VkSurfaceFormatKHR)
          , ⟨VK_FORMAT_B8G8R8A8_UNORM, VK_COLOR_SPACE_DISPLAY_P3_NONLINEAR_EXT⟩ ].find?
            (fun f => f.format = VK_FORMAT_B8G8R8A8_UNORM) = some f ∧
        formatLoop VK_FORMAT_B8G8R8A8_UNORM
            [ ⟨VK_FORMAT_R8G8B8A8_UNORM, VK_COLOR_SPACE_SRGB_NONLINEAR_KHR⟩
            , ⟨VK_FORMAT_B8G8R8A8_UNORM, VK_COLOR_SPACE_DISPLAY_P3_NONLINEAR_EXT⟩ ]
            { ({} : SVulkanState) with SurfaceFormat := VK_FORMAT_UNDEFINED } =
          { ({} : SVulkanState) with
            SurfaceFormat := VK_FORMAT_B8G8R8A8_UNORM, SurfaceColorSpace := f.colorSpace }) :=
  ⟨(((formatLoop_result
        [ ⟨VK_FORMAT_R8G8B8A8_UNORM, VK_COLOR_SPACE_SRGB_NONLINEAR_KHR⟩
        , ⟨VK_FORMAT_R8G8B8A8_SRGB, VK_COLOR_SPACE_DISPLAY_P3_NONLINEAR_EXT⟩ ] {}).1
      (by decide) (by simp [hasPreferredFormat]; decide)).imp fun _ h => ⟨h.1, h.2.1⟩),
   (formatLoop_result
        [ ⟨VK_FORMAT_R8G8B8A8_UNORM, VK_COLOR_SPACE_SRGB_NONLINEAR_KHR⟩
        , ⟨VK_FORMAT_B8G8R8A8_UNORM, VK_COLOR_SPACE_DISPLAY_P3_NONLINEAR_EXT⟩ ] {}).2
      ⟨⟨VK_FORMAT_B8G8R8A8_UNORM, VK_COLOR_SPACE_DISPLAY_P3_NONLINEAR_EXT⟩, by simp, rfl⟩⟩

/-- C15: a candidate whose surface-format list is empty is rejected.  Its
queue-family loop runs to the end of the table whatever the flags and the
presentation support of its families are, and prints nothing; for every
candidate list the handle of such a candidate is not the selected device
after the selection loop, and so not the device of a successful selection. -/
theorem selectDevice_rejects_empty_format_list (env : Env) :
    (∀ (D : SVulkanPhysicalDevice) (p : Process), env.surfaceFormats D.Device = [] →
      (queueFamilyLoop env D D.QueueFamilies 0 p).1 = D.QueueFamilies.length ∧
      ¬ ((queueFamilyLoop env D D.QueueFamilies 0 p).1 < D.QueueFamilies.length) ∧
      (queueFamilyLoop env D D.QueueFamilies 0 p).2.stdout = p.stdout) ∧
    (∀ (devices : List SVulkanPhysicalDevice) (p : Process) (h : Nat),
      env.surfaceFormats h = [] → p.VulkanState.SelectedDevice ≠ h →
      (selectDeviceLoop env devices p).VulkanState.SelectedDevice ≠ h) ∧
    (∀ (p q : Process) (h : Nat), env.surfaceFormats h = [] →
      p.VulkanState.SelectedDevice = VK_NULL_HANDLE → h ≠ VK_NULL_HANDLE →
      selectDevice env p = .ok q → q.VulkanState.SelectedDevice ≠ h) := by
  refine ⟨fun D p h => ?_, fun devices p h hempty hne =>
    selectDeviceLoop_ne_of_empty_formats env devices p h hempty hne, fun p q h hempty hnull hh hok => ?_⟩
  · obtain ⟨h1, h2⟩ := queueFamilyLoop_empty_formats env D D.QueueFamilies 0 p h
    rw [Nat.zero_add] at h1
    exact ⟨h1, by rw [h1]; exact Nat.lt_irrefl _, h2⟩
  · have := selectDeviceLoop_ne_of_empty_formats env p.VulkanState.PhysicalDevices p h hempty
      (by rw [hnull]; exact fun e => hh e.symm)
    unfold selectDevice at hok
    simp only at hok
    split at hok
    · cases hok
    · cases hok
      exact this

/-- C15 at `sampleEnvEmptyFirst`: handle `7`, whose format list is empty, is
not selected although its queue family qualifies; handle `1` is, and nothing
is printed. -/
theorem selectDevice_rejects_empty_format_list_witness :
    (selectDeviceLoop sampleEnvEmptyFirst
        (preparedProcess sampleEnvEmptyFirst).VulkanState.PhysicalDevices
        (preparedProcess sampleEnvEmptyFirst)).VulkanState.SelectedDevice ≠ 7 ∧
    (main sampleEnvEmptyFirst).process.VulkanState.SelectedDevice = 1 ∧
    (main sampleEnvEmptyFirst).process.stdout = [] :=
  ⟨(selectDevice_rejects_empty_format_list sampleEnvEmptyFirst).2.1
      (preparedProcess sampleEnvEmptyFirst).VulkanState.PhysicalDevices
      (preparedProcess sampleEnvEmptyFirst) 7 rfl (by decide),
   by decide, by decide⟩

/-- C17, as stated, fails in its last clause: in `sampleEnv` with the
surface-format list `UNDEFINED / SRGB_NONLINEAR`, the one queue family of the
device qualifies (flags `7`, presentation supported) and the candidate lacks
the preferred format, the family is skipped and no device is selected, but no
warning is produced: the only line printed is "Couldn't find suitable
device". -/
theorem selectDevice_undefined_format_no_warning :
    (sampleEnvFormats [⟨VK_FORMAT_UNDEFINED, VK_COLOR_SPACE_SRGB_NONLINEAR_KHR⟩]).queueFamilies 1 =
      [{ queueFlags := 7 }] ∧
    (7 &&& VK_QUEUE_GRAPHICS_BIT ≠ 0 ∧ 7 &&& VK_QUEUE_COMPUTE_BIT ≠ 0 ∧
      7 &&& VK_QUEUE_TRANSFER_BIT ≠ 0) ∧
    (sampleEnvFormats [⟨VK_FORMAT_UNDEFINED, VK_COLOR_SPACE_SRGB_NONLINEAR_KHR⟩]).surfaceSupport
      1 0 = true ∧
    (∀ f ∈ (sampleEnvFormats
        [⟨VK_FORMAT_UNDEFINED, VK_COLOR_SPACE_SRGB_NONLINEAR_KHR⟩]).surfaceFormats 1,
      f.format ≠ VK_FORMAT_B8G8R8A8_UNORM) ∧
    (main (sampleEnvFormats
        [⟨VK_FORMAT_UNDEFINED, VK_COLOR_SPACE_SRGB_NONLINEAR_KHR⟩])).process.stdout =
      [.noSuitableDevice] ∧
    (main (sampleEnvFormats
        [⟨VK_FORMAT_UNDEFINED, VK_COLOR_SPACE_SRGB_NONLINEAR_KHR⟩])).outcome =
      .returned (-1) := by
  decide

/-- C17, amended.  For a candidate list whose handles are not the null handle
(and with no device selected yet): the selection returns the first eligible
pair, that is the first candidate in enumeration order that has an eligible
queue family and the lowest such family, where a family is eligible when its
flags contain graphics, compute and transfer, it supports presentation, and
the candidate's surface-format list contains `B8G8R8A8_UNORM`; "Couldn't find
suitable device" with return code `-1` is the result exactly when no eligible
pair exists; whenever selection succeeds the surface format is
`B8G8R8A8_UNORM` and the colour space is that of the first list entry with
that format; and a qualifying family of a candidate lacking the preferred
format is skipped, leaving the last reported format in the state and printing
the warning for it unless the list is empty or that last format is
`UNDEFINED`. -/
theorem selectDevice_first_eligible_pair (env : Env) (p : Process)
    (hnull : p.VulkanState.SelectedDevice = VK_NULL_HANDLE)
    (hvalid : ∀ D ∈ p.VulkanState.PhysicalDevices, D.Device ≠ VK_NULL_HANDLE) :
    (∀ pre D post j, p.VulkanState.PhysicalDevices = pre ++ D :: post →
      (∀ D' ∈ pre, ∀ j', ¬ eligiblePair env D' j') →
      eligiblePair env D j → (∀ j', j' < j → ¬ eligiblePair env D j') →
      ∃ f q, (env.surfaceFormats D.Device).find?
            (fun f => f.format = VK_FORMAT_B8G8R8A8_UNORM) = some f ∧
        selectDevice env p = .ok q ∧
        q.VulkanState.SelectedDevice = D.Device ∧
        q.VulkanState.SelectedDeviceQueueFamilyIndex = j ∧
        q.VulkanState.SurfaceFormat = VK_FORMAT_B8G8R8A8_UNORM ∧
        q.VulkanState.SurfaceColorSpace = f.colorSpace) ∧
    ((∃ q, selectDevice env p = .error ⟨.returned (-1), q⟩ ∧
        q.stdout.getLast? = some .noSuitableDevice) ↔
      ∀ D ∈ p.VulkanState.PhysicalDevices, ∀ j, ¬ eligiblePair env D j) ∧
    ((∃ q, selectDevice env p = .ok q) ↔
      ∃ D ∈ p.VulkanState.PhysicalDevices, ∃ j, eligiblePair env D j) ∧
    (∀ q, selectDevice env p = .ok q →
      q.VulkanState.SurfaceFormat = VK_FORMAT_B8G8R8A8_UNORM ∧
      ∃ D ∈ p.VulkanState.PhysicalDevices, q.VulkanState.SelectedDevice = D.Device ∧
        eligiblePair env D q.VulkanState.SelectedDeviceQueueFamilyIndex ∧
        ∃ f, (env.surfaceFormats D.Device).find?
              (fun f => f.format = VK_FORMAT_B8G8R8A8_UNORM) = some f ∧
          q.VulkanState.SurfaceColorSpace = f.colorSpace) ∧
    (∀ (D : SVulkanPhysicalDevice) (qf : VkQueueFamilyProperties)
        (rest : List VkQueueFamilyProperties) (j : Nat) (p' : Process),
      qualifies env D.Device qf j → ¬ hasPreferredFormat (env.surfaceFormats D.Device) →
      queueFamilyLoop env D (qf :: rest) j p' =
        queueFamilyLoop env D rest (j + 1)
          { p' with
            VulkanState := lastScanned (env.surfaceFormats D.Device) p'.VulkanState
            stdout := p'.stdout ++
              if (lastScanned (env.surfaceFormats D.Device) p'.VulkanState).SurfaceFormat =
                  VK_FORMAT_UNDEFINED then []
              else [.undesiredSurfaceFormat
                (lastScanned (env.surfaceFormats D.Device) p'.VulkanState).SurfaceFormat] }) := by
  have hfirst : ∀ pre D post j, p.VulkanState.PhysicalDevices = pre ++ D :: post →
      (∀ D' ∈ pre, ∀ j', ¬ eligiblePair env D' j') →
      eligiblePair env D j → (∀ j', j' < j → ¬ eligiblePair env D j') →
      ∃ f q, (env.surfaceFormats D.Device).find?
            (fun f => f.format = VK_FORMAT_B8G8R8A8_UNORM) = some f ∧
        selectDevice env p = .ok q ∧
        q.VulkanState.SelectedDevice = D.Device ∧
        q.VulkanState.SelectedDeviceQueueFamilyIndex = j ∧
        q.VulkanState.SurfaceFormat = VK_FORMAT_B8G8R8A8_UNORM ∧
        q.VulkanState.SurfaceColorSpace = f.colorSpace := by
    intro pre D post j hsplit hpre hj hmin
    obtain ⟨f, out, hfind, hres, _⟩ := selectDeviceLoop_first env pre post D j p hpre hj hmin
    have hD : D.Device ≠ VK_NULL_HANDLE :=
      hvalid D (by rw [hsplit]; exact List.mem_append_right _ (List.mem_cons_self _ _))
    rw [← hsplit] at hres
    have hsel : selectDevice env p = .ok (selectDeviceLoop env p.VulkanState.PhysicalDevices p) := by
      unfold selectDevice
      simp only
      rw [if_neg]
      rw [hres]
      exact hD
    refine ⟨f, selectDeviceLoop env p.VulkanState.PhysicalDevices p, hfind, hsel, ?_⟩
    rw [hres]
    exact ⟨rfl, rfl, rfl, rfl⟩
  have hnone : (∀ D ∈ p.VulkanState.PhysicalDevices, ∀ j, ¬ eligiblePair env D j) →
      ∃ q, selectDevice env p = .error ⟨.returned (-1), q⟩ ∧
        q.stdout.getLast? = some .noSuitableDevice := by
    intro hno
    obtain ⟨fmt, cs, out, hres, _⟩ := selectDeviceLoop_none env _ p hno
    refine ⟨(selectDeviceLoop env p.VulkanState.PhysicalDevices p).print .noSuitableDevice, ?_, ?_⟩
    · unfold selectDevice
      simp only
      rw [if_pos]
      rw [hres]
      exact hnull
    · simp [Process.print]
  have hsome : (∃ D ∈ p.VulkanState.PhysicalDevices, ∃ j, eligiblePair env D j) →
      ∃ q, selectDevice env p = .ok q ∧
        q.VulkanState.SurfaceFormat = VK_FORMAT_B8G8R8A8_UNORM ∧
        ∃ D ∈ p.VulkanState.PhysicalDevices, q.VulkanState.SelectedDevice = D.Device ∧
          eligiblePair env D q.VulkanState.SelectedDeviceQueueFamilyIndex ∧
          ∃ f, (env.surfaceFormats D.Device).find?
                (fun f => f.format = VK_FORMAT_B8G8R8A8_UNORM) = some f ∧
            q.VulkanState.SurfaceColorSpace = f.colorSpace := by
    intro hex
    obtain ⟨pre, D, post, j, hsplit, hpre, hj, hmin⟩ := exists_first_eligible env _ hex
    obtain ⟨f, q, hfind, hok, h1, h2, h3, h4⟩ := hfirst pre D post j hsplit hpre hj hmin
    exact ⟨q, hok, h3, D, by rw [hsplit]; exact List.mem_append_right _ (List.mem_cons_self _ _),
      h1, by rw [h2]; exact hj, f, hfind, h4⟩
  refine ⟨hfirst, ⟨fun herr hD => ?_, hnone⟩, ⟨fun hok => ?_, fun hex => ?_⟩, fun q hq => ?_,
    fun D qf rest j p' hq hp => queueFamilyLoop_warn env D qf rest j p' hq hp⟩
  · intro hmem j hj
    obtain ⟨q, hok, _⟩ := hsome ⟨hD, hmem, j, hj⟩
    obtain ⟨q', herr', _⟩ := herr
    rw [hok] at herr'
    cases herr'
  · by_contra hno
    have hno' : ∀ D ∈ p.VulkanState.PhysicalDevices, ∀ j, ¬ eligiblePair env D j :=
      fun D hD j hj => hno ⟨D, hD, j, hj⟩
    obtain ⟨q', herr, _⟩ := hnone hno'
    obtain ⟨q, hok⟩ := hok
    rw [hok] at herr
    cases herr
  · obtain ⟨q, hok, _⟩ := hsome hex
    exact ⟨q, hok⟩
  · by_cases hex : ∃ D ∈ p.VulkanState.PhysicalDevices, ∃ j, eligiblePair env D j
    · obtain ⟨q', hok, h3, hrest⟩ := hsome hex
      rw [hq] at hok
      cases hok
      exact ⟨h3, hrest⟩
    · have hno' : ∀ D ∈ p.VulkanState.PhysicalDevices, ∀ j, ¬ eligiblePair env D j :=
        fun D hD j hj => hex ⟨D, hD, j, hj⟩
      obtain ⟨q', herr, _⟩ := hnone hno'
      rw [hq] at herr
      cases herr

/-- C17 amended, at `sampleEnvTwoDevices`: handle `1` lacks the preferred
format, handle `2` has it; the selection succeeds with handle `2`, family `0`
and the preferred format. -/
theorem selectDevice_first_eligible_pair_witness :
    ∃ f q, (sampleEnvTwoDevices.surfaceFormats 2).find?
          (fun f => f.format = VK_FORMAT_B8G8R8A8_UNORM) = some f ∧
      selectDevice sampleEnvTwoDevices (preparedProcess sampleEnvTwoDevices) = .ok q ∧
      q.VulkanState.SelectedDevice = 2 ∧
      q.VulkanState.SelectedDeviceQueueFamilyIndex = 0 ∧
      q.VulkanState.SurfaceFormat = VK_FORMAT_B8G8R8A8_UNORM ∧
      q.VulkanState.SurfaceColorSpace = f.colorSpace :=
  (selectDevice_first_eligible_pair sampleEnvTwoDevices (preparedProcess sampleEnvTwoDevices)
      rfl (by decide)).1
    [{ Device := 1, Version := VulkanExtractVersion 4206592, QueueFamilies := [{ queueFlags := 7 }] }]
    { Device := 2, Version := VulkanExtractVersion 4206592, QueueFamilies := [{ queueFlags := 7 }] }
    [] 0 rfl
    (by
      intro D' hD' j' hj'
      simp only [List.mem_singleton] at hD'
      subst hD'
      obtain ⟨f, hf, hfmt⟩ := hj'.2
      simp [sampleEnvTwoDevices] at hf
      subst hf
      simp [VK_FORMAT_R8G8B8A8_UNORM, VK_FORMAT_B8G8R8A8_UNORM] at hfmt)
    ⟨⟨{ queueFlags := 7 }, rfl, by unfold hasRequiredFlags; decide, rfl⟩,
      ⟨VK_FORMAT_B8G8R8A8_UNORM, VK_COLOR_SPACE_SRGB_NONLINEAR_KHR⟩, by simp [sampleEnvTwoDevices], rfl⟩
    (fun j' hj' => absurd hj' (Nat.not_lt_zero _))

/-! ## Lemmas about the recorded calls -/

/-- The function `main` in terms of `setup`. -/
theorem main_eq (env : Env) :
    main env =
      match setup env with
      | .error r => r
      | .ok p =>
        if (frameLoop env.frames true p).1 then ⟨.running, (frameLoop env.frames true p).2⟩
        else ⟨.returned 0, (frameLoop env.frames true p).2⟩ := rfl

/-- The blocks of `setup` one after the other. -/
theorem setup_eq (env : Env) :
    setup env =
      match prepare env with
      | .error r => .error r
      | .ok p0 =>
        match selectDevice env p0 with
        | .error r => .error r
        | .ok p1 =>
          match getSurfaceProperties env p1 with
          | .error r => .error r
          | .ok p2 => build env p2 := by
  unfold setup initialise
  cases prepare env with
  | error r => rfl
  | ok p0 =>
    simp only [bind, Except.bind]
    cases selectDevice env p0 with
    | error r => rfl
    | ok p1 =>
      simp only
      cases getSurfaceProperties env p1 with
      | error r => rfl
      | ok p2 => rfl

/-- What the selection loop can change: the selected device and queue-family
index, the surface format and colour space, and the output. -/
theorem selectDeviceLoop_frame (env : Env) (devices : List SVulkanPhysicalDevice)
    (p : Process) :
    ∃ sd qi fmt cs out,
      selectDeviceLoop env devices p =
        { p with
          VulkanState :=
            { p.VulkanState with
              SelectedDevice := sd, SelectedDeviceQueueFamilyIndex := qi
              SurfaceFormat := fmt, SurfaceColorSpace := cs }
          stdout := p.stdout ++ out } := by
  induction devices generalizing p with
  | nil =>
    exact ⟨p.VulkanState.SelectedDevice, p.VulkanState.SelectedDeviceQueueFamilyIndex,
      p.VulkanState.SurfaceFormat, p.VulkanState.SurfaceColorSpace, [], by simp [selectDeviceLoop]⟩
  | cons D rest ih =>
    obtain ⟨fmt, cs, out, hres, _⟩ := queueFamilyLoop_frame env D D.QueueFamilies 0 p
    rw [selectDeviceLoop]
    by_cases hlt : (queueFamilyLoop env D D.QueueFamilies 0 p).1 < D.QueueFamilies.length
    · simp only [hlt, if_true]
      exact ⟨D.Device, (queueFamilyLoop env D D.QueueFamilies 0 p).1, fmt, cs, out, by rw [hres]⟩
    · simp only [hlt, if_false]
      obtain ⟨sd, qi, fmt2, cs2, out2, hres2⟩ := ih (queueFamilyLoop env D D.QueueFamilies 0 p).2
      exact ⟨sd, qi, fmt2, cs2, out ++ out2, by rw [hres2, hres]; simp [List.append_assoc]⟩

/-- The device selection records no call. -/
theorem selectDevice_calls (env : Env) (p : Process) :
    (∀ q, selectDevice env p = .ok q → q.calls = p.calls ∧ q.dispatched = p.dispatched) ∧
    (∀ r, selectDevice env p = .error r →
      r.process.calls = p.calls ∧ r.outcome = .returned (-1) ∧
      r.process.stdout.getLast? = some .noSuitableDevice) := by
  obtain ⟨sd, qi, fmt, cs, out, hres⟩ :=
    selectDeviceLoop_frame env p.VulkanState.PhysicalDevices p
  unfold selectDevice
  simp only
  constructor
  · intro q hq
    split at hq
    · cases hq
    · cases hq
      rw [hres]
      exact ⟨rfl, rfl⟩
  · intro r hr
    split at hr
    · cases hr
      rw [hres]
      simp [Process.print]
    · cases hr

/-- The block "Get surface properties" records no call. -/
theorem getSurfaceProperties_calls (env : Env) (p : Process) :
    (∀ q, getSurfaceProperties env p = .ok q → q.calls = p.calls ∧ q.dispatched = p.dispatched) ∧
    (∀ r, getSurfaceProperties env p = .error r →
      r.process.calls = p.calls ∧ r.outcome = .returned (-1) ∧
      r.process.stdout.getLast? = some .noSuitablePresentMode) := by
  unfold getSurfaceProperties
  simp only
  constructor
  · intro q hq
    split at hq
    · cases hq
    · cases hq
      exact ⟨rfl, rfl⟩
  · intro r hr
    split at hr
    · cases hr
      simp [Process.print]
    · cases hr

/-- Every call recorded in front of the device selection is a setup call; a
successful `prepare` has enumerated the physical devices, a run that stops in
`prepare` has not. -/
theorem prepare_calls (env : Env) :
    resultSetupOnly (prepare env) ∧
    (∀ p, prepare env = .ok p →
      VkCall.vkEnumeratePhysicalDevices ∈ p.calls ∧ p.stdout = [] ∧
      p.VulkanState.SelectedDevice = VK_NULL_HANDLE) ∧
    (∀ r, prepare env = .error r →
      VkCall.vkEnumeratePhysicalDevices ∉ r.process.calls ∧
      r.process.VulkanState.PhysicalDevices = [] ∧
      r.process.VulkanState.SelectedDevice = VK_NULL_HANDLE) := by
  unfold prepare win32OpenWindow enumerateVersion createInstance
  simp only [bind, Except.bind, pure, Except.pure]
  by_cases h1 : env.registerClassOk = true
  · by_cases h2 : env.createWindowOk = true
    · by_cases h3 : (VulkanExtractVersion env.instanceVersion).MajorVersion ≥ 1 ∧
          (VulkanExtractVersion env.instanceVersion).MinorVersion ≥ 1
      · by_cases h4 : anyMissing (findRequired Extensions env.instanceExtensions) = true
        · simp [h1, h2, h3, h4, enumerateInstance, resultSetupOnly, Process.setupOnly,
            Process.print]
        · by_cases h5 : anyMissing (findRequired Layers env.instanceLayers) = true
          · simp [h1, h2, h3, h4, h5, enumerateInstance, resultSetupOnly, Process.setupOnly,
              Process.print]
          · by_cases h6 : env.createInstanceResult = VK_SUCCESS
            · cases hd : env.debugReportCallbackFound <;>
                simp [h1, h2, h3, h4, h5, h6, hd, enumerateInstance, resultSetupOnly,
                  Process.setupOnly, Process.call, setupDebugCallback, enumeratePhysicalDevices,
                  createSurface, VkCall.phase]
            · simp [h1, h2, h3, h4, h5, h6, enumerateInstance, resultSetupOnly,
                Process.setupOnly, Process.call, VkCall.phase]
      · simp [h1, h2, h3, resultSetupOnly, Process.setupOnly]
    · simp [h1, h2, resultSetupOnly, Process.setupOnly]
  · simp [h1, resultSetupOnly, Process.setupOnly]

/-- The calls of `build`, which are setup calls and, when `build` succeeds,
include the creation of the swapchain. -/
theorem build_calls (env : Env) (p : Process) (hp : p.setupOnly) :
    resultSetupOnly (build env p) ∧
    (∀ q, build env p = .ok q →
      p.calls <+: q.calls ∧ (∃ info, VkCall.vkCreateSwapchainKHR info ∈ q.calls) ∧
      q.dispatched = p.dispatched ∧ q.stdout = p.stdout) ∧
    (∀ r, build env p = .error r → r.outcome = .assertFailed) := by
  have hsw : (createSwapchain env (createLogicalDevice p)).setupOnly := by
    intro c hc
    rw [createSwapchain_calls] at hc
    simp only [createLogicalDevice, Process.call, List.mem_append, List.mem_cons,
      List.mem_singleton, List.mem_map, List.not_mem_nil, or_false] at hc
    rcases hc with ((hc | hc | hc) | hc | hc) | ⟨img, _, hc⟩
    · exact hp c hc
    all_goals subst hc; rfl
  refine ⟨?_, ?_, fun r hr => build_error_outcome env p r hr⟩
  · cases hb : build env p with
    | ok q =>
      have hq := build_ok env p q hb
      intro c hc
      rw [hq] at hc
      simp only [createSemaphores, recordCommandBuffers, allocateCommandBuffers,
        createFramebuffers, Process.call, List.mem_append, List.mem_cons, List.mem_singleton,
        List.mem_map, List.mem_flatten, List.not_mem_nil, or_false] at hc
      rcases hc with (((((hc | hc | hc | hc | hc) | ⟨fb, _, hc⟩) | hc | hc) | ⟨l, ⟨i, _, hl⟩, hc⟩) | hc | hc)
      · exact hsw c hc
      all_goals first
        | (subst hc; rfl)
        | (subst hl
           simp only [List.mem_cons, List.mem_singleton, List.not_mem_nil, or_false] at hc
           rcases hc with hc | hc <;> (subst hc; rfl))
    | error r =>
      unfold build setupGraphicsPipeline win32LoadFile at hb
      simp only [bind, Except.bind, pure, Except.pure] at hb
      by_cases h1 : env.shaderFileOpens = true
      · by_cases h2 : env.shaderBytesRead = env.shaderFileSize
        · simp [h1, h2] at hb
        · simp [h1, h2] at hb
          subst hb
          exact hsw
      · simp [h1] at hb
        subst hb
        exact hsw
  · intro q hq
    have hq' := build_ok env p q hq
    have hcalls : q.calls = p.calls ++
        ([ VkCall.vkCreateDevice p.VulkanState.SelectedDevice
             p.VulkanState.SelectedDeviceQueueFamilyIndex
         , .vkGetDeviceQueue p.VulkanState.SelectedDeviceQueueFamilyIndex ] ++
         ((createSwapchain env (createLogicalDevice p)).calls.drop
            (createLogicalDevice p).calls.length ++
          (q.calls.drop (createSwapchain env (createLogicalDevice p)).calls.length))) := by
      have h1 : (createSwapchain env (createLogicalDevice p)).calls <+: q.calls := by
        rw [hq']
        simp only [createSemaphores, recordCommandBuffers, allocateCommandBuffers,
          createFramebuffers, Process.call, List.append_assoc]
        exact List.prefix_append _ _
      have h2 : (createLogicalDevice p).calls <+:
          (createSwapchain env (createLogicalDevice p)).calls := by
        rw [createSwapchain_calls, List.append_assoc]
        exact List.prefix_append _ _
      have e1 := List.prefix_iff_eq_append.1 h1
      have e2 := List.prefix_iff_eq_append.1 h2
      rw [← List.append_assoc, ← List.append_assoc]
      have e3 : p.calls ++ [ VkCall.vkCreateDevice p.VulkanState.SelectedDevice
             p.VulkanState.SelectedDeviceQueueFamilyIndex
         , .vkGetDeviceQueue p.VulkanState.SelectedDeviceQueueFamilyIndex ] =
          (createLogicalDevice p).calls := rfl
      rw [e3, e2, e1]
    refine ⟨?_, ?_, ?_, ?_⟩
    · rw [hcalls]
      exact List.prefix_append _ _
    · refine ⟨{ minImageCount := (createLogicalDevice p).VulkanState.SurfaceCapabilities.minImageCount
                imageFormat := (createLogicalDevice p).VulkanState.SurfaceFormat
                imageColorSpace := (createLogicalDevice p).VulkanState.SurfaceColorSpace
                imageExtent := (createLogicalDevice p).VulkanState.SurfaceExtent
                queueFamilyIndices :=
                  [(createLogicalDevice p).VulkanState.SelectedDeviceQueueFamilyIndex]
                presentMode := (createLogicalDevice p).VulkanState.SurfacePresentMode }, ?_⟩
      rw [hq']
      simp [createSemaphores, recordCommandBuffers, allocateCommandBuffers,
        createFramebuffers, Process.call, createSwapchain_calls]
    · rw [hq']
      simp [createSemaphores, recordCommandBuffers, allocateCommandBuffers,
        createFramebuffers, Process.call, createSwapchain, createLogicalDevice]
    · rw [hq']
      simp [createSemaphores, recordCommandBuffers, allocateCommandBuffers,
        createFramebuffers, Process.call, createSwapchain, createLogicalDevice]

/-- A successful `setup` went through its four parts. -/
theorem setup_ok_stages (env : Env) (p : Process) (h : setup env = .ok p) :
    ∃ p0 p1 p2, prepare env = .ok p0 ∧ selectDevice env p0 = .ok p1 ∧
      getSurfaceProperties env p1 = .ok p2 ∧ build env p2 = .ok p := by
  rw [setup_eq] at h
  cases h0 : prepare env with
  | error r => rw [h0] at h; cases h
  | ok p0 =>
    rw [h0] at h
    simp only at h
    cases h1 : selectDevice env p0 with
    | error r => rw [h1] at h; cases h
    | ok p1 =>
      rw [h1] at h
      simp only at h
      cases h2 : getSurfaceProperties env p1 with
      | error r => rw [h2] at h; cases h
      | ok p2 =>
        rw [h2] at h
        exact ⟨p0, p1, p2, rfl, h1, h2, h⟩

/-- A `setup` that stops the run stops it in one of its four parts. -/
theorem setup_error_stages (env : Env) (r : Run) (h : setup env = .error r) :
    prepare env = .error r ∨
    (∃ p0, prepare env = .ok p0 ∧ selectDevice env p0 = .error r) ∨
    (∃ p0 p1, prepare env = .ok p0 ∧ selectDevice env p0 = .ok p1 ∧
      getSurfaceProperties env p1 = .error r) ∨
    (∃ p0 p1 p2, prepare env = .ok p0 ∧ selectDevice env p0 = .ok p1 ∧
      getSurfaceProperties env p1 = .ok p2 ∧ build env p2 = .error r) := by
  rw [setup_eq] at h
  cases h0 : prepare env with
  | error r0 => rw [h0] at h; exact Or.inl h
  | ok p0 =>
    rw [h0] at h
    simp only at h
    cases h1 : selectDevice env p0 with
    | error r1 =>
      rw [h1] at h
      simp only at h
      exact Or.inr (Or.inl ⟨p0, rfl, h1.trans h⟩)
    | ok p1 =>
      rw [h1] at h
      simp only at h
      cases h2 : getSurfaceProperties env p1 with
      | error r2 =>
        rw [h2] at h
        simp only at h
        exact Or.inr (Or.inr (Or.inl ⟨p0, p1, rfl, h1, h2.trans h⟩))
      | ok p2 =>
        rw [h2] at h
        exact Or.inr (Or.inr (Or.inr ⟨p0, p1, p2, rfl, h1, h2, h⟩))

/-- Every call recorded by `setup` is a setup call, however `setup` ends. -/
theorem setup_setupOnly (env : Env) : resultSetupOnly (setup env) := by
  have hprep := (prepare_calls env).1
  cases hs : setup env with
  | ok p =>
    obtain ⟨p0, p1, p2, h0, h1, h2, h3⟩ := setup_ok_stages env p hs
    rw [h0] at hprep
    have i1 : p1.setupOnly := by
      intro c hc
      rw [((selectDevice_calls env p0).1 p1 h1).1] at hc
      exact hprep c hc
    have i2 : p2.setupOnly := by
      intro c hc
      rw [((getSurfaceProperties_calls env p1).1 p2 h2).1] at hc
      exact i1 c hc
    have := (build_calls env p2 i2).1
    rw [h3] at this
    exact this
  | error r =>
    rcases setup_error_stages env r hs with h0 | ⟨p0, h0, h1⟩ | ⟨p0, p1, h0, h1, h2⟩ |
      ⟨p0, p1, p2, h0, h1, h2, h3⟩
    · rw [h0] at hprep
      exact hprep
    · rw [h0] at hprep
      intro c hc
      rw [((selectDevice_calls env p0).2 r h1).1] at hc
      exact hprep c hc
    · rw [h0] at hprep
      intro c hc
      rw [((getSurfaceProperties_calls env p1).2 r h2).1,
        ((selectDevice_calls env p0).1 p1 h1).1] at hc
      exact hprep c hc
    · rw [h0] at hprep
      have i1 : p1.setupOnly := by
        intro c hc
        rw [((selectDevice_calls env p0).1 p1 h1).1] at hc
        exact hprep c hc
      have i2 : p2.setupOnly := by
        intro c hc
        rw [((getSurfaceProperties_calls env p1).1 p2 h2).1] at hc
        exact i1 c hc
      have := (build_calls env p2 i2).1
      rw [h3] at this
      exact this

/-- The calls of the block "Render" are frame calls, the first of them the
one acquisition. -/
theorem renderCalls_phase (CommandBuffers : List VkCommandBuffer) (f : FrameInput) :
    (∀ c ∈ renderCalls CommandBuffers f, c.phase = .frame) ∧
    (renderCalls CommandBuffers f).countP VkCall.isAcquire = 1 := by
  constructor
  · intro c hc
    simp only [renderCalls, List.mem_cons, List.mem_singleton, List.not_mem_nil, or_false] at hc
    rcases hc with hc | hc | hc | hc <;> (subst hc; rfl)
  · rfl

/-- The record of a run: setup calls followed by frame calls. -/
theorem main_calls (env : Env) :
    ∃ setupCalls frameCalls : List VkCall,
      (main env).process.calls = setupCalls ++ frameCalls ∧
      (∀ c ∈ setupCalls, c.phase = .setup) ∧ (∀ c ∈ frameCalls, c.phase = .frame) ∧
      (∀ p, setup env = .ok p → setupCalls = p.calls) := by
  have hsetup := setup_setupOnly env
  rw [main_eq]
  cases hs : setup env with
  | error r =>
    rw [hs] at hsetup
    exact ⟨r.process.calls, [], by simp, hsetup, by simp, fun p hp => by cases hp⟩
  | ok p =>
    rw [hs] at hsetup
    obtain ⟨ex, un, _, hres, _⟩ := frameLoop_split env.frames p
    refine ⟨p.calls, (ex.map (renderCalls p.VulkanState.CommandBuffers)).flatten, ?_, hsetup, ?_,
      fun p' hp' => by cases hp'; rfl⟩
    · simp only
      split <;> simp [hres]
    · intro c hc
      simp only [List.mem_flatten, List.mem_map] at hc
      obtain ⟨l, ⟨f, _, rfl⟩, hc⟩ := hc
      exact (renderCalls_phase _ f).1 c hc

/-- The two availability checks of `prepare`, once the window is open and the
version assertion holds. -/
theorem prepare_checks (env : Env)
    (hreg : env.registerClassOk = true) (hwin : env.createWindowOk = true)
    (hver : (VulkanExtractVersion env.instanceVersion).MajorVersion ≥ 1 ∧
      (VulkanExtractVersion env.instanceVersion).MinorVersion ≥ 1) :
    ((∃ e ∈ Extensions, e ∉ env.instanceExtensions) →
      ∃ q, prepare env = .error ⟨.returned (-1), q⟩ ∧ q.stdout = [.unavailableExtension] ∧
        q.calls = []) ∧
    ((∀ e ∈ Extensions, e ∈ env.instanceExtensions) → (∃ l ∈ Layers, l ∉ env.instanceLayers) →
      ∃ q, prepare env = .error ⟨.returned (-1), q⟩ ∧ q.stdout = [.unavailableLayer] ∧
        q.calls = []) ∧
    ((∀ e ∈ Extensions, e ∈ env.instanceExtensions) → (∀ l ∈ Layers, l ∈ env.instanceLayers) →
      ∀ r, prepare env = .error r → r.outcome = .assertFailed) := by
  have hext : anyMissing (findRequired Extensions env.instanceExtensions) = true ↔
      ∃ e ∈ Extensions, e ∉ env.instanceExtensions := anyMissing_findRequired _ _
  have hlay : anyMissing (findRequired Layers env.instanceLayers) = true ↔
      ∃ l ∈ Layers, l ∉ env.instanceLayers := anyMissing_findRequired _ _
  unfold prepare win32OpenWindow enumerateVersion createInstance
  simp only [bind, Except.bind, pure, Except.pure, hreg, hwin, hver, enumerateInstance]
  refine ⟨fun h => ?_, fun h1 h2 => ?_, fun h1 h2 r hr => ?_⟩
  · have h4 := hext.2 h
    simp [h4, Process.print]
  · have h4 : ¬ anyMissing (findRequired Extensions env.instanceExtensions) = true :=
      fun h => by
        obtain ⟨e, he, hne⟩ := hext.1 h
        exact hne (h1 e he)
    have h5 := hlay.2 h2
    simp [h4, h5, Process.print]
  · have h4 : ¬ anyMissing (findRequired Extensions env.instanceExtensions) = true :=
      fun h => by
        obtain ⟨e, he, hne⟩ := hext.1 h
        exact hne (h1 e he)
    have h5 : ¬ anyMissing (findRequired Layers env.instanceLayers) = true :=
      fun h => by
        obtain ⟨l, hl, hne⟩ := hlay.1 h
        exact hne (h2 l hl)
    by_cases h6 : env.createInstanceResult = VK_SUCCESS
    · simp [h4, h5, h6] at hr
    · simp [h4, h5, h6] at hr
      rw [← hr]

/-- A run that stops in `setup` ends as `setup` ended. -/
theorem main_of_setup_error (env : Env) (r : Run) (h : setup env = .error r) :
    main env = r := by
  rw [main_eq, h]

/-- A run whose `setup` succeeds ends running or with return code `0`. -/
theorem main_of_setup_ok (env : Env) (p : Process) (h : setup env = .ok p) :
    main env =
      if (frameLoop env.frames true p).1 then ⟨.running, (frameLoop env.frames true p).2⟩
      else ⟨.returned 0, (frameLoop env.frames true p).2⟩ := by
  rw [main_eq, h]

/-- A pump over messages without `WM_QUIT` dispatches them all. -/
theorem dispatchedBy_of_not_quitSeen (messages : List MSG)
    (h : quitSeen messages = false) : dispatchedBy messages = messages := by
  unfold quitSeen at h
  unfold dispatchedBy
  rw [List.takeWhile_eq_self_iff]
  intro m hm
  have := (List.any_eq_false.1 h) m hm
  simpa using this

/-- A pump over messages with `WM_QUIT` sees it and dispatches the messages
in front of the first one. -/
theorem pump_front (front behind : List MSG) (h : ∀ m ∈ front, m.message ≠ WM_QUIT) :
    quitSeen (front ++ ⟨WM_QUIT⟩ :: behind) = true ∧
    dispatchedBy (front ++ ⟨WM_QUIT⟩ :: behind) = front := by
  constructor
  · simp [quitSeen]
  · unfold dispatchedBy
    induction front with
    | nil => simp [List.takeWhile]
    | cons m rest ih =>
      have hm : m.message ≠ WM_QUIT := h m (List.mem_cons_self _ _)
      simp only [List.cons_append, List.takeWhile_cons, hm, ne_eq, not_false_eq_true,
        decide_True, if_true]
      rw [ih (fun m' hm' => h m' (List.mem_cons_of_mem _ hm'))]

/-! ## Exit codes, startup checks, teardown, quit -/

/-- C12: the return code of `main`.  It is `0` when `setup` succeeds and the
frame loop is left on a quit request; it is `-1`, hence not zero, in each of
the four fatal initialisation failures: a required instance extension is not
enumerated, a required layer is not enumerated (window open and version
assertion passed), no eligible device and queue family exist, and `FIFO` is
not among the present modes of the selected device.  Each failure prints its
own line last. -/
theorem main_return_codes (env : Env) :
    (∀ p pre f post, setup env = .ok p → env.frames = pre ++ f :: post →
      (∀ g ∈ pre, quitSeen g.messages = false) → quitSeen f.messages = true →
      (main env).outcome = .returned 0) ∧
    (env.registerClassOk = true → env.createWindowOk = true →
      ((VulkanExtractVersion env.instanceVersion).MajorVersion ≥ 1 ∧
        (VulkanExtractVersion env.instanceVersion).MinorVersion ≥ 1) →
      ((∃ e ∈ Extensions, e ∉ env.instanceExtensions) →
        (main env).outcome = .returned (-1) ∧
        (main env).process.stdout = [.unavailableExtension]) ∧
      ((∀ e ∈ Extensions, e ∈ env.instanceExtensions) →
        (∃ l ∈ Layers, l ∉ env.instanceLayers) →
        (main env).outcome = .returned (-1) ∧
        (main env).process.stdout = [.unavailableLayer])) ∧
    (∀ p0, prepare env = .ok p0 →
      (∀ D ∈ p0.VulkanState.PhysicalDevices, ∀ j, ¬ eligiblePair env D j) →
      (main env).outcome = .returned (-1) ∧
      (main env).process.stdout.getLast? = some .noSuitableDevice) ∧
    (∀ p1, initialise env = .ok p1 →
      VK_PRESENT_MODE_FIFO_KHR ∉ env.presentModes p1.VulkanState.SelectedDevice →
      (main env).outcome = .returned (-1) ∧
      (main env).process.stdout.getLast? = some .noSuitablePresentMode) ∧
    ((-1 : Int) ≠ 0) := by
  refine ⟨?_, ?_, ?_, ?_, by decide⟩
  · intro p pre f post hs hframes hpre hf
    rw [main_of_setup_ok env p hs, hframes, frameLoop_append pre (f :: post) p hpre,
      frameLoop_cons, hf]
    simp [frameLoop_stopped]
  · intro hreg hwin hver
    obtain ⟨hE, hL, _⟩ := prepare_checks env hreg hwin hver
    constructor
    · intro hmiss
      obtain ⟨q, hq, hout, _⟩ := hE hmiss
      have : setup env = .error ⟨.returned (-1), q⟩ := by rw [setup_eq, hq]
      rw [main_of_setup_error env _ this]
      exact ⟨rfl, hout⟩
    · intro hall hmiss
      obtain ⟨q, hq, hout, _⟩ := hL hall hmiss
      have : setup env = .error ⟨.returned (-1), q⟩ := by rw [setup_eq, hq]
      rw [main_of_setup_error env _ this]
      exact ⟨rfl, hout⟩
  · intro p0 h0 hno
    obtain ⟨fmt, cs, out, hres, _⟩ := selectDeviceLoop_none env _ p0 hno
    have hnull := ((prepare_calls env).2.1 p0 h0).2.2
    have hsel : selectDevice env p0 =
        .error ⟨.returned (-1),
          (selectDeviceLoop env p0.VulkanState.PhysicalDevices p0).print .noSuitableDevice⟩ := by
      unfold selectDevice
      simp only
      rw [if_pos]
      rw [hres]
      exact hnull
    have : setup env = .error ⟨.returned (-1),
        (selectDeviceLoop env p0.VulkanState.PhysicalDevices p0).print .noSuitableDevice⟩ := by
      rw [setup_eq, h0]
      simp only [hsel]
    rw [main_of_setup_error env _ this]
    exact ⟨rfl, by simp [Process.print]⟩
  · intro p1 h1 habs
    obtain ⟨q, hq, hout⟩ := getSurfaceProperties_absent env p1 habs
    rw [main_of_initialise env p1 h1, hq]
    exact ⟨rfl, by simp [bind, Except.bind, hout]⟩

/-- C12 at three environments: `sampleEnv` quits at its second pump and
returns `0`; `sampleEnv` without the extension `VK_KHR_surface` returns `-1`;
`sampleEnv` without `FIFO` returns `-1`. -/
theorem main_return_codes_witness :
    (main sampleEnv).outcome = .returned 0 ∧
    ((main (sampleEnvInstance ["VK_KHR_win32_surface", "VK_EXT_debug_report",
        "VK_EXT_debug_utils"] Layers)).outcome = .returned (-1) ∧
      (main (sampleEnvInstance ["VK_KHR_win32_surface", "VK_EXT_debug_report",
        "VK_EXT_debug_utils"] Layers)).process.stdout = [.unavailableExtension]) ∧
    ((main sampleEnvNoFifo).outcome = .returned (-1) ∧
      (main sampleEnvNoFifo).process.stdout.getLast? = some .noSuitablePresentMode) :=
  ⟨(main_return_codes sampleEnv).1 sampleReady [{ ImageIndex := 0 }]
      { ImageIndex := 1, messages := [⟨WM_PAINT⟩, ⟨WM_QUIT⟩, ⟨WM_PAINT⟩] }
      [{ ImageIndex := 0 }] rfl rfl (by decide) (by decide),
   ((main_return_codes (sampleEnvInstance ["VK_KHR_win32_surface", "VK_EXT_debug_report",
        "VK_EXT_debug_utils"] Layers)).2.1 rfl rfl (by decide)).1
      ⟨"VK_KHR_surface", by decide, by decide⟩,
   (main_return_codes sampleEnvNoFifo).2.2.2.1 sampleSelected rfl (by decide)⟩

/-- C16, as stated, fails: the run of `sampleEnv` creates a swapchain, leaves
the frame loop on a quit request and returns `0`, and its record contains no
teardown call: neither `vkDestroySwapchainKHR` nor `vkDestroyDevice` nor the
destruction of either image view. -/
theorem main_normal_quit_without_teardown :
    (main sampleEnv).outcome = .returned 0 ∧
    VkCall.vkCreateSwapchainKHR
        { minImageCount := 2
          imageFormat := VK_FORMAT_B8G8R8A8_UNORM
          imageColorSpace := VK_COLOR_SPACE_SRGB_NONLINEAR_KHR
          imageExtent := ⟨800, 600⟩
          queueFamilyIndices := [0]
          presentMode := VK_PRESENT_MODE_FIFO_KHR } ∈ (main sampleEnv).process.calls ∧
    VkCall.vkDestroySwapchainKHR ∉ (main sampleEnv).process.calls ∧
    VkCall.vkDestroyDevice ∉ (main sampleEnv).process.calls ∧
    VkCall.vkDestroyImageView ⟨100, VK_FORMAT_B8G8R8A8_UNORM⟩ ∉ (main sampleEnv).process.calls ∧
    VkCall.vkDestroyImageView ⟨101, VK_FORMAT_B8G8R8A8_UNORM⟩ ∉ (main sampleEnv).process.calls ∧
    (∀ c ∈ (main sampleEnv).process.calls, c.phase ≠ .teardown) := by
  decide

/-- C16, amended: the program performs no teardown.  On every exit path, a
normal quit after the creation of a swapchain included, the record of the run
consists of setup calls followed by the calls of the frame loop, and contains
no destroy call for an image view, for the swapchain or for the device. -/
theorem main_records_no_teardown (env : Env) :
    (∃ setupCalls frameCalls : List VkCall,
      (main env).process.calls = setupCalls ++ frameCalls ∧
      (∀ c ∈ setupCalls, c.phase = .setup) ∧ (∀ c ∈ frameCalls, c.phase = .frame)) ∧
    (∀ c ∈ (main env).process.calls, c.phase ≠ .teardown) ∧
    (∀ view, VkCall.vkDestroyImageView view ∉ (main env).process.calls) ∧
    VkCall.vkDestroySwapchainKHR ∉ (main env).process.calls ∧
    VkCall.vkDestroyDevice ∉ (main env).process.calls ∧
    (∀ p, setup env = .ok p → ∃ info, VkCall.vkCreateSwapchainKHR info ∈ (main env).process.calls) := by
  obtain ⟨sc, fc, hcalls, hsc, hfc, hp⟩ := main_calls env
  have hno : ∀ c ∈ (main env).process.calls, c.phase ≠ .teardown := by
    intro c hc
    rw [hcalls] at hc
    rcases List.mem_append.1 hc with h | h
    · rw [hsc c h]
      decide
    · rw [hfc c h]
      decide
  refine ⟨⟨sc, fc, hcalls, hsc, hfc⟩, hno, fun view h => hno _ h rfl, fun h => hno _ h rfl,
    fun h => hno _ h rfl, fun p hs => ?_⟩
  obtain ⟨p0, p1, p2, h0, h1, h2, h3⟩ := setup_ok_stages env p hs
  have hprep := (prepare_calls env).1
  rw [h0] at hprep
  have i2 : p2.setupOnly := by
    intro c hc
    rw [((getSurfaceProperties_calls env p1).1 p2 h2).1,
      ((selectDevice_calls env p0).1 p1 h1).1] at hc
    exact hprep c hc
  obtain ⟨info, hinfo⟩ := ((build_calls env p2 i2).2.1 p h3).2.1
  refine ⟨info, ?_⟩
  rw [hcalls, hp p hs]
  exact List.mem_append_left _ hinfo

/-- The acquisitions among the calls of a sequence of "Render" blocks: one
for each block. -/
theorem countP_isAcquire_blocks (CommandBuffers : List VkCommandBuffer)
    (frames : List FrameInput) :
    ((frames.map (renderCalls CommandBuffers)).flatten).countP VkCall.isAcquire =
      frames.length := by
  induction frames with
  | nil => rfl
  | cons f rest ih =>
    rw [List.map_cons, List.flatten_cons, List.countP_append, ih,
      (renderCalls_phase CommandBuffers f).2, List.length_cons]
    omega

/-- Setup calls contain no acquisition. -/
theorem countP_isAcquire_setupOnly (p : Process) (h : p.setupOnly) :
    p.calls.countP VkCall.isAcquire = 0 := by
  rw [List.countP_eq_zero]
  intro c hc hacq
  have hph := h c hc
  cases c <;> simp [VkCall.isAcquire] at hacq
  simp [VkCall.phase] at hph

/-- C18: a quit request met by the pump at the start of an iteration does
not end that iteration.  When `setup` has succeeded, the pumps of the first
`pre.length` iterations meet no `WM_QUIT` and the next pump meets one behind
the messages `front`, the run still makes the four calls of "Render" for that
iteration, then leaves the loop and `main` returns `0`; the messages behind
the `WM_QUIT` are not dispatched (the dispatched messages are those of the
earlier pumps and `front`); and the record of the run holds exactly
`pre.length + 1` acquisitions, one for each pump up to the one that met the
quit request. -/
theorem main_quit_renders_once_more (env : Env) (p : Process)
    (pre post : List FrameInput) (f : FrameInput) (front behind : List MSG)
    (hsetup : setup env = .ok p) (hframes : env.frames = pre ++ f :: post)
    (hpre : ∀ g ∈ pre, quitSeen g.messages = false)
    (hf : f.messages = front ++ ⟨WM_QUIT⟩ :: behind)
    (hfront : ∀ m ∈ front, m.message ≠ WM_QUIT) :
    main env =
      ⟨.returned 0,
        { p with
          calls := p.calls ++ (pre.map (renderCalls p.VulkanState.CommandBuffers)).flatten ++
            [ .vkAcquireNextImageKHR UINT64_MAX .ImageAvailableSemaphore VK_NULL_HANDLE
                f.acquireResult f.ImageIndex
            , .vkQueueSubmit
                { pWaitSemaphores := [.ImageAvailableSemaphore]
                  pWaitDstStageMask := [VK_PIPELINE_STAGE_COLOR_ATTACHMENT_OUTPUT_BIT]
                  commandBufferCount := 1
                  pCommandBuffers := [p.VulkanState.CommandBuffers[f.ImageIndex]?]
                  pSignalSemaphores := [.RenderFinishedSemaphore] }
            , .vkQueuePresentKHR
                { pWaitSemaphores := [.RenderFinishedSemaphore]
                  swapchainCount := 1
                  pImageIndices := [f.ImageIndex] }
            , .vkQueueWaitIdle ]
          dispatched := p.dispatched ++ (pre.map fun g => g.messages).flatten ++ front }⟩ ∧
    (main env).process.calls.countP VkCall.isAcquire = pre.length + 1 := by
  obtain ⟨hq, hd⟩ := pump_front front behind hfront
  rw [← hf] at hq hd
  have hpremsgs : (pre.map fun g => dispatchedBy g.messages) = pre.map fun g => g.messages := by
    apply List.map_congr_left
    intro g hg
    exact dispatchedBy_of_not_quitSeen g.messages (hpre g hg)
  have hmain : main env =
      ⟨.returned 0,
        { p with
          calls := p.calls ++ (pre.map (renderCalls p.VulkanState.CommandBuffers)).flatten ++
            renderCalls p.VulkanState.CommandBuffers f
          dispatched := p.dispatched ++ (pre.map fun g => g.messages).flatten ++ front }⟩ := by
    rw [main_of_setup_ok env p hsetup, hframes, frameLoop_append pre (f :: post) p hpre,
      frameLoop_cons, hq, hpremsgs, hd]
    simp [frameLoop_stopped]
  refine ⟨hmain, ?_⟩
  have hso : p.setupOnly := by
    have := setup_setupOnly env
    rw [hsetup] at this
    exact this
  rw [hmain]
  simp only [List.countP_append, countP_isAcquire_setupOnly p hso, countP_isAcquire_blocks,
    (renderCalls_phase _ f).2, Nat.zero_add]

/-- C18 at `sampleEnv`: the quit request arrives at the second pump, behind
one `WM_PAINT` and in front of another; the run returns `0` with exactly two
acquisitions and one dispatched message. -/
theorem main_quit_renders_once_more_witness :
    (main sampleEnv).outcome = .returned 0 ∧
    (main sampleEnv).process.calls.countP VkCall.isAcquire = 2 ∧
    (main sampleEnv).process.dispatched = [⟨WM_PAINT⟩] :=
  ⟨congrArg Run.outcome
      (main_quit_renders_once_more sampleEnv sampleReady [{ ImageIndex := 0 }]
        [{ ImageIndex := 0 }] { ImageIndex := 1, messages := [⟨WM_PAINT⟩, ⟨WM_QUIT⟩, ⟨WM_PAINT⟩] }
        [⟨WM_PAINT⟩] [⟨WM_PAINT⟩] rfl rfl (by decide) rfl (by decide)).1,
   (main_quit_renders_once_more sampleEnv sampleReady [{ ImageIndex := 0 }]
        [{ ImageIndex := 0 }] { ImageIndex := 1, messages := [⟨WM_PAINT⟩, ⟨WM_QUIT⟩, ⟨WM_PAINT⟩] }
        [⟨WM_PAINT⟩] [⟨WM_PAINT⟩] rfl rfl (by decide) rfl (by decide)).2,
   by decide⟩

/-! ## Version extraction -/

/-- Packing with shifts and bitwise or is the sum of the three fields when
the two lower fields fit their widths. -/
theorem pack_version_eq_add (major minor patch : Nat) (hminor : minor < 1024)
    (hpatch : patch < 4096) :
    (major <<< 22) ||| (minor <<< 12) ||| patch = major * 4194304 + minor * 4096 + patch := by
  have h1 : (minor <<< 12) ||| patch = minor * 4096 + patch := by
    rw [Nat.shiftLeft_eq, show (2 : Nat) ^ 12 = 4096 by norm_num, Nat.mul_comm,
      show (4096 : Nat) = 2 ^ 12 by norm_num]
    exact (Nat.mul_add_lt_is_or (by simpa using hpatch) minor).symm
  have h2 : minor * 4096 + patch < 2 ^ 22 := by
    norm_num
    omega
  rw [Nat.lor_assoc, h1, Nat.shiftLeft_eq, Nat.mul_comm major,
    ← Nat.mul_add_lt_is_or h2 major]
  norm_num
  omega

/-- C21: for every 32-bit `ApiVersion`, `VulkanExtractVersion` returns the
input unchanged in `ApiVersion`, with `MajorVersion = ApiVersion >> 22`,
`MinorVersion = (ApiVersion >> 12) & 0x3FF` and `PatchVersion = ApiVersion &
0xFFF`; the minor field is below 1024, the patch field below 4096 and the
major field below 1024, so that no shift of the packing leaves 32 bits, and
`(Major << 22) | (Minor << 12) | Patch` is the input again. -/
theorem VulkanExtractVersion_roundtrip (ApiVersion : Nat) (h : ApiVersion < 2 ^ 32) :
    (VulkanExtractVersion ApiVersion).ApiVersion = ApiVersion ∧
    (VulkanExtractVersion ApiVersion).MajorVersion = ApiVersion >>> 22 ∧
    (VulkanExtractVersion ApiVersion).MinorVersion = (ApiVersion >>> 12) &&& 0x3FF ∧
    (VulkanExtractVersion ApiVersion).PatchVersion = ApiVersion &&& 0xFFF ∧
    (VulkanExtractVersion ApiVersion).MinorVersion < 1024 ∧
    (VulkanExtractVersion ApiVersion).PatchVersion < 4096 ∧
    (VulkanExtractVersion ApiVersion).MajorVersion < 1024 ∧
    ((VulkanExtractVersion ApiVersion).MajorVersion <<< 22 < 2 ^ 32 ∧
      (VulkanExtractVersion ApiVersion).MinorVersion <<< 12 < 2 ^ 32) ∧
    ((VulkanExtractVersion ApiVersion).MajorVersion <<< 22) |||
        ((VulkanExtractVersion ApiVersion).MinorVersion <<< 12) |||
        (VulkanExtractVersion ApiVersion).PatchVersion = ApiVersion := by
  have hmajor : VK_VERSION_MAJOR ApiVersion = ApiVersion / 4194304 := by
    simp [VK_VERSION_MAJOR, Nat.shiftRight_eq_div_pow]
  have hminor : VK_VERSION_MINOR ApiVersion = ApiVersion / 4096 % 1024 := by
    have := Nat.and_pow_two_sub_one_eq_mod (ApiVersion >>> 12) 10
    simp only [VK_VERSION_MINOR]
    rw [show (0x3ff : Nat) = 2 ^ 10 - 1 by norm_num, this, Nat.shiftRight_eq_div_pow]
  have hpatch : VK_VERSION_PATCH ApiVersion = ApiVersion % 4096 := by
    have := Nat.and_pow_two_sub_one_eq_mod ApiVersion 12
    simp only [VK_VERSION_PATCH]
    rw [show (0xfff : Nat) = 2 ^ 12 - 1 by norm_num, this]
  have h32 : ApiVersion < 4294967296 := by simpa using h
  have hmi : VK_VERSION_MINOR ApiVersion < 1024 := by rw [hminor]; omega
  have hpa : VK_VERSION_PATCH ApiVersion < 4096 := by rw [hpatch]; omega
  have hma : VK_VERSION_MAJOR ApiVersion < 1024 := by rw [hmajor]; omega
  refine ⟨rfl, rfl, rfl, rfl, hmi, hpa, hma, ⟨?_, ?_⟩, ?_⟩
  · show VK_VERSION_MAJOR ApiVersion <<< 22 < 2 ^ 32
    rw [Nat.shiftLeft_eq]
    norm_num
    omega
  · show VK_VERSION_MINOR ApiVersion <<< 12 < 2 ^ 32
    rw [Nat.shiftLeft_eq]
    norm_num
    omega
  · show (VK_VERSION_MAJOR ApiVersion <<< 22) ||| (VK_VERSION_MINOR ApiVersion <<< 12) |||
        VK_VERSION_PATCH ApiVersion = ApiVersion
    rw [pack_version_eq_add _ _ _ hmi hpa, hmajor, hminor, hpatch]
    omega

/-- C21 at the version word of Vulkan 1.3.250: the fields are `1`, `3` and
`250`, and packing them gives `4206842` again. -/
theorem VulkanExtractVersion_roundtrip_witness :
    VulkanExtractVersion 4206842 =
      { ApiVersion := 4206842, MajorVersion := 1, MinorVersion := 3, PatchVersion := 250 } ∧
    ((VulkanExtractVersion 4206842).MajorVersion <<< 22) |||
        ((VulkanExtractVersion 4206842).MinorVersion <<< 12) |||
        (VulkanExtractVersion 4206842).PatchVersion = 4206842 :=
  ⟨by decide, (VulkanExtractVersion_roundtrip 4206842 (by norm_num)).2.2.2.2.2.2.2.2⟩

end Ladybug
